import Mathlib

/-!
# The native R-API shim `Rinternals_truffle_common.h`

A verification development for the native half of the FastR foreign-function
bridge.  Every C function of the translation unit is embedded as a Lean
function in the monad `M`, statement by statement.  A run of a function yields
an outcome (normal return or one of the ways control does not come back) and
the chronological trace of the calls it made across the boundary.

Modelling conventions.

* A C value (handle, pointer, integer, double, C string, routine table) is a
  `Val`.  Casts between pointer and scalar types, such as `(int)`, `(Rboolean)`,
  `(R_xlen_t)`, `(DL_FUNC)` or `(void *)`, are the identity on `Val`: the
  callback typedefs `call_*` they convert from are declared outside this file.
* `TRACE*` expand to nothing because `TRACE_UPCALLS` is 0.
* The callback table, the exit-check guard, the fatal abort and the three
  normalization hooks are supplied from outside the file; they are the fields
  of `Env` or the primitives defined next to it.
* `__FUNCTION__` is the frame component of the monad, set by `enter`.
* A call through a function pointer is answered by the environment: the callee
  comes back with a value or does not come back at all.
* Undefined behaviour (NULL dereference, out-of-bounds access, signed overflow)
  ends a run with `Stop.crashed`.
-/

namespace FastR

set_option linter.unusedVariables false

/-! ## Names -/

/-- The functions defined in the file, in source order. -/
inductive Fn
  | R_ExternalPtrAddrFn
  | R_MakeExternalPtrFn
  | FASTR_R_GlobalEnv
  | FASTR_R_BaseEnv
  | FASTR_R_BaseNamespace
  | FASTR_R_NamespaceRegistry
  | FASTR_GlobalContext
  | FASTR_R_Interactive
  | CAR
  | CDR
  | LENGTH
  | Rf_ScalarString
  | Rf_mkString
  | Rf_gsetVar
  | Rf_coerceVector
  | Rf_cons
  | Rf_GetOption1
  | Rf_mkChar
  | Rf_mkCharCE
  | Rf_mkCharLen
  | Rf_mkCharLenCE
  | Rvsnprintf
  | Rf_errorcall
  | Rf_warningcall
  | Rf_warning
  | Rprintf
  | Rf_error
  | REprintf
  | Rvprintf
  | REvprintf
  | Rf_ScalarInteger
  | Rf_ScalarReal
  | Rf_ScalarLogical
  | Rf_allocVector3
  | Rf_allocArray
  | Rf_alloc3DArray
  | Rf_allocMatrix
  | Rf_allocList
  | Rf_allocSExp
  | Rf_defineVar
  | Rf_setVar
  | Rf_dimgets
  | Rf_dimnamesgets
  | Rf_eval
  | Rf_findFun
  | Rf_findVar
  | Rf_findVarInFrame
  | Rf_findVarInFrame3
  | Rf_getAttrib
  | Rf_setAttrib
  | Rf_duplicate
  | Rf_shallow_duplicate
  | Rf_any_duplicated
  | Rf_any_duplicated3
  | Rf_duplicated
  | Rf_applyClosure
  | Rf_copyMostAttrib
  | Rf_copyVector
  | Rf_countContexts
  | Rf_inherits
  | Rf_isObject
  | Rf_PrintValue
  | Rf_install
  | Rf_installChar
  | Rf_isNull
  | Rf_isString
  | R_cycle_detected
  | Rf_getCharCE
  | Rf_reEnc
  | Rf_ncols
  | Rf_nrows
  | Rf_protect
  | Rf_unprotect
  | R_ProtectWithIndex
  | R_Reprotect
  | Rf_unprotect_ptr
  | R_FlushConsole
  | R_ProcessEvents
  | R_NewHashedEnv
  | Rf_classgets
  | Rf_translateChar
  | Rf_translateChar0
  | Rf_translateCharUTF8
  | Rf_lengthgets
  | Rf_xlengthgets
  | R_lsInternal
  | R_lsInternal3
  | Rf_namesgets
  | TAG
  | PRINTNAME
  | CAAR
  | CDAR
  | CADR
  | CDDR
  | CDDDR
  | CADDR
  | CADDDR
  | CAD4R
  | MISSING
  | SET_MISSING
  | SET_TAG
  | SETCAR
  | SETCDR
  | SETCADR
  | SETCADDR
  | SETCADDDR
  | SETCAD4R
  | FORMALS
  | BODY
  | CLOENV
  | RDEBUG
  | RSTEP
  | RTRACE
  | SET_RDEBUG
  | SET_RSTEP
  | SET_RTRACE
  | SET_FORMALS
  | SET_BODY
  | SET_CLOENV
  | SYMVALUE
  | INTERNAL
  | DDVAL
  | SET_DDVAL
  | SET_SYMVALUE
  | SET_INTERNAL
  | FRAME
  | ENCLOS
  | HASHTAB
  | ENVFLAGS
  | SET_ENVFLAGS
  | SET_FRAME
  | SET_ENCLOS
  | SET_HASHTAB
  | PRCODE
  | PRENV
  | PRVALUE
  | PRSEEN
  | SET_PRSEEN
  | SET_PRENV
  | SET_PRVALUE
  | SET_PRCODE
  | TRUELENGTH
  | SETLENGTH
  | SET_TRUELENGTH
  | XLENGTH
  | XTRUELENGTH
  | IS_LONG_VEC
  | LEVELS
  | SETLEVELS
  | FASTR_INTEGER
  | FASTR_REAL
  | COMPLEX
  | LOGICAL
  | RAW
  | R_CHAR
  | STRING_ELT
  | VECTOR_ELT
  | SET_STRING_ELT
  | SET_VECTOR_ELT
  | STRING_PTR
  | VECTOR_PTR
  | Rf_asChar
  | Rf_PairToVectorList
  | Rf_VectorToPairList
  | Rf_asCharacterFactor
  | Rf_asLogical
  | Rf_asInteger
  | Rf_asReal
  | Rf_asComplex
  | TYPEOF
  | ATTRIB
  | OBJECT
  | MARK
  | NAMED
  | REFCNT
  | SET_OBJECT
  | SET_TYPEOF
  | SET_NAMED
  | SET_ATTRIB
  | DUPLICATE_ATTRIB
  | R_BadLongVector
  | IS_S4_OBJECT
  | SET_S4_OBJECT
  | UNSET_S4_OBJECT
  | R_ToplevelExec
  | R_ExecWithCleanup
  | R_RestoreHashCount
  | R_IsPackageEnv
  | R_PackageEnvName
  | R_FindPackageEnv
  | R_IsNamespaceEnv
  | R_FindNamespace
  | R_NamespaceEnvSpec
  | R_LockEnvironment
  | R_EnvironmentIsLocked
  | R_LockBinding
  | R_unLockBinding
  | R_MakeActiveBinding
  | R_BindingIsLocked
  | R_BindingIsActive
  | R_HasFancyBindings
  | Rf_isS4
  | Rf_asS4
  | R_tryEvalInternal
  | R_tryEval
  | R_tryEvalSilent
  | R_PromiseExpr
  | R_ClosureExpr
  | R_forceAndCall
  | R_MakeExternalPtr
  | R_ExternalPtrAddr
  | R_ExternalPtrTag
  | R_ExternalPtrProtected
  | R_SetExternalPtrAddr
  | R_SetExternalPtrTag
  | R_SetExternalPtrProtected
  | R_ClearExternalPtr
  | R_RegisterFinalizer
  | R_RegisterCFinalizer
  | R_RegisterFinalizerEx
  | R_RegisterCFinalizerEx
  | R_RunPendingFinalizers
  | R_MakeWeakRef
  | R_MakeWeakRefC
  | R_WeakRefKey
  | R_WeakRefValue
  | R_RunWeakRefFinalizer
  | R_do_slot
  | R_do_slot_assign
  | R_has_slot
  | R_do_MAKE_CLASS
  | R_getClassDef
  | R_do_new_object
  | nfiGetMethodsNamespace
  | R_check_class_etc
  | R_PreserveObject
  | R_ReleaseObject
  | R_dot_Last
  | R_compute_identical
  | Rf_copyListMatrix
  | Rf_copyMatrix
  | FASTR_getConnectionChar
  | Rf_str2type
  | R_registerRoutines
  | R_getEmbeddingDllInfo
  | R_useDynamicSymbols
  | R_forceSymbols
  | Rdynload_setSymbol
  | R_RegisterCCallable
  | R_GetCCallable
  | R_FindSymbol
  deriving DecidableEq, Repr

/-- The name of a function, as `__FUNCTION__` spells it. -/
def Fn.name : Fn → String
  | .R_ExternalPtrAddrFn => "R_ExternalPtrAddrFn"
  | .R_MakeExternalPtrFn => "R_MakeExternalPtrFn"
  | .FASTR_R_GlobalEnv => "FASTR_R_GlobalEnv"
  | .FASTR_R_BaseEnv => "FASTR_R_BaseEnv"
  | .FASTR_R_BaseNamespace => "FASTR_R_BaseNamespace"
  | .FASTR_R_NamespaceRegistry => "FASTR_R_NamespaceRegistry"
  | .FASTR_GlobalContext => "FASTR_GlobalContext"
  | .FASTR_R_Interactive => "FASTR_R_Interactive"
  | .CAR => "CAR"
  | .CDR => "CDR"
  | .LENGTH => "LENGTH"
  | .Rf_ScalarString => "Rf_ScalarString"
  | .Rf_mkString => "Rf_mkString"
  | .Rf_gsetVar => "Rf_gsetVar"
  | .Rf_coerceVector => "Rf_coerceVector"
  | .Rf_cons => "Rf_cons"
  | .Rf_GetOption1 => "Rf_GetOption1"
  | .Rf_mkChar => "Rf_mkChar"
  | .Rf_mkCharCE => "Rf_mkCharCE"
  | .Rf_mkCharLen => "Rf_mkCharLen"
  | .Rf_mkCharLenCE => "Rf_mkCharLenCE"
  | .Rvsnprintf => "Rvsnprintf"
  | .Rf_errorcall => "Rf_errorcall"
  | .Rf_warningcall => "Rf_warningcall"
  | .Rf_warning => "Rf_warning"
  | .Rprintf => "Rprintf"
  | .Rf_error => "Rf_error"
  | .REprintf => "REprintf"
  | .Rvprintf => "Rvprintf"
  | .REvprintf => "REvprintf"
  | .Rf_ScalarInteger => "Rf_ScalarInteger"
  | .Rf_ScalarReal => "Rf_ScalarReal"
  | .Rf_ScalarLogical => "Rf_ScalarLogical"
  | .Rf_allocVector3 => "Rf_allocVector3"
  | .Rf_allocArray => "Rf_allocArray"
  | .Rf_alloc3DArray => "Rf_alloc3DArray"
  | .Rf_allocMatrix => "Rf_allocMatrix"
  | .Rf_allocList => "Rf_allocList"
  | .Rf_allocSExp => "Rf_allocSExp"
  | .Rf_defineVar => "Rf_defineVar"
  | .Rf_setVar => "Rf_setVar"
  | .Rf_dimgets => "Rf_dimgets"
  | .Rf_dimnamesgets => "Rf_dimnamesgets"
  | .Rf_eval => "Rf_eval"
  | .Rf_findFun => "Rf_findFun"
  | .Rf_findVar => "Rf_findVar"
  | .Rf_findVarInFrame => "Rf_findVarInFrame"
  | .Rf_findVarInFrame3 => "Rf_findVarInFrame3"
  | .Rf_getAttrib => "Rf_getAttrib"
  | .Rf_setAttrib => "Rf_setAttrib"
  | .Rf_duplicate => "Rf_duplicate"
  | .Rf_shallow_duplicate => "Rf_shallow_duplicate"
  | .Rf_any_duplicated => "Rf_any_duplicated"
  | .Rf_any_duplicated3 => "Rf_any_duplicated3"
  | .Rf_duplicated => "Rf_duplicated"
  | .Rf_applyClosure => "Rf_applyClosure"
  | .Rf_copyMostAttrib => "Rf_copyMostAttrib"
  | .Rf_copyVector => "Rf_copyVector"
  | .Rf_countContexts => "Rf_countContexts"
  | .Rf_inherits => "Rf_inherits"
  | .Rf_isObject => "Rf_isObject"
  | .Rf_PrintValue => "Rf_PrintValue"
  | .Rf_install => "Rf_install"
  | .Rf_installChar => "Rf_installChar"
  | .Rf_isNull => "Rf_isNull"
  | .Rf_isString => "Rf_isString"
  | .R_cycle_detected => "R_cycle_detected"
  | .Rf_getCharCE => "Rf_getCharCE"
  | .Rf_reEnc => "Rf_reEnc"
  | .Rf_ncols => "Rf_ncols"
  | .Rf_nrows => "Rf_nrows"
  | .Rf_protect => "Rf_protect"
  | .Rf_unprotect => "Rf_unprotect"
  | .R_ProtectWithIndex => "R_ProtectWithIndex"
  | .R_Reprotect => "R_Reprotect"
  | .Rf_unprotect_ptr => "Rf_unprotect_ptr"
  | .R_FlushConsole => "R_FlushConsole"
  | .R_ProcessEvents => "R_ProcessEvents"
  | .R_NewHashedEnv => "R_NewHashedEnv"
  | .Rf_classgets => "Rf_classgets"
  | .Rf_translateChar => "Rf_translateChar"
  | .Rf_translateChar0 => "Rf_translateChar0"
  | .Rf_translateCharUTF8 => "Rf_translateCharUTF8"
  | .Rf_lengthgets => "Rf_lengthgets"
  | .Rf_xlengthgets => "Rf_xlengthgets"
  | .R_lsInternal => "R_lsInternal"
  | .R_lsInternal3 => "R_lsInternal3"
  | .Rf_namesgets => "Rf_namesgets"
  | .TAG => "TAG"
  | .PRINTNAME => "PRINTNAME"
  | .CAAR => "CAAR"
  | .CDAR => "CDAR"
  | .CADR => "CADR"
  | .CDDR => "CDDR"
  | .CDDDR => "CDDDR"
  | .CADDR => "CADDR"
  | .CADDDR => "CADDDR"
  | .CAD4R => "CAD4R"
  | .MISSING => "MISSING"
  | .SET_MISSING => "SET_MISSING"
  | .SET_TAG => "SET_TAG"
  | .SETCAR => "SETCAR"
  | .SETCDR => "SETCDR"
  | .SETCADR => "SETCADR"
  | .SETCADDR => "SETCADDR"
  | .SETCADDDR => "SETCADDDR"
  | .SETCAD4R => "SETCAD4R"
  | .FORMALS => "FORMALS"
  | .BODY => "BODY"
  | .CLOENV => "CLOENV"
  | .RDEBUG => "RDEBUG"
  | .RSTEP => "RSTEP"
  | .RTRACE => "RTRACE"
  | .SET_RDEBUG => "SET_RDEBUG"
  | .SET_RSTEP => "SET_RSTEP"
  | .SET_RTRACE => "SET_RTRACE"
  | .SET_FORMALS => "SET_FORMALS"
  | .SET_BODY => "SET_BODY"
  | .SET_CLOENV => "SET_CLOENV"
  | .SYMVALUE => "SYMVALUE"
  | .INTERNAL => "INTERNAL"
  | .DDVAL => "DDVAL"
  | .SET_DDVAL => "SET_DDVAL"
  | .SET_SYMVALUE => "SET_SYMVALUE"
  | .SET_INTERNAL => "SET_INTERNAL"
  | .FRAME => "FRAME"
  | .ENCLOS => "ENCLOS"
  | .HASHTAB => "HASHTAB"
  | .ENVFLAGS => "ENVFLAGS"
  | .SET_ENVFLAGS => "SET_ENVFLAGS"
  | .SET_FRAME => "SET_FRAME"
  | .SET_ENCLOS => "SET_ENCLOS"
  | .SET_HASHTAB => "SET_HASHTAB"
  | .PRCODE => "PRCODE"
  | .PRENV => "PRENV"
  | .PRVALUE => "PRVALUE"
  | .PRSEEN => "PRSEEN"
  | .SET_PRSEEN => "SET_PRSEEN"
  | .SET_PRENV => "SET_PRENV"
  | .SET_PRVALUE => "SET_PRVALUE"
  | .SET_PRCODE => "SET_PRCODE"
  | .TRUELENGTH => "TRUELENGTH"
  | .SETLENGTH => "SETLENGTH"
  | .SET_TRUELENGTH => "SET_TRUELENGTH"
  | .XLENGTH => "XLENGTH"
  | .XTRUELENGTH => "XTRUELENGTH"
  | .IS_LONG_VEC => "IS_LONG_VEC"
  | .LEVELS => "LEVELS"
  | .SETLEVELS => "SETLEVELS"
  | .FASTR_INTEGER => "FASTR_INTEGER"
  | .FASTR_REAL => "FASTR_REAL"
  | .COMPLEX => "COMPLEX"
  | .LOGICAL => "LOGICAL"
  | .RAW => "RAW"
  | .R_CHAR => "R_CHAR"
  | .STRING_ELT => "STRING_ELT"
  | .VECTOR_ELT => "VECTOR_ELT"
  | .SET_STRING_ELT => "SET_STRING_ELT"
  | .SET_VECTOR_ELT => "SET_VECTOR_ELT"
  | .STRING_PTR => "STRING_PTR"
  | .VECTOR_PTR => "VECTOR_PTR"
  | .Rf_asChar => "Rf_asChar"
  | .Rf_PairToVectorList => "Rf_PairToVectorList"
  | .Rf_VectorToPairList => "Rf_VectorToPairList"
  | .Rf_asCharacterFactor => "Rf_asCharacterFactor"
  | .Rf_asLogical => "Rf_asLogical"
  | .Rf_asInteger => "Rf_asInteger"
  | .Rf_asReal => "Rf_asReal"
  | .Rf_asComplex => "Rf_asComplex"
  | .TYPEOF => "TYPEOF"
  | .ATTRIB => "ATTRIB"
  | .OBJECT => "OBJECT"
  | .MARK => "MARK"
  | .NAMED => "NAMED"
  | .REFCNT => "REFCNT"
  | .SET_OBJECT => "SET_OBJECT"
  | .SET_TYPEOF => "SET_TYPEOF"
  | .SET_NAMED => "SET_NAMED"
  | .SET_ATTRIB => "SET_ATTRIB"
  | .DUPLICATE_ATTRIB => "DUPLICATE_ATTRIB"
  | .R_BadLongVector => "R_BadLongVector"
  | .IS_S4_OBJECT => "IS_S4_OBJECT"
  | .SET_S4_OBJECT => "SET_S4_OBJECT"
  | .UNSET_S4_OBJECT => "UNSET_S4_OBJECT"
  | .R_ToplevelExec => "R_ToplevelExec"
  | .R_ExecWithCleanup => "R_ExecWithCleanup"
  | .R_RestoreHashCount => "R_RestoreHashCount"
  | .R_IsPackageEnv => "R_IsPackageEnv"
  | .R_PackageEnvName => "R_PackageEnvName"
  | .R_FindPackageEnv => "R_FindPackageEnv"
  | .R_IsNamespaceEnv => "R_IsNamespaceEnv"
  | .R_FindNamespace => "R_FindNamespace"
  | .R_NamespaceEnvSpec => "R_NamespaceEnvSpec"
  | .R_LockEnvironment => "R_LockEnvironment"
  | .R_EnvironmentIsLocked => "R_EnvironmentIsLocked"
  | .R_LockBinding => "R_LockBinding"
  | .R_unLockBinding => "R_unLockBinding"
  | .R_MakeActiveBinding => "R_MakeActiveBinding"
  | .R_BindingIsLocked => "R_BindingIsLocked"
  | .R_BindingIsActive => "R_BindingIsActive"
  | .R_HasFancyBindings => "R_HasFancyBindings"
  | .Rf_isS4 => "Rf_isS4"
  | .Rf_asS4 => "Rf_asS4"
  | .R_tryEvalInternal => "R_tryEvalInternal"
  | .R_tryEval => "R_tryEval"
  | .R_tryEvalSilent => "R_tryEvalSilent"
  | .R_PromiseExpr => "R_PromiseExpr"
  | .R_ClosureExpr => "R_ClosureExpr"
  | .R_forceAndCall => "R_forceAndCall"
  | .R_MakeExternalPtr => "R_MakeExternalPtr"
  | .R_ExternalPtrAddr => "R_ExternalPtrAddr"
  | .R_ExternalPtrTag => "R_ExternalPtrTag"
  | .R_ExternalPtrProtected => "R_ExternalPtrProtected"
  | .R_SetExternalPtrAddr => "R_SetExternalPtrAddr"
  | .R_SetExternalPtrTag => "R_SetExternalPtrTag"
  | .R_SetExternalPtrProtected => "R_SetExternalPtrProtected"
  | .R_ClearExternalPtr => "R_ClearExternalPtr"
  | .R_RegisterFinalizer => "R_RegisterFinalizer"
  | .R_RegisterCFinalizer => "R_RegisterCFinalizer"
  | .R_RegisterFinalizerEx => "R_RegisterFinalizerEx"
  | .R_RegisterCFinalizerEx => "R_RegisterCFinalizerEx"
  | .R_RunPendingFinalizers => "R_RunPendingFinalizers"
  | .R_MakeWeakRef => "R_MakeWeakRef"
  | .R_MakeWeakRefC => "R_MakeWeakRefC"
  | .R_WeakRefKey => "R_WeakRefKey"
  | .R_WeakRefValue => "R_WeakRefValue"
  | .R_RunWeakRefFinalizer => "R_RunWeakRefFinalizer"
  | .R_do_slot => "R_do_slot"
  | .R_do_slot_assign => "R_do_slot_assign"
  | .R_has_slot => "R_has_slot"
  | .R_do_MAKE_CLASS => "R_do_MAKE_CLASS"
  | .R_getClassDef => "R_getClassDef"
  | .R_do_new_object => "R_do_new_object"
  | .nfiGetMethodsNamespace => "nfiGetMethodsNamespace"
  | .R_check_class_etc => "R_check_class_etc"
  | .R_PreserveObject => "R_PreserveObject"
  | .R_ReleaseObject => "R_ReleaseObject"
  | .R_dot_Last => "R_dot_Last"
  | .R_compute_identical => "R_compute_identical"
  | .Rf_copyListMatrix => "Rf_copyListMatrix"
  | .Rf_copyMatrix => "Rf_copyMatrix"
  | .FASTR_getConnectionChar => "FASTR_getConnectionChar"
  | .Rf_str2type => "Rf_str2type"
  | .R_registerRoutines => "R_registerRoutines"
  | .R_getEmbeddingDllInfo => "R_getEmbeddingDllInfo"
  | .R_useDynamicSymbols => "R_useDynamicSymbols"
  | .R_forceSymbols => "R_forceSymbols"
  | .Rdynload_setSymbol => "Rdynload_setSymbol"
  | .R_RegisterCCallable => "R_RegisterCCallable"
  | .R_GetCCallable => "R_GetCCallable"
  | .R_FindSymbol => "R_FindSymbol"

/-- The number of declared parameters of a function (for a variadic function, the named ones). -/
def Fn.arity : Fn → Nat
  | .R_ExternalPtrAddrFn => 1
  | .R_MakeExternalPtrFn => 3
  | .FASTR_R_GlobalEnv => 0
  | .FASTR_R_BaseEnv => 0
  | .FASTR_R_BaseNamespace => 0
  | .FASTR_R_NamespaceRegistry => 0
  | .FASTR_GlobalContext => 0
  | .FASTR_R_Interactive => 0
  | .CAR => 1
  | .CDR => 1
  | .LENGTH => 1
  | .Rf_ScalarString => 1
  | .Rf_mkString => 1
  | .Rf_gsetVar => 3
  | .Rf_coerceVector => 2
  | .Rf_cons => 2
  | .Rf_GetOption1 => 1
  | .Rf_mkChar => 1
  | .Rf_mkCharCE => 2
  | .Rf_mkCharLen => 2
  | .Rf_mkCharLenCE => 3
  | .Rvsnprintf => 4
  | .Rf_errorcall => 2
  | .Rf_warningcall => 2
  | .Rf_warning => 1
  | .Rprintf => 1
  | .Rf_error => 1
  | .REprintf => 1
  | .Rvprintf => 2
  | .REvprintf => 2
  | .Rf_ScalarInteger => 1
  | .Rf_ScalarReal => 1
  | .Rf_ScalarLogical => 1
  | .Rf_allocVector3 => 3
  | .Rf_allocArray => 2
  | .Rf_alloc3DArray => 4
  | .Rf_allocMatrix => 3
  | .Rf_allocList => 1
  | .Rf_allocSExp => 1
  | .Rf_defineVar => 3
  | .Rf_setVar => 3
  | .Rf_dimgets => 2
  | .Rf_dimnamesgets => 2
  | .Rf_eval => 2
  | .Rf_findFun => 2
  | .Rf_findVar => 2
  | .Rf_findVarInFrame => 2
  | .Rf_findVarInFrame3 => 3
  | .Rf_getAttrib => 2
  | .Rf_setAttrib => 3
  | .Rf_duplicate => 1
  | .Rf_shallow_duplicate => 1
  | .Rf_any_duplicated => 2
  | .Rf_any_duplicated3 => 3
  | .Rf_duplicated => 2
  | .Rf_applyClosure => 5
  | .Rf_copyMostAttrib => 2
  | .Rf_copyVector => 2
  | .Rf_countContexts => 2
  | .Rf_inherits => 2
  | .Rf_isObject => 1
  | .Rf_PrintValue => 1
  | .Rf_install => 1
  | .Rf_installChar => 1
  | .Rf_isNull => 1
  | .Rf_isString => 1
  | .R_cycle_detected => 2
  | .Rf_getCharCE => 1
  | .Rf_reEnc => 4
  | .Rf_ncols => 1
  | .Rf_nrows => 1
  | .Rf_protect => 1
  | .Rf_unprotect => 1
  | .R_ProtectWithIndex => 2
  | .R_Reprotect => 2
  | .Rf_unprotect_ptr => 1
  | .R_FlushConsole => 0
  | .R_ProcessEvents => 0
  | .R_NewHashedEnv => 2
  | .Rf_classgets => 2
  | .Rf_translateChar => 1
  | .Rf_translateChar0 => 1
  | .Rf_translateCharUTF8 => 1
  | .Rf_lengthgets => 2
  | .Rf_xlengthgets => 2
  | .R_lsInternal => 2
  | .R_lsInternal3 => 3
  | .Rf_namesgets => 2
  | .TAG => 1
  | .PRINTNAME => 1
  | .CAAR => 1
  | .CDAR => 1
  | .CADR => 1
  | .CDDR => 1
  | .CDDDR => 1
  | .CADDR => 1
  | .CADDDR => 1
  | .CAD4R => 1
  | .MISSING => 1
  | .SET_MISSING => 2
  | .SET_TAG => 2
  | .SETCAR => 2
  | .SETCDR => 2
  | .SETCADR => 2
  | .SETCADDR => 2
  | .SETCADDDR => 2
  | .SETCAD4R => 2
  | .FORMALS => 1
  | .BODY => 1
  | .CLOENV => 1
  | .RDEBUG => 1
  | .RSTEP => 1
  | .RTRACE => 1
  | .SET_RDEBUG => 2
  | .SET_RSTEP => 2
  | .SET_RTRACE => 2
  | .SET_FORMALS => 2
  | .SET_BODY => 2
  | .SET_CLOENV => 2
  | .SYMVALUE => 1
  | .INTERNAL => 1
  | .DDVAL => 1
  | .SET_DDVAL => 2
  | .SET_SYMVALUE => 2
  | .SET_INTERNAL => 2
  | .FRAME => 1
  | .ENCLOS => 1
  | .HASHTAB => 1
  | .ENVFLAGS => 1
  | .SET_ENVFLAGS => 2
  | .SET_FRAME => 2
  | .SET_ENCLOS => 2
  | .SET_HASHTAB => 2
  | .PRCODE => 1
  | .PRENV => 1
  | .PRVALUE => 1
  | .PRSEEN => 1
  | .SET_PRSEEN => 2
  | .SET_PRENV => 2
  | .SET_PRVALUE => 2
  | .SET_PRCODE => 2
  | .TRUELENGTH => 1
  | .SETLENGTH => 2
  | .SET_TRUELENGTH => 2
  | .XLENGTH => 1
  | .XTRUELENGTH => 1
  | .IS_LONG_VEC => 1
  | .LEVELS => 1
  | .SETLEVELS => 2
  | .FASTR_INTEGER => 1
  | .FASTR_REAL => 1
  | .COMPLEX => 1
  | .LOGICAL => 1
  | .RAW => 1
  | .R_CHAR => 1
  | .STRING_ELT => 2
  | .VECTOR_ELT => 2
  | .SET_STRING_ELT => 3
  | .SET_VECTOR_ELT => 3
  | .STRING_PTR => 1
  | .VECTOR_PTR => 1
  | .Rf_asChar => 1
  | .Rf_PairToVectorList => 1
  | .Rf_VectorToPairList => 1
  | .Rf_asCharacterFactor => 1
  | .Rf_asLogical => 1
  | .Rf_asInteger => 1
  | .Rf_asReal => 1
  | .Rf_asComplex => 1
  | .TYPEOF => 1
  | .ATTRIB => 1
  | .OBJECT => 1
  | .MARK => 1
  | .NAMED => 1
  | .REFCNT => 1
  | .SET_OBJECT => 2
  | .SET_TYPEOF => 2
  | .SET_NAMED => 2
  | .SET_ATTRIB => 2
  | .DUPLICATE_ATTRIB => 2
  | .R_BadLongVector => 3
  | .IS_S4_OBJECT => 1
  | .SET_S4_OBJECT => 1
  | .UNSET_S4_OBJECT => 1
  | .R_ToplevelExec => 2
  | .R_ExecWithCleanup => 4
  | .R_RestoreHashCount => 1
  | .R_IsPackageEnv => 1
  | .R_PackageEnvName => 1
  | .R_FindPackageEnv => 1
  | .R_IsNamespaceEnv => 1
  | .R_FindNamespace => 1
  | .R_NamespaceEnvSpec => 1
  | .R_LockEnvironment => 2
  | .R_EnvironmentIsLocked => 1
  | .R_LockBinding => 2
  | .R_unLockBinding => 2
  | .R_MakeActiveBinding => 3
  | .R_BindingIsLocked => 2
  | .R_BindingIsActive => 2
  | .R_HasFancyBindings => 1
  | .Rf_isS4 => 1
  | .Rf_asS4 => 3
  | .R_tryEvalInternal => 4
  | .R_tryEval => 3
  | .R_tryEvalSilent => 3
  | .R_PromiseExpr => 1
  | .R_ClosureExpr => 1
  | .R_forceAndCall => 3
  | .R_MakeExternalPtr => 3
  | .R_ExternalPtrAddr => 1
  | .R_ExternalPtrTag => 1
  | .R_ExternalPtrProtected => 1
  | .R_SetExternalPtrAddr => 2
  | .R_SetExternalPtrTag => 2
  | .R_SetExternalPtrProtected => 2
  | .R_ClearExternalPtr => 1
  | .R_RegisterFinalizer => 2
  | .R_RegisterCFinalizer => 2
  | .R_RegisterFinalizerEx => 3
  | .R_RegisterCFinalizerEx => 3
  | .R_RunPendingFinalizers => 0
  | .R_MakeWeakRef => 4
  | .R_MakeWeakRefC => 4
  | .R_WeakRefKey => 1
  | .R_WeakRefValue => 1
  | .R_RunWeakRefFinalizer => 1
  | .R_do_slot => 2
  | .R_do_slot_assign => 3
  | .R_has_slot => 2
  | .R_do_MAKE_CLASS => 1
  | .R_getClassDef => 1
  | .R_do_new_object => 1
  | .nfiGetMethodsNamespace => 0
  | .R_check_class_etc => 2
  | .R_PreserveObject => 1
  | .R_ReleaseObject => 1
  | .R_dot_Last => 0
  | .R_compute_identical => 3
  | .Rf_copyListMatrix => 3
  | .Rf_copyMatrix => 3
  | .FASTR_getConnectionChar => 1
  | .Rf_str2type => 1
  | .R_registerRoutines => 5
  | .R_getEmbeddingDllInfo => 0
  | .R_useDynamicSymbols => 2
  | .R_forceSymbols => 2
  | .Rdynload_setSymbol => 4
  | .R_RegisterCCallable => 3
  | .R_GetCCallable => 2
  | .R_FindSymbol => 3

/-- Whether the function is declared `static`, hence not an entry point of the API. -/
def Fn.isStatic : Fn → Bool
  | .Rvsnprintf => true
  | .R_tryEvalInternal => true
  | .nfiGetMethodsNamespace => true
  | _ => false

/-- Whether the function is declared with return type `void`. -/
def Fn.isVoid : Fn → Bool
  | .Rf_gsetVar => true
  | .Rf_errorcall => true
  | .Rf_warningcall => true
  | .Rf_warning => true
  | .Rprintf => true
  | .Rf_error => true
  | .REprintf => true
  | .Rvprintf => true
  | .REvprintf => true
  | .Rf_defineVar => true
  | .Rf_setVar => true
  | .Rf_copyMostAttrib => true
  | .Rf_copyVector => true
  | .Rf_PrintValue => true
  | .Rf_unprotect => true
  | .R_ProtectWithIndex => true
  | .R_Reprotect => true
  | .Rf_unprotect_ptr => true
  | .R_FlushConsole => true
  | .R_ProcessEvents => true
  | .SET_MISSING => true
  | .SET_TAG => true
  | .SET_RDEBUG => true
  | .SET_RSTEP => true
  | .SET_RTRACE => true
  | .SET_FORMALS => true
  | .SET_BODY => true
  | .SET_CLOENV => true
  | .SET_DDVAL => true
  | .SET_SYMVALUE => true
  | .SET_INTERNAL => true
  | .SET_ENVFLAGS => true
  | .SET_FRAME => true
  | .SET_ENCLOS => true
  | .SET_HASHTAB => true
  | .SET_PRSEEN => true
  | .SET_PRENV => true
  | .SET_PRVALUE => true
  | .SET_PRCODE => true
  | .SETLENGTH => true
  | .SET_TRUELENGTH => true
  | .SET_STRING_ELT => true
  | .SET_OBJECT => true
  | .SET_TYPEOF => true
  | .SET_NAMED => true
  | .SET_ATTRIB => true
  | .DUPLICATE_ATTRIB => true
  | .SET_S4_OBJECT => true
  | .UNSET_S4_OBJECT => true
  | .R_RestoreHashCount => true
  | .R_LockEnvironment => true
  | .R_LockBinding => true
  | .R_unLockBinding => true
  | .R_MakeActiveBinding => true
  | .R_SetExternalPtrAddr => true
  | .R_SetExternalPtrTag => true
  | .R_SetExternalPtrProtected => true
  | .R_ClearExternalPtr => true
  | .R_RegisterFinalizer => true
  | .R_RegisterCFinalizer => true
  | .R_RegisterFinalizerEx => true
  | .R_RegisterCFinalizerEx => true
  | .R_RunPendingFinalizers => true
  | .R_RunWeakRefFinalizer => true
  | .R_PreserveObject => true
  | .R_ReleaseObject => true
  | .R_dot_Last => true
  | .Rf_copyListMatrix => true
  | .Rf_copyMatrix => true
  | .R_RegisterCCallable => true
  | _ => false

/-- The symbolic indices into the callback table that the file uses, in order of first use. -/
inductive Slot
  | R_GlobalEnv_x
  | R_BaseEnv_x
  | R_BaseNamespace_x
  | R_NamespaceRegistry_x
  | R_GlobalContext_x
  | R_Interactive_x
  | CAR_x
  | CDR_x
  | LENGTH_x
  | Rf_ScalarString_x
  | Rf_gsetVar_x
  | Rf_coerceVector_x
  | Rf_cons_x
  | Rf_GetOption1_x
  | Rf_mkCharLenCE_x
  | Rf_errorcall_x
  | Rf_warningcall_x
  | Rf_warning_x
  | Rprintf_x
  | Rf_error_x
  | Rf_ScalarInteger_x
  | Rf_ScalarReal_x
  | Rf_ScalarLogical_x
  | Rf_allocVector_x
  | Rf_allocArray_x
  | Rf_allocMatrix_x
  | Rf_defineVar_x
  | Rf_eval_x
  | Rf_findFun_x
  | Rf_findVar_x
  | Rf_findVarInFrame_x
  | Rf_findVarInFrame3_x
  | Rf_getAttrib_x
  | Rf_setAttrib_x
  | Rf_duplicate_x
  | Rf_any_duplicated_x
  | Rf_any_duplicated3_x
  | Rf_copyMostAttrib_x
  | Rf_inherits_x
  | Rf_PrintValue_x
  | Rf_install_x
  | Rf_installChar_x
  | Rf_isNull_x
  | Rf_isString_x
  | Rf_ncols_x
  | Rf_nrows_x
  | Rf_protect_x
  | Rf_unprotect_x
  | R_ProtectWithIndex_x
  | R_Reprotect_x
  | Rf_unprotect_ptr_x
  | R_NewHashedEnv_x
  | Rf_classgets_x
  | Rf_lengthgets_x
  | R_lsInternal3_x
  | Rf_namesgets_x
  | TAG_x
  | PRINTNAME_x
  | CAAR_x
  | CDAR_x
  | CADR_x
  | CDDR_x
  | CDDDR_x
  | CADDR_x
  | CADDDR_x
  | CAD4R_x
  | SET_TAG_x
  | SETCAR_x
  | SETCDR_x
  | SETCADR_x
  | SETCADDR_x
  | SETCADDDR_x
  | SETCAD4R_x
  | FORMALS_x
  | BODY_x
  | CLOENV_x
  | RDEBUG_x
  | RSTEP_x
  | SET_RDEBUG_x
  | SET_RSTEP_x
  | SET_FORMALS_x
  | SET_BODY_x
  | SET_CLOENV_x
  | SYMVALUE_x
  | SET_SYMVALUE_x
  | ENCLOS_x
  | PRCODE_x
  | PRENV_x
  | PRVALUE_x
  | PRSEEN_x
  | INTEGER_x
  | REAL_x
  | COMPLEX_x
  | LOGICAL_x
  | RAW_x
  | R_CHAR_x
  | STRING_ELT_x
  | VECTOR_ELT_x
  | SET_STRING_ELT_x
  | SET_VECTOR_ELT_x
  | Rf_asChar_x
  | Rf_PairToVectorList_x
  | Rf_VectorToPairList_x
  | Rf_asCharacterFactor_x
  | Rf_asLogical_x
  | Rf_asInteger_x
  | Rf_asReal_x
  | TYPEOF_x
  | ATTRIB_x
  | OBJECT_x
  | NAMED_x
  | SET_OBJECT_x
  | SET_TYPEOF_x
  | SET_NAMED_FASTR_x
  | SET_ATTRIB_x
  | DUPLICATE_ATTRIB_x
  | IS_S4_OBJECT_x
  | SET_S4_OBJECT_x
  | UNSET_S4_OBJECT_x
  | R_ToplevelExec_x
  | restoreHandlerStacks_x
  | R_FindNamespace_x
  | R_LockBinding_x
  | R_unLockBinding_x
  | R_BindingIsLocked_x
  | R_tryEval_x
  | R_PromiseExpr_x
  | R_MakeExternalPtr_x
  | R_ExternalPtrAddr_x
  | R_ExternalPtrTag_x
  | R_ExternalPtrProtected_x
  | R_SetExternalPtrAddr_x
  | R_SetExternalPtrTag_x
  | R_SetExternalPtrProtected_x
  | R_do_slot_x
  | R_do_slot_assign_x
  | R_has_slot_x
  | R_do_MAKE_CLASS_x
  | R_getClassDef_x
  | R_do_new_object_x
  | R_MethodsNamespace_x
  | R_PreserveObject_x
  | R_ReleaseObject_x
  | R_compute_identical_x
  | Rf_copyListMatrix_x
  | Rf_copyMatrix_x
  | FASTR_getConnectionChar_x
  | Rf_str2type_x
  | registerRoutines_x
  | getEmbeddingDLLInfo_x
  | useDynamicSymbols_x
  | forceSymbols_x
  | setDotSymbolValues_x
  | registerCCallable_x
  | getCCallable_x
  deriving DecidableEq, Repr

/-! ## Values, events and the environment -/

/-- One element of a routine table (`R_CMethodDef`, `R_CallMethodDef`,
`R_FortranMethodDef` or `R_ExternalMethodDef`): the three fields this file
reads.  A `name` of `none` is the NULL name that terminates a table. -/
structure MethodDef where
  name : Option (List Nat)
  funPtr : Nat
  numArgs : Int
  deriving DecidableEq, Repr

/-- C values as they cross the boundary. -/
inductive Val
  /-- The absent value of a `void` call. -/
  | void
  /-- The pointer `NULL`. -/
  | null
  /-- A non-NULL opaque pointer or handle (`SEXP`, `void *`, `DllInfo *`, native function pointer). -/
  | ptr (addr : Nat)
  /-- An integer of any integral or enumeration type. -/
  | int (i : Int)
  /-- A `double`, by its bit pattern. -/
  | real (bits : Nat)
  /-- A `char *` pointing at the given bytes followed by a NUL terminator. -/
  | cstr (bytes : List Nat)
  /-- A managed-side string object. -/
  | jstring (bytes : List Nat)
  /-- A pointer to an array of method definitions. -/
  | routines (tbl : List MethodDef)
  /-- A pointer to a function of this file, as a value that is passed on. -/
  | fnptr (f : Fn)
  /-- A pointer to a function defined outside this file. -/
  | extfn (name : String)
  /-- An indeterminate value (uninitialised variable, missing return value). -/
  | indet
  deriving DecidableEq, Repr

/-- What a run does that is visible outside the function body. -/
inductive Event
  /-- The call `callbacks[slot](args)` made in the body of `fn`, with the value it returned. -/
  | upcall (fn : Fn) (slot : Slot) (args : List Val) (result : Val)
  /-- The call `checkExitCall()` made in the body of `fn`. -/
  | exitCheck (fn : Fn)
  /-- The call `unimplemented(msg)` made in the body of `fn`. -/
  | unimplemented (fn : Fn) (msg : String)
  /-- The write `*ptr = v` made in the body of `fn`. -/
  | store (fn : Fn) (ptr : Val) (v : Val)
  /-- The call through a native function pointer, or to a helper outside this
  file, that returned the given value. -/
  | native (fn : Fn) (callee : Val) (args : List Val) (result : Val)
  /-- The call through a native function pointer, or to a helper outside this
  file, that did not return. -/
  | nativeStop (fn : Fn) (callee : Val) (args : List Val)
  deriving DecidableEq, Repr

/-- Ways in which control does not return to the caller. -/
inductive Stop
  /-- The exit-check guard unwound the native call. -/
  | unwound
  /-- The fatal abort `unimplemented`. -/
  | aborted
  /-- The C library `exit`. -/
  | exited (code : Int)
  /-- Undefined behaviour: NULL dereference, out-of-bounds access, signed
  overflow, call through a pointer of an incompatible function type. -/
  | crashed
  deriving DecidableEq, Repr

/-- Everything the file consumes from its host: the callback table, the managed
runtime behind it, the platform hooks and the C library.  The managed side and
native callees answer as a function of the history so far. -/
structure Env where
  /-- Whether the global `callbacks` pointer is non-NULL. -/
  callbacksLoaded : Bool
  /-- The value returned by `callbacks[slot](args)` after the given history. -/
  callback : List Event → Slot → List Val → Val
  /-- Whether, after the given history, the managed side has signalled that control must not return normally. -/
  exitRequested : List Event → Bool
  /-- The hook `ensure_string`. -/
  ensure_string : Val → Val
  /-- The hook `ensure_truffle_chararray_n`. -/
  ensure_truffle_chararray_n : Val → Val → Val
  /-- The hook `ensure_function`. -/
  ensure_function : Val → Val
  /-- Whether a call through a native function pointer comes back: a callee
  may also leave by a long jump, abort or exit the process. -/
  nativeReturns : List Event → Val → List Val → Bool
  /-- The value returned by a call through a native function pointer that comes back. -/
  nativeResult : List Event → Val → List Val → Val
  /-- How a call through a native function pointer that does not come back ends. -/
  nativeStop : List Event → Val → List Val → Stop
  /-- The fully formatted output of a `printf`-style format and its arguments. -/
  formatted : Val → List Val → List Nat
  /-- The content of uninitialised stack memory, byte by byte. -/
  stackByte : Nat → Nat

/-- How a call ends. -/
inductive Outcome (α : Type)
  | ret (a : α)
  | stop (s : Stop)
  deriving DecidableEq, Repr

/-- The result of running a function: how it ended and the trace up to that point. -/
structure Run (α : Type) where
  outcome : Outcome α
  trace : List Event

/-- Computations of the file: they read the environment and the current
function name and extend the trace. -/
def M (α : Type) : Type := Env → Fn → List Event → Run α

/-- Return of the monad. -/
def M.pure {α : Type} (a : α) : M α := fun _ _ tr => ⟨.ret a, tr⟩

/-- Continue a run that returned normally; a stopped run stays stopped. -/
def Run.andThen {α β : Type} (r : Run α) (k : α → List Event → Run β) : Run β :=
  match r with
  | ⟨.ret a, tr1⟩ => k a tr1
  | ⟨.stop s, tr1⟩ => ⟨.stop s, tr1⟩

/-- Sequencing of the monad: a stopped computation stops the whole. -/
def M.bind {α β : Type} (m : M α) (f : α → M β) : M β := fun env fn tr =>
  (m env fn tr).andThen (fun a tr1 => f a env fn tr1)

instance : Monad M where
  pure := M.pure
  bind := M.bind

/-- The body of function `f`: inside it `__FUNCTION__` is `f`. -/
def enter {α : Type} (f : Fn) (body : M α) : M α := fun env _ tr => body env f tr

/-- Undefined behaviour. -/
def crash {α : Type} : M α := fun _ _ tr => ⟨.stop .crashed, tr⟩

/-- The expression `callbacks[slot](args)`: indexing a NULL table crashes,
otherwise the managed side answers and the upcall is recorded. -/
def callbacks (slot : Slot) (args : List Val) : M Val := fun env fn tr =>
  if env.callbacksLoaded then
    ⟨.ret (env.callback tr slot args), tr ++ [.upcall fn slot args (env.callback tr slot args)]⟩
  else ⟨.stop .crashed, tr⟩

/-- The test `callbacks != NULL`. -/
def callbacksNonNull : M Bool := fun env _ tr => ⟨.ret env.callbacksLoaded, tr⟩

/-- Modelled from the spec: `checkExitCall` is defined outside this file.  It is
the guard that "aborts/unwinds the native call if the managed side signaled that
control should not return normally". -/
def checkExitCall : M Unit := fun env fn tr =>
  if env.exitRequested tr then ⟨.stop .unwound, tr ++ [.exitCheck fn]⟩
  else ⟨.ret (), tr ++ [.exitCheck fn]⟩

/-- Modelled from the spec: `unimplemented` is defined outside this file.  It is
the "fatal abort" that "terminate[s] the process with a diagnostic": it never
returns. -/
def unimplemented (msg : String) : M Val := fun _ fn tr =>
  ⟨.stop .aborted, tr ++ [.unimplemented fn msg]⟩

/-- The macro `UNIMPLEMENTED`, that is `unimplemented(__FUNCTION__)`. -/
def UNIMPLEMENTED : M Val := fun env fn tr => unimplemented fn.name env fn tr

/-- The hook `ensure_string`. -/
def ensure_string (x : Val) : M Val := fun env _ tr => ⟨.ret (env.ensure_string x), tr⟩

/-- The hook `ensure_truffle_chararray_n`. -/
def ensure_truffle_chararray_n (x n : Val) : M Val := fun env _ tr =>
  ⟨.ret (env.ensure_truffle_chararray_n x n), tr⟩

/-- The hook `ensure_function`. -/
def ensure_function (fptr : Val) : M Val := fun env _ tr => ⟨.ret (env.ensure_function fptr), tr⟩

/-- The write `*p = v`; writing through NULL crashes. -/
def store (p v : Val) : M Unit := fun _ fn tr =>
  if p = .null then ⟨.stop .crashed, tr⟩ else ⟨.ret (), tr ++ [.store fn p v]⟩

/-- Whether a value can be called through a native function pointer.  NULL
cannot.  A pointer to a function of this file cannot either: the file calls
through the types `void (*)(void *)` and that of `R_check_class_etc_helper`
only, and none of its functions has one of these types, so that such a call is
undefined. -/
def Val.callable : Val → Bool
  | .null => false
  | .fnptr _ => false
  | _ => true

/-- A call `f(args)` through a native function pointer.  The callee is code
outside this file: it either comes back with a value or does not come back at
all, and the caller goes on only in the first case. -/
def callNative (f : Val) (args : List Val) : M Val := fun env fn tr =>
  if f.callable then
    if env.nativeReturns tr f args then
      ⟨.ret (env.nativeResult tr f args), tr ++ [.native fn f args (env.nativeResult tr f args)]⟩
    else ⟨.stop (env.nativeStop tr f args), tr ++ [.nativeStop fn f args]⟩
  else ⟨.stop .crashed, tr⟩

/-- The C library `exit`. -/
def exit {α : Type} (code : Int) : M α := fun _ _ tr => ⟨.stop (.exited code), tr⟩

/-- The end of a non-void function body reached without a `return`. -/
def fallOffEnd : M Val := pure .indet

/-- Conversion of an unsigned count to `int`: reduction modulo `2^32 = 4294967296`
into the signed range from `-2^31` to `2^31 - 1`, where `2^31 = 2147483648`. -/
def toInt32 (n : Nat) : Int :=
  if n % 4294967296 < 2147483648 then Int.ofNat (n % 4294967296)
  else Int.ofNat (n % 4294967296) - 4294967296

/-- The C library `strlen`: the number of bytes before the first NUL.  Applied
to anything but a C string it crashes. -/
def strlen : Val → M Nat
  | .cstr bytes => pure (bytes.takeWhile (fun b => b != 0)).length
  | _ => crash

/-- A `char` array in memory: its size and its bytes by index. -/
structure Buffer where
  size : Nat
  byte : Nat → Nat

/-- An uninitialised `char` array of `n` bytes. -/
def uninit (n : Nat) : M Buffer := fun env _ tr => ⟨.ret ⟨n, env.stackByte⟩, tr⟩

/-- The bytes from index `i` on up to the first NUL, reading at most `fuel` bytes. -/
def cString (byte : Nat → Nat) : Nat → Nat → List Nat
  | 0, _ => []
  | fuel + 1, i => if byte i = 0 then [] else byte i :: cString byte fuel (i + 1)

/-- Array-to-pointer decay of a `char` array used as a C string: the bytes before the first NUL. -/
def decay (buf : Buffer) : Val := .cstr (cString buf.byte buf.size 0)

/-- The C library `vsnprintf(buf, size, format, ap)`: it writes at most
`size - 1` bytes of the formatted output followed by a NUL, and returns the
length of the full output.  Writing past the end of `buf` crashes. -/
def vsnprintf (buf : Buffer) (size : Nat) (format : Val) (ap : List Val) : M (Val × Buffer) :=
  fun env _ tr =>
    if size = 0 then ⟨.ret (.int (env.formatted format ap).length, buf), tr⟩
    else if min (env.formatted format ap).length (size - 1) < buf.size then
      ⟨.ret (.int (env.formatted format ap).length,
        ⟨buf.size, fun j =>
          if j < min (env.formatted format ap).length (size - 1) then
            (env.formatted format ap).getD j 0
          else if j = min (env.formatted format ap).length (size - 1) then 0
          else buf.byte j⟩), tr⟩
    else ⟨.stop .crashed, tr⟩

/-- The write `buf[i] = b`; an index outside the array crashes. -/
def setByte (buf : Buffer) (i : Nat) (b : Nat) : M Buffer :=
  if i < buf.size then pure ⟨buf.size, fun j => if j = i then b else buf.byte j⟩ else crash

/-- The table a routine pointer points at; any other value is not readable as a table. -/
def tableOf : Val → M (List MethodDef)
  | .routines t => pure t
  | _ => crash

/-- The loop `for (num = 0; routines[num].name != NULL; num++)` on the entries
from index `num` on: the index of the first entry whose name is NULL.  The
counter is an `int`: `num++` at `INT_MAX = 2147483647` is signed overflow,
which is undefined, as is reading past the end of the table. -/
def countNamed : List MethodDef → Nat → M Nat
  | [], _ => crash
  | d :: rest, num =>
    if d.name ≠ none then
      if num < 2147483647 then countNamed rest (num + 1) else crash
    else pure num

/-- The fields `name`, `fun` and `numArgs` of `routines[index]`. -/
def readRoutine (routinesAddr index : Val) : M (Val × Val × Val) := do
  let tbl ← tableOf routinesAddr
  match index with
  | .int (.ofNat i) =>
    match tbl.get? i with
    | some d =>
      pure (match d.name with | some b => .cstr b | none => .null, .ptr d.funPtr, .int d.numArgs)
    | none => crash
  | _ => crash

/-- Constants of the public R header. -/
def NULL : Val := .null
def TRUE : Val := .int 1
def FALSE : Val := .int 0
def CE_NATIVE : Val := .int 0

/-! ## The functions of the file, in source order

A function that calls one defined further down in the source is placed right
after its callee.  Each definition is preceded by the source line of its
opening brace. -/

-- line 84
def FASTR_R_GlobalEnv : M Val := enter .FASTR_R_GlobalEnv do
  let result ← callbacks .R_GlobalEnv_x []
  checkExitCall
  return result

-- line 91
def FASTR_R_BaseEnv : M Val := enter .FASTR_R_BaseEnv do
  let result ← callbacks .R_BaseEnv_x []
  checkExitCall
  return result

-- line 98
def FASTR_R_BaseNamespace : M Val := enter .FASTR_R_BaseNamespace do
  let result ← callbacks .R_BaseNamespace_x []
  checkExitCall
  return result

-- line 105
def FASTR_R_NamespaceRegistry : M Val := enter .FASTR_R_NamespaceRegistry do
  let result ← callbacks .R_NamespaceRegistry_x []
  checkExitCall
  return result

-- line 112
def FASTR_GlobalContext : M Val := enter .FASTR_GlobalContext do
  let result ← callbacks .R_GlobalContext_x []
  checkExitCall
  return result

-- line 119
def FASTR_R_Interactive : M Val := enter .FASTR_R_Interactive do
  let result ← callbacks .R_Interactive_x []
  checkExitCall
  return result

-- line 126
def CAR (e : Val) : M Val := enter .CAR do
  let result ← callbacks .CAR_x [e]
  checkExitCall
  return result

-- line 133
def CDR (e : Val) : M Val := enter .CDR do
  let result ← callbacks .CDR_x [e]
  checkExitCall
  return result

-- line 140
def LENGTH (x : Val) : M Val := enter .LENGTH do
  let result ← callbacks .LENGTH_x [x]
  checkExitCall
  return result

-- line 147
def Rf_ScalarString (value : Val) : M Val := enter .Rf_ScalarString do
  let result ← callbacks .Rf_ScalarString_x [value]
  checkExitCall
  return result

-- line 159
def Rf_gsetVar (symbol value rho : Val) : M Unit := enter .Rf_gsetVar do
  let _ ← callbacks .Rf_gsetVar_x [symbol, value, rho]
  checkExitCall

-- line 165
def Rf_coerceVector (x mode : Val) : M Val := enter .Rf_coerceVector do
  let result ← callbacks .Rf_coerceVector_x [x, mode]
  checkExitCall
  return result

-- line 172
def Rf_cons (car cdr : Val) : M Val := enter .Rf_cons do
  let result ← callbacks .Rf_cons_x [car, cdr]
  checkExitCall
  return result

-- line 179
def Rf_GetOption1 (tag : Val) : M Val := enter .Rf_GetOption1 do
  return (← callbacks .Rf_GetOption1_x [tag])

-- line 199
def Rf_mkCharLenCE (x len enc : Val) : M Val := enter .Rf_mkCharLenCE do
  let result ← callbacks .Rf_mkCharLenCE_x [(← ensure_truffle_chararray_n x len), len, enc]
  checkExitCall
  return result

-- line 184
def Rf_mkChar (x : Val) : M Val := enter .Rf_mkChar do
  return (← Rf_mkCharLenCE x (.int (toInt32 (← strlen x))) CE_NATIVE)

/-- Modelled from the spec: the macro `ScalarString` of the public R header,
which remaps the short API name to `Rf_ScalarString`. -/
def ScalarString (value : Val) : M Val := Rf_ScalarString value

-- line 154
def Rf_mkString (s : Val) : M Val := enter .Rf_mkString do
  return (← ScalarString (← Rf_mkChar s))

-- line 189
def Rf_mkCharCE (x y : Val) : M Val := enter .Rf_mkCharCE do
  return (← Rf_mkCharLenCE x (.int (toInt32 (← strlen x))) y)

-- line 194
def Rf_mkCharLen (x y : Val) : M Val := enter .Rf_mkCharLen do
  return (← Rf_mkCharLenCE x y CE_NATIVE)

def BUFSIZE : Nat := 8192

/-- The value of `size - 1` in the unsigned type `size_t`: zero wraps to `2^64 - 1`. -/
def sizeMinusOne (size : Nat) : Nat :=
  if size = 0 then 18446744073709551615 else size - 1

-- line 208
def Rvsnprintf (buf : Buffer) (size : Nat) (format : Val) (ap : List Val) : M (Val × Buffer) := enter .Rvsnprintf do
  let (val, buf) ← vsnprintf buf size format ap
  let buf ← setByte buf (sizeMinusOne size) 0
  return (val, buf)

-- line 216
def Rf_errorcall (x format : Val) (ap : List Val) : M Unit := enter .Rf_errorcall do
  let buf ← uninit BUFSIZE
  let (_, buf) ← Rvsnprintf buf (BUFSIZE - 1) format ap
  let _ ← callbacks .Rf_errorcall_x [x, (← ensure_string (decay buf))]
  checkExitCall
  let _ ← unimplemented "Unexpected return from Rf_errorcall, should be no return function"
  return ()

-- line 230
def Rf_warningcall (x format : Val) (ap : List Val) : M Unit := enter .Rf_warningcall do
  let buf ← uninit 8192
  let (_, buf) ← Rvsnprintf buf (BUFSIZE - 1) format ap
  let _ ← callbacks .Rf_warningcall_x [x, (← ensure_string (decay buf))]
  return ()

-- line 240
def Rf_warning (format : Val) (ap : List Val) : M Unit := enter .Rf_warning do
  let buf ← uninit 8192
  let (_, buf) ← Rvsnprintf buf (BUFSIZE - 1) format ap
  let _ ← callbacks .Rf_warning_x [(← ensure_string (decay buf))]
  return ()

-- line 250
def Rprintf (format : Val) (ap : List Val) : M Unit := enter .Rprintf do
  let buf ← uninit 8192
  let (_, buf) ← Rvsnprintf buf (BUFSIZE - 1) format ap
  let _ ← callbacks .Rprintf_x [(← ensure_string (decay buf))]
  return ()

-- line 260
def Rf_error (format : Val) (ap : List Val) : M Unit := enter .Rf_error do
  let buf ← uninit BUFSIZE
  let (_, buf) ← Rvsnprintf buf (BUFSIZE - 1) format ap
  let _ ← callbacks .Rf_error_x [(← ensure_string (decay buf))]
  checkExitCall
  let _ ← unimplemented "Unexpected return from Rf_error, should be no return function"
  return ()

-- line 282
def REprintf (format : Val) (ap : List Val) : M Unit := enter .REprintf do
  let buf ← uninit 8192
  let (_, buf) ← Rvsnprintf buf (BUFSIZE - 1) format ap
  return ()

-- line 293
def Rvprintf (format args : Val) : M Unit := enter .Rvprintf do
  let _ ← UNIMPLEMENTED
  return ()

-- line 298
def REvprintf (format args : Val) : M Unit := enter .REvprintf do
  let _ ← UNIMPLEMENTED
  return ()

-- line 303
def Rf_ScalarInteger (value : Val) : M Val := enter .Rf_ScalarInteger do
  let result ← callbacks .Rf_ScalarInteger_x [value]
  checkExitCall
  return result

-- line 310
def Rf_ScalarReal (value : Val) : M Val := enter .Rf_ScalarReal do
  let result ← callbacks .Rf_ScalarReal_x [value]
  checkExitCall
  return result

-- line 317
def Rf_ScalarLogical (value : Val) : M Val := enter .Rf_ScalarLogical do
  let result ← callbacks .Rf_ScalarLogical_x [value]
  checkExitCall
  return result

-- line 324
def Rf_allocVector3 (t len allocator : Val) : M Val := enter .Rf_allocVector3 do
  if allocator ≠ NULL then
    return (← UNIMPLEMENTED)
  else
    let result ← callbacks .Rf_allocVector_x [t, len]
    checkExitCall
    return result

-- line 334
def Rf_allocArray (t dims : Val) : M Val := enter .Rf_allocArray do
  let result ← callbacks .Rf_allocArray_x [t, dims]
  checkExitCall
  return result

-- line 341
def Rf_alloc3DArray (t x y z : Val) : M Val := enter .Rf_alloc3DArray do
  return (← UNIMPLEMENTED)

-- line 346
def Rf_allocMatrix (mode nrow ncol : Val) : M Val := enter .Rf_allocMatrix do
  let result ← callbacks .Rf_allocMatrix_x [mode, nrow, ncol]
  checkExitCall
  return result

-- line 353
def Rf_allocList (x : Val) : M Val := enter .Rf_allocList do
  return (← UNIMPLEMENTED)

-- line 358
def Rf_allocSExp (t : Val) : M Val := enter .Rf_allocSExp do
  return (← UNIMPLEMENTED)

-- line 363
def Rf_defineVar (symbol value rho : Val) : M Unit := enter .Rf_defineVar do
  let _ ← callbacks .Rf_defineVar_x [symbol, value, rho]
  checkExitCall

-- line 369
def Rf_setVar (x y z : Val) : M Unit := enter .Rf_setVar do
  let _ ← unimplemented "Rf_setVar"
  return ()

-- line 374
def Rf_dimgets (x y : Val) : M Val := enter .Rf_dimgets do
  return (← unimplemented "Rf_dimgets")

-- line 379
def Rf_dimnamesgets (x y : Val) : M Val := enter .Rf_dimnamesgets do
  return (← unimplemented "Rf_dimnamesgets")

-- line 384
def Rf_eval (expr env : Val) : M Val := enter .Rf_eval do
  let result ← callbacks .Rf_eval_x [expr, env]
  checkExitCall
  return result

-- line 391
def Rf_findFun (symbol rho : Val) : M Val := enter .Rf_findFun do
  let result ← callbacks .Rf_findFun_x [symbol, rho]
  checkExitCall
  return result

-- line 398
def Rf_findVar (sym rho : Val) : M Val := enter .Rf_findVar do
  let result ← callbacks .Rf_findVar_x [sym, rho]
  checkExitCall
  return result

-- line 405
def Rf_findVarInFrame (rho sym : Val) : M Val := enter .Rf_findVarInFrame do
  let result ← callbacks .Rf_findVarInFrame_x [rho, sym]
  checkExitCall
  return result

-- line 412
def Rf_findVarInFrame3 (rho sym b : Val) : M Val := enter .Rf_findVarInFrame3 do
  return (← callbacks .Rf_findVarInFrame3_x [rho, sym, b])

-- line 417
def Rf_getAttrib (vec name : Val) : M Val := enter .Rf_getAttrib do
  let result ← callbacks .Rf_getAttrib_x [vec, name]
  return result

-- line 424
def Rf_setAttrib (vec name val : Val) : M Val := enter .Rf_setAttrib do
  let result ← callbacks .Rf_setAttrib_x [vec, name, val]
  checkExitCall
  return result

-- line 431
def Rf_duplicate (x : Val) : M Val := enter .Rf_duplicate do
  let result ← callbacks .Rf_duplicate_x [x, .int 1]
  checkExitCall
  return result

-- line 438
def Rf_shallow_duplicate (x : Val) : M Val := enter .Rf_shallow_duplicate do
  let result ← callbacks .Rf_duplicate_x [x, .int 0]
  checkExitCall
  return result

-- line 445
def Rf_any_duplicated (x from_last : Val) : M Val := enter .Rf_any_duplicated do
  let result ← callbacks .Rf_any_duplicated_x [x, from_last]
  checkExitCall
  return result

-- line 452
def Rf_any_duplicated3 (x incomp from_last : Val) : M Val := enter .Rf_any_duplicated3 do
  let result ← callbacks .Rf_any_duplicated3_x [x, incomp, from_last]
  checkExitCall
  return result

-- line 459
def Rf_duplicated (x y : Val) : M Val := enter .Rf_duplicated do
  let _ ← unimplemented "Rf_duplicated"
  return NULL

-- line 465
def Rf_applyClosure (x y z a b : Val) : M Val := enter .Rf_applyClosure do
  return (← unimplemented "Rf_applyClosure")

-- line 470
def Rf_copyMostAttrib (x y : Val) : M Unit := enter .Rf_copyMostAttrib do
  let _ ← callbacks .Rf_copyMostAttrib_x [x, y]
  checkExitCall

-- line 475
def Rf_copyVector (x y : Val) : M Unit := enter .Rf_copyVector do
  let _ ← unimplemented "Rf_copyVector"
  return ()

-- line 480
def Rf_countContexts (x y : Val) : M Val := enter .Rf_countContexts do
  let _ ← unimplemented "Rf_countContexts"
  return .int 0

-- line 486
def Rf_inherits (x klass : Val) : M Val := enter .Rf_inherits do
  let result ← callbacks .Rf_inherits_x [x, (← ensure_string klass)]
  checkExitCall
  return result

-- line 493
def Rf_isObject (s : Val) : M Val := enter .Rf_isObject do
  let _ ← unimplemented "Rf_isObject"
  return FALSE

-- line 499
def Rf_PrintValue (x : Val) : M Unit := enter .Rf_PrintValue do
  let _ ← callbacks .Rf_PrintValue_x [x]
  checkExitCall

-- line 505
def Rf_install (name : Val) : M Val := enter .Rf_install do
  let result ← callbacks .Rf_install_x [(← ensure_string name)]
  checkExitCall
  return result

-- line 512
def Rf_installChar (charsxp : Val) : M Val := enter .Rf_installChar do
  let result ← callbacks .Rf_installChar_x [charsxp]
  checkExitCall
  return result

-- line 519
def Rf_isNull (s : Val) : M Val := enter .Rf_isNull do
  let result ← callbacks .Rf_isNull_x [s]
  checkExitCall
  return result

-- line 526
def Rf_isString (s : Val) : M Val := enter .Rf_isString do
  let result ← callbacks .Rf_isString_x [s]
  checkExitCall
  return result

-- line 533
def R_cycle_detected (s child : Val) : M Val := enter .R_cycle_detected do
  let _ ← unimplemented "R_cycle_detected"
  return .int 0

-- line 539
def Rf_getCharCE (x : Val) : M Val := enter .Rf_getCharCE do
  return CE_NATIVE

-- line 546
def Rf_reEnc (x ce_in ce_out subst : Val) : M Val := enter .Rf_reEnc do
  return x

-- line 552
def Rf_ncols (x : Val) : M Val := enter .Rf_ncols do
  let result ← callbacks .Rf_ncols_x [x]
  checkExitCall
  return result

-- line 559
def Rf_nrows (x : Val) : M Val := enter .Rf_nrows do
  let result ← callbacks .Rf_nrows_x [x]
  checkExitCall
  return result

-- line 566
def Rf_protect (x : Val) : M Val := enter .Rf_protect do
  let result ← callbacks .Rf_protect_x [x]
  checkExitCall
  return result

-- line 573
def Rf_unprotect (x : Val) : M Unit := enter .Rf_unprotect do
  let _ ← callbacks .Rf_unprotect_x [x]
  checkExitCall

-- line 579
def R_ProtectWithIndex (x y : Val) : M Unit := enter .R_ProtectWithIndex do
  let r ← callbacks .R_ProtectWithIndex_x [x]
  store y r
  checkExitCall

-- line 585
def R_Reprotect (x y : Val) : M Unit := enter .R_Reprotect do
  let _ ← callbacks .R_Reprotect_x [x, y]
  checkExitCall

-- line 591
def Rf_unprotect_ptr (x : Val) : M Unit := enter .Rf_unprotect_ptr do
  let _ ← callbacks .Rf_unprotect_ptr_x [x]
  checkExitCall

-- line 597
def R_FlushConsole : M Unit := enter .R_FlushConsole do
  return ()

-- line 602
def R_ProcessEvents : M Unit := enter .R_ProcessEvents do
  let _ ← unimplemented "R_ProcessEvents"
  return ()

-- line 608
def R_NewHashedEnv (parent size : Val) : M Val := enter .R_NewHashedEnv do
  let result ← callbacks .R_NewHashedEnv_x [parent, size]
  checkExitCall
  return result

-- line 615
def Rf_classgets (vec klass : Val) : M Val := enter .Rf_classgets do
  let result ← callbacks .Rf_classgets_x [vec, klass]
  checkExitCall
  return result

-- line 643
def Rf_lengthgets (x y : Val) : M Val := enter .Rf_lengthgets do
  let result ← callbacks .Rf_lengthgets_x [x, y]
  checkExitCall
  return result

-- line 650
def Rf_xlengthgets (x y : Val) : M Val := enter .Rf_xlengthgets do
  return (← unimplemented "Rf_xlengthgets")

-- line 660
def R_lsInternal3 (env all sorted : Val) : M Val := enter .R_lsInternal3 do
  return (← callbacks .R_lsInternal3_x [env, all, sorted])

-- line 655
def R_lsInternal (env all : Val) : M Val := enter .R_lsInternal do
  return (← R_lsInternal3 env all TRUE)

-- line 665
def Rf_namesgets (x y : Val) : M Val := enter .Rf_namesgets do
  let result ← callbacks .Rf_namesgets_x [x, y]
  checkExitCall
  return result

-- line 672
def TAG (e : Val) : M Val := enter .TAG do
  let result ← callbacks .TAG_x [e]
  checkExitCall
  return result

-- line 679
def PRINTNAME (e : Val) : M Val := enter .PRINTNAME do
  let result ← callbacks .PRINTNAME_x [e]
  checkExitCall
  return result

-- line 686
def CAAR (e : Val) : M Val := enter .CAAR do
  let result ← callbacks .CAAR_x [e]
  checkExitCall
  return result

-- line 693
def CDAR (e : Val) : M Val := enter .CDAR do
  let result ← callbacks .CDAR_x [e]
  checkExitCall
  return result

-- line 700
def CADR (e : Val) : M Val := enter .CADR do
  let result ← callbacks .CADR_x [e]
  checkExitCall
  return result

-- line 707
def CDDR (e : Val) : M Val := enter .CDDR do
  let result ← callbacks .CDDR_x [e]
  checkExitCall
  return result

-- line 714
def CDDDR (e : Val) : M Val := enter .CDDDR do
  let result ← callbacks .CDDDR_x [e]
  checkExitCall
  return result

-- line 721
def CADDR (e : Val) : M Val := enter .CADDR do
  let result ← callbacks .CADDR_x [e]
  checkExitCall
  return result

-- line 728
def CADDDR (e : Val) : M Val := enter .CADDDR do
  let result ← callbacks .CADDDR_x [e]
  checkExitCall
  return result

-- line 735
def CAD4R (e : Val) : M Val := enter .CAD4R do
  let result ← callbacks .CAD4R_x [e]
  checkExitCall
  return result

-- line 742
def MISSING (x : Val) : M Val := enter .MISSING do
  let _ ← unimplemented "MISSING"
  return .int 0

-- line 748
def SET_MISSING (x v : Val) : M Unit := enter .SET_MISSING do
  let _ ← unimplemented "SET_MISSING"
  return ()

-- line 753
def SET_TAG (x y : Val) : M Unit := enter .SET_TAG do
  let _ ← callbacks .SET_TAG_x [x, y]
  checkExitCall

-- line 759
def SETCAR (x y : Val) : M Val := enter .SETCAR do
  let result ← callbacks .SETCAR_x [x, y]
  checkExitCall
  return result

-- line 766
def SETCDR (x y : Val) : M Val := enter .SETCDR do
  let result ← callbacks .SETCDR_x [x, y]
  checkExitCall
  return result

-- line 773
def SETCADR (x y : Val) : M Val := enter .SETCADR do
  let result ← callbacks .SETCADR_x [x, y]
  checkExitCall
  return result

-- line 780
def SETCADDR (x y : Val) : M Val := enter .SETCADDR do
  let result ← callbacks .SETCADDR_x [x, y]
  return NULL

-- line 787
def SETCADDDR (x y : Val) : M Val := enter .SETCADDDR do
  let result ← callbacks .SETCADDDR_x [x, y]
  return NULL

-- line 793
def SETCAD4R (x y : Val) : M Val := enter .SETCAD4R do
  let result ← callbacks .SETCAD4R_x [x, y]
  return NULL

-- line 799
def FORMALS (x : Val) : M Val := enter .FORMALS do
  let result ← callbacks .FORMALS_x [x]
  checkExitCall
  return result

-- line 806
def BODY (x : Val) : M Val := enter .BODY do
  let result ← callbacks .BODY_x [x]
  checkExitCall
  return result

-- line 813
def CLOENV (x : Val) : M Val := enter .CLOENV do
  let result ← callbacks .CLOENV_x [x]
  checkExitCall
  return result

-- line 820
def RDEBUG (x : Val) : M Val := enter .RDEBUG do
  let result ← callbacks .RDEBUG_x [x]
  checkExitCall
  return result

-- line 827
def RSTEP (x : Val) : M Val := enter .RSTEP do
  let result ← callbacks .RSTEP_x [x]
  checkExitCall
  return result

-- line 834
def RTRACE (x : Val) : M Val := enter .RTRACE do
  let _ ← unimplemented "RTRACE"
  return .int 0

-- line 840
def SET_RDEBUG (x v : Val) : M Unit := enter .SET_RDEBUG do
  let _ ← callbacks .SET_RDEBUG_x [x, v]
  checkExitCall

-- line 846
def SET_RSTEP (x v : Val) : M Unit := enter .SET_RSTEP do
  let _ ← callbacks .SET_RSTEP_x [x, v]
  checkExitCall

-- line 852
def SET_RTRACE (x v : Val) : M Unit := enter .SET_RTRACE do
  let _ ← unimplemented "SET_RTRACE"
  return ()

-- line 857
def SET_FORMALS (x v : Val) : M Unit := enter .SET_FORMALS do
  let _ ← callbacks .SET_FORMALS_x [x, v]
  checkExitCall

-- line 863
def SET_BODY (x v : Val) : M Unit := enter .SET_BODY do
  let _ ← callbacks .SET_BODY_x [x, v]
  checkExitCall

-- line 869
def SET_CLOENV (x v : Val) : M Unit := enter .SET_CLOENV do
  let _ ← callbacks .SET_CLOENV_x [x, v]
  checkExitCall

-- line 875
def SYMVALUE (x : Val) : M Val := enter .SYMVALUE do
  let result ← callbacks .SYMVALUE_x [x]
  checkExitCall
  return result

-- line 882
def INTERNAL (x : Val) : M Val := enter .INTERNAL do
  return (← unimplemented "INTERNAL")

-- line 887
def DDVAL (x : Val) : M Val := enter .DDVAL do
  let _ ← unimplemented "DDVAL"
  return .int 0

-- line 893
def SET_DDVAL (x v : Val) : M Unit := enter .SET_DDVAL do
  let _ ← unimplemented "SET_DDVAL"
  return ()

-- line 898
def SET_SYMVALUE (x v : Val) : M Unit := enter .SET_SYMVALUE do
  let _ ← callbacks .SET_SYMVALUE_x [x, v]
  checkExitCall

-- line 904
def SET_INTERNAL (x v : Val) : M Unit := enter .SET_INTERNAL do
  let _ ← unimplemented "SET_INTERNAL"
  return ()

-- line 909
def FRAME (x : Val) : M Val := enter .FRAME do
  return (← unimplemented "FRAME")

-- line 914
def ENCLOS (x : Val) : M Val := enter .ENCLOS do
  let result ← callbacks .ENCLOS_x [x]
  checkExitCall
  return result

-- line 921
def HASHTAB (x : Val) : M Val := enter .HASHTAB do
  return (← unimplemented "HASHTAB")

-- line 926
def ENVFLAGS (x : Val) : M Val := enter .ENVFLAGS do
  let _ ← unimplemented "ENVFLAGS"
  return .int 0

-- line 932
def SET_ENVFLAGS (x v : Val) : M Unit := enter .SET_ENVFLAGS do
  let _ ← unimplemented "SET_ENVFLAGS"
  return ()

-- line 937
def SET_FRAME (x v : Val) : M Unit := enter .SET_FRAME do
  let _ ← unimplemented "SET_FRAME"
  return ()

-- line 942
def SET_ENCLOS (x v : Val) : M Unit := enter .SET_ENCLOS do
  let _ ← unimplemented "SET_ENCLOS"
  return ()

-- line 947
def SET_HASHTAB (x v : Val) : M Unit := enter .SET_HASHTAB do
  let _ ← unimplemented "SET_HASHTAB"
  return ()

-- line 952
def PRCODE (x : Val) : M Val := enter .PRCODE do
  let result ← callbacks .PRCODE_x [x]
  checkExitCall
  return result

-- line 959
def PRENV (x : Val) : M Val := enter .PRENV do
  let result ← callbacks .PRENV_x [x]
  checkExitCall
  return result

-- line 966
def PRVALUE (x : Val) : M Val := enter .PRVALUE do
  let result ← callbacks .PRVALUE_x [x]
  checkExitCall
  return result

-- line 973
def PRSEEN (x : Val) : M Val := enter .PRSEEN do
  let result ← callbacks .PRSEEN_x [x]
  checkExitCall
  return result

-- line 980
def SET_PRSEEN (x v : Val) : M Unit := enter .SET_PRSEEN do
  let _ ← unimplemented "SET_PRSEEN"
  return ()

-- line 985
def SET_PRENV (x v : Val) : M Unit := enter .SET_PRENV do
  let _ ← unimplemented "SET_PRENV"
  return ()

-- line 990
def SET_PRVALUE (x v : Val) : M Unit := enter .SET_PRVALUE do
  let _ ← unimplemented "SET_PRVALUE"
  return ()

-- line 995
def SET_PRCODE (x v : Val) : M Unit := enter .SET_PRCODE do
  let _ ← unimplemented "SET_PRCODE"
  return ()

-- line 1000
def TRUELENGTH (x : Val) : M Val := enter .TRUELENGTH do
  return .int 0

-- line 1006
def SETLENGTH (x v : Val) : M Unit := enter .SETLENGTH do
  let _ ← unimplemented "SETLENGTH"
  return ()

-- line 1011
def SET_TRUELENGTH (x v : Val) : M Unit := enter .SET_TRUELENGTH do
  let _ ← unimplemented "SET_TRUELENGTH"
  return ()

-- line 1016
def XLENGTH (x : Val) : M Val := enter .XLENGTH do
  return (← LENGTH x)

-- line 1022
def XTRUELENGTH (x : Val) : M Val := enter .XTRUELENGTH do
  let _ ← unimplemented "XTRUELENGTH"
  return .int 0

-- line 1028
def IS_LONG_VEC (x : Val) : M Val := enter .IS_LONG_VEC do
  let _ ← unimplemented "IS_LONG_VEC"
  return .int 0

-- line 1034
def LEVELS (x : Val) : M Val := enter .LEVELS do
  let _ ← unimplemented "LEVELS"
  return .int 0

-- line 1040
def SETLEVELS (x v : Val) : M Val := enter .SETLEVELS do
  let _ ← unimplemented "SETLEVELS"
  return .int 0

-- line 1046
def FASTR_INTEGER (x : Val) : M Val := enter .FASTR_INTEGER do
  let result ← callbacks .INTEGER_x [x]
  checkExitCall
  return result

-- line 1053
def FASTR_REAL (x : Val) : M Val := enter .FASTR_REAL do
  let result ← callbacks .REAL_x [x]
  checkExitCall
  return result

-- line 1060
def COMPLEX (x : Val) : M Val := enter .COMPLEX do
  let result ← callbacks .COMPLEX_x [x]
  checkExitCall
  return result

-- line 1067
def LOGICAL (x : Val) : M Val := enter .LOGICAL do
  let result ← callbacks .LOGICAL_x [x]
  checkExitCall
  return result

-- line 1074
def RAW (x : Val) : M Val := enter .RAW do
  let result ← callbacks .RAW_x [x]
  checkExitCall
  return result

-- line 1081
def R_CHAR (x : Val) : M Val := enter .R_CHAR do
  let result ← callbacks .R_CHAR_x [x]
  checkExitCall
  return result

/-- Modelled from the spec: the macro `CHAR` of the public R header, which
expands to a call of `R_CHAR`. -/
def CHAR (x : Val) : M Val := R_CHAR x

-- line 622
def Rf_translateChar (x : Val) : M Val := enter .Rf_translateChar do
  let result ← CHAR x
  return result

-- line 629
def Rf_translateChar0 (x : Val) : M Val := enter .Rf_translateChar0 do
  let result ← CHAR x
  return result

-- line 636
def Rf_translateCharUTF8 (x : Val) : M Val := enter .Rf_translateCharUTF8 do
  let result ← CHAR x
  return result

-- line 1088
def STRING_ELT (x i : Val) : M Val := enter .STRING_ELT do
  let result ← callbacks .STRING_ELT_x [x, i]
  checkExitCall
  return result

-- line 1095
def VECTOR_ELT (x i : Val) : M Val := enter .VECTOR_ELT do
  let result ← callbacks .VECTOR_ELT_x [x, i]
  checkExitCall
  return result

-- line 1102
def SET_STRING_ELT (x i v : Val) : M Unit := enter .SET_STRING_ELT do
  let _ ← callbacks .SET_STRING_ELT_x [x, i, v]
  checkExitCall

-- line 1108
def SET_VECTOR_ELT (x i v : Val) : M Val := enter .SET_VECTOR_ELT do
  let result ← callbacks .SET_VECTOR_ELT_x [x, i, v]
  checkExitCall
  return result

-- line 1115
def STRING_PTR (x : Val) : M Val := enter .STRING_PTR do
  let _ ← unimplemented "STRING_PTR"
  return NULL

-- line 1121
def VECTOR_PTR (x : Val) : M Val := enter .VECTOR_PTR do
  let _ ← unimplemented "VECTOR_PTR"
  fallOffEnd

-- line 1126
def Rf_asChar (x : Val) : M Val := enter .Rf_asChar do
  let result ← callbacks .Rf_asChar_x [x]
  checkExitCall
  return result

-- line 1133
def Rf_PairToVectorList (x : Val) : M Val := enter .Rf_PairToVectorList do
  let result ← callbacks .Rf_PairToVectorList_x [x]
  checkExitCall
  return result

-- line 1140
def Rf_VectorToPairList (x : Val) : M Val := enter .Rf_VectorToPairList do
  let result ← callbacks .Rf_VectorToPairList_x [x]
  checkExitCall
  return result

-- line 1146
def Rf_asCharacterFactor (x : Val) : M Val := enter .Rf_asCharacterFactor do
  let result ← callbacks .Rf_asCharacterFactor_x [x]
  checkExitCall
  return result

-- line 1152
def Rf_asLogical (x : Val) : M Val := enter .Rf_asLogical do
  let result ← callbacks .Rf_asLogical_x [x]
  checkExitCall
  return result

-- line 1159
def Rf_asInteger (x : Val) : M Val := enter .Rf_asInteger do
  let result ← callbacks .Rf_asInteger_x [x]
  checkExitCall
  return result

-- line 1166
def Rf_asReal (x : Val) : M Val := enter .Rf_asReal do
  let result ← callbacks .Rf_asReal_x [x]
  checkExitCall
  return result

-- line 1173
def Rf_asComplex (x : Val) : M Val := enter .Rf_asComplex do
  let _ ← unimplemented "Rf_asComplex"
  let c := Val.indet
  return c

-- line 1179
def TYPEOF (x : Val) : M Val := enter .TYPEOF do
  let result ← callbacks .TYPEOF_x [x]
  checkExitCall
  return result

-- line 1186
def ATTRIB (x : Val) : M Val := enter .ATTRIB do
  let result ← callbacks .ATTRIB_x [x]
  checkExitCall
  return result

-- line 1193
def OBJECT (x : Val) : M Val := enter .OBJECT do
  let result ← callbacks .OBJECT_x [x]
  checkExitCall
  return result

-- line 1200
def MARK (x : Val) : M Val := enter .MARK do
  let _ ← unimplemented "MARK"
  return .int 0

-- line 1206
def NAMED (x : Val) : M Val := enter .NAMED do
  let result ← callbacks .NAMED_x [x]
  checkExitCall
  return result

-- line 1213
def REFCNT (x : Val) : M Val := enter .REFCNT do
  let _ ← unimplemented "REFCNT"
  return .int 0

-- line 1219
def SET_OBJECT (x v : Val) : M Unit := enter .SET_OBJECT do
  let _ ← callbacks .SET_OBJECT_x [x, v]
  return ()

-- line 1224
def SET_TYPEOF (x v : Val) : M Unit := enter .SET_TYPEOF do
  let _ ← callbacks .SET_TYPEOF_x [x, v]
  checkExitCall

-- line 1230
def SET_NAMED (x v : Val) : M Unit := enter .SET_NAMED do
  let _ ← callbacks .SET_NAMED_FASTR_x [x, v]
  checkExitCall

-- line 1236
def SET_ATTRIB (x v : Val) : M Unit := enter .SET_ATTRIB do
  let _ ← callbacks .SET_ATTRIB_x [x, v]
  return ()

-- line 1241
def DUPLICATE_ATTRIB (to_ from_ : Val) : M Unit := enter .DUPLICATE_ATTRIB do
  let _ ← callbacks .DUPLICATE_ATTRIB_x [to_, from_]
  checkExitCall

-- line 1247
def R_BadLongVector (x y z : Val) : M Val := enter .R_BadLongVector do
  let _ ← unimplemented "R_BadLongVector"
  exit 1

-- line 1254
def IS_S4_OBJECT (x : Val) : M Val := enter .IS_S4_OBJECT do
  let result ← callbacks .IS_S4_OBJECT_x [x]
  checkExitCall
  return result

-- line 1261
def SET_S4_OBJECT (x : Val) : M Unit := enter .SET_S4_OBJECT do
  let _ ← callbacks .SET_S4_OBJECT_x [x]
  return ()

-- line 1266
def UNSET_S4_OBJECT (x : Val) : M Unit := enter .UNSET_S4_OBJECT do
  let _ ← callbacks .UNSET_S4_OBJECT_x [x]
  return ()

-- line 1271
def R_ToplevelExec (fun_ data : Val) : M Val := enter .R_ToplevelExec do
  let saved_handler_stack ← callbacks .R_ToplevelExec_x []
  checkExitCall
  let _ ← callNative fun_ [data]
  let _ ← callbacks .restoreHandlerStacks_x [saved_handler_stack]
  checkExitCall
  return TRUE

-- line 1286
def R_ExecWithCleanup (fun_ data cleanfun cleandata : Val) : M Val := enter .R_ExecWithCleanup do
  return (← unimplemented "R_ExecWithCleanup")

-- line 1292
def R_RestoreHashCount (rho : Val) : M Unit := enter .R_RestoreHashCount do
  let _ ← unimplemented "R_RestoreHashCount"
  return ()

-- line 1297
def R_IsPackageEnv (rho : Val) : M Val := enter .R_IsPackageEnv do
  let _ ← unimplemented "R_IsPackageEnv"
  fallOffEnd

-- line 1302
def R_PackageEnvName (rho : Val) : M Val := enter .R_PackageEnvName do
  return (← unimplemented "R_PackageEnvName")

-- line 1307
def R_FindPackageEnv (info : Val) : M Val := enter .R_FindPackageEnv do
  return (← unimplemented "R_FindPackageEnv")

-- line 1312
def R_IsNamespaceEnv (rho : Val) : M Val := enter .R_IsNamespaceEnv do
  return (← unimplemented "R_IsNamespaceEnv")

-- line 1317
def R_FindNamespace (info : Val) : M Val := enter .R_FindNamespace do
  let result ← callbacks .R_FindNamespace_x [info]
  checkExitCall
  return result

-- line 1324
def R_NamespaceEnvSpec (rho : Val) : M Val := enter .R_NamespaceEnvSpec do
  return (← unimplemented "R_NamespaceEnvSpec")

-- line 1329
def R_LockEnvironment (env bindings : Val) : M Unit := enter .R_LockEnvironment do
  let _ ← unimplemented "R_LockEnvironment"
  return ()

-- line 1334
def R_EnvironmentIsLocked (env : Val) : M Val := enter .R_EnvironmentIsLocked do
  let _ ← unimplemented ""
  fallOffEnd

-- line 1339
def R_LockBinding (sym env : Val) : M Unit := enter .R_LockBinding do
  let _ ← callbacks .R_LockBinding_x [sym, env]
  checkExitCall

-- line 1345
def R_unLockBinding (sym env : Val) : M Unit := enter .R_unLockBinding do
  let _ ← callbacks .R_unLockBinding_x [sym, env]
  checkExitCall

-- line 1351
def R_MakeActiveBinding (sym fun_ env : Val) : M Unit := enter .R_MakeActiveBinding do
  let _ ← unimplemented "R_MakeActiveBinding"
  return ()

-- line 1356
def R_BindingIsLocked (sym env : Val) : M Val := enter .R_BindingIsLocked do
  let result ← callbacks .R_BindingIsLocked_x [sym, env]
  checkExitCall
  return result

-- line 1363
def R_BindingIsActive (sym env : Val) : M Val := enter .R_BindingIsActive do
  return .int 0

-- line 1369
def R_HasFancyBindings (rho : Val) : M Val := enter .R_HasFancyBindings do
  return (← unimplemented "R_HasFancyBindings")

-- line 1374
def Rf_isS4 (x : Val) : M Val := enter .Rf_isS4 do
  return (← IS_S4_OBJECT x)

-- line 1379
def Rf_asS4 (x b i : Val) : M Val := enter .Rf_asS4 do
  let _ ← unimplemented "Rf_asS4"
  fallOffEnd

-- line 1384
def R_tryEvalInternal (x y ErrorOccurred silent : Val) : M Val := enter .R_tryEvalInternal do
  if ErrorOccurred ≠ NULL then
    store ErrorOccurred (.int 0)
  return (← callbacks .R_tryEval_x [x, y, ErrorOccurred, silent])

-- line 1392
def R_tryEval (x y ErrorOccurred : Val) : M Val := enter .R_tryEval do
  return (← R_tryEvalInternal x y ErrorOccurred (.int 0))

-- line 1397
def R_tryEvalSilent (x y ErrorOccurred : Val) : M Val := enter .R_tryEvalSilent do
  return (← R_tryEvalInternal x y ErrorOccurred (.int 1))

-- line 1414
def R_PromiseExpr (x : Val) : M Val := enter .R_PromiseExpr do
  let result ← callbacks .R_PromiseExpr_x [x]
  checkExitCall
  return result

-- line 1421
def R_ClosureExpr (x : Val) : M Val := enter .R_ClosureExpr do
  return (← unimplemented "R_ClosureExpr")

-- line 1426
def R_forceAndCall (e n rho : Val) : M Val := enter .R_forceAndCall do
  return (← unimplemented "R_forceAndCall")

-- line 1431
def R_MakeExternalPtr (p tag prot : Val) : M Val := enter .R_MakeExternalPtr do
  let result ← callbacks .R_MakeExternalPtr_x [p, tag, prot]
  checkExitCall
  return result

-- line 79
def R_MakeExternalPtrFn (p tag prot : Val) : M Val := enter .R_MakeExternalPtrFn do
  return (← R_MakeExternalPtr p tag prot)

-- line 1438
def R_ExternalPtrAddr (s : Val) : M Val := enter .R_ExternalPtrAddr do
  let result ← callbacks .R_ExternalPtrAddr_x [s]
  checkExitCall
  return result

-- line 75
def R_ExternalPtrAddrFn (s : Val) : M Val := enter .R_ExternalPtrAddrFn do
  return (← R_ExternalPtrAddr s)

-- line 1446
def R_ExternalPtrTag (s : Val) : M Val := enter .R_ExternalPtrTag do
  let result ← callbacks .R_ExternalPtrTag_x [s]
  checkExitCall
  return result

-- line 1453
def R_ExternalPtrProtected (s : Val) : M Val := enter .R_ExternalPtrProtected do
  let result ← callbacks .R_ExternalPtrProtected_x [s]
  checkExitCall
  return result

-- line 1460
def R_SetExternalPtrAddr (s p : Val) : M Unit := enter .R_SetExternalPtrAddr do
  let _ ← callbacks .R_SetExternalPtrAddr_x [s, p]
  return ()

-- line 1465
def R_SetExternalPtrTag (s tag : Val) : M Unit := enter .R_SetExternalPtrTag do
  let _ ← callbacks .R_SetExternalPtrTag_x [s, tag]
  return ()

-- line 1470
def R_SetExternalPtrProtected (s p : Val) : M Unit := enter .R_SetExternalPtrProtected do
  let _ ← callbacks .R_SetExternalPtrProtected_x [s, p]
  return ()

-- line 1475
def R_ClearExternalPtr (s : Val) : M Unit := enter .R_ClearExternalPtr do
  R_SetExternalPtrAddr s NULL

-- line 1480
def R_RegisterFinalizer (s fun_ : Val) : M Unit := enter .R_RegisterFinalizer do
  return ()

-- line 1484
def R_RegisterCFinalizer (s fun_ : Val) : M Unit := enter .R_RegisterCFinalizer do
  return ()

-- line 1489
def R_RegisterFinalizerEx (s fun_ onexit : Val) : M Unit := enter .R_RegisterFinalizerEx do
  return ()

-- line 1495
def R_RegisterCFinalizerEx (s fun_ onexit : Val) : M Unit := enter .R_RegisterCFinalizerEx do
  return ()

-- line 1500
def R_RunPendingFinalizers : M Unit := enter .R_RunPendingFinalizers do
  return ()

-- line 1505
def R_MakeWeakRef (key val fin onexit : Val) : M Val := enter .R_MakeWeakRef do
  let _ ← unimplemented "R_MakeWeakRef"
  fallOffEnd

-- line 1510
def R_MakeWeakRefC (key val fin onexit : Val) : M Val := enter .R_MakeWeakRefC do
  let _ ← unimplemented "R_MakeWeakRefC"
  fallOffEnd

-- line 1515
def R_WeakRefKey (w : Val) : M Val := enter .R_WeakRefKey do
  let _ ← unimplemented "R_WeakRefKey"
  fallOffEnd

-- line 1520
def R_WeakRefValue (w : Val) : M Val := enter .R_WeakRefValue do
  let _ ← unimplemented "R_WeakRefValue"
  fallOffEnd

-- line 1525
def R_RunWeakRefFinalizer (w : Val) : M Unit := enter .R_RunWeakRefFinalizer do
  return ()

-- line 1530
def R_do_slot (obj name : Val) : M Val := enter .R_do_slot do
  let result ← callbacks .R_do_slot_x [obj, name]
  checkExitCall
  return result

-- line 1537
def R_do_slot_assign (obj name value : Val) : M Val := enter .R_do_slot_assign do
  let result ← callbacks .R_do_slot_assign_x [obj, name, value]
  checkExitCall
  return result

-- line 1544
def R_has_slot (obj name : Val) : M Val := enter .R_has_slot do
  let result ← callbacks .R_has_slot_x [obj, name]
  checkExitCall
  return result

-- line 1551
def R_do_MAKE_CLASS (what : Val) : M Val := enter .R_do_MAKE_CLASS do
  let result ← callbacks .R_do_MAKE_CLASS_x [what]
  checkExitCall
  return result

-- line 1558
def R_getClassDef (what : Val) : M Val := enter .R_getClassDef do
  let result ← callbacks .R_getClassDef_x [what]
  checkExitCall
  return result

-- line 1565
def R_do_new_object (class_def : Val) : M Val := enter .R_do_new_object do
  let result ← callbacks .R_do_new_object_x [class_def]
  checkExitCall
  return result

-- line 1572
def nfiGetMethodsNamespace : M Val := enter .nfiGetMethodsNamespace do
  let result ← callbacks .R_MethodsNamespace_x []
  checkExitCall
  return result

/-- Modelled from the spec: `R_check_class_etc_helper` is defined outside this
file and the spec does not describe it.  The call is recorded as one opaque
native call whose result the environment supplies. -/
def R_check_class_etc_helper (x valid getMethodsNamespace : Val) : M Val :=
  callNative (.extfn "R_check_class_etc_helper") [x, valid, getMethodsNamespace]

-- line 1579
def R_check_class_etc (x valid : Val) : M Val := enter .R_check_class_etc do
  return (← R_check_class_etc_helper x valid (.fnptr .nfiGetMethodsNamespace))

-- line 1584
def R_PreserveObject (x : Val) : M Unit := enter .R_PreserveObject do
  let _ ← callbacks .R_PreserveObject_x [x]
  return ()

-- line 1589
def R_ReleaseObject (x : Val) : M Unit := enter .R_ReleaseObject do
  if (← callbacksNonNull) then
    let _ ← callbacks .R_ReleaseObject_x [x]
  return ()

-- line 1597
def R_dot_Last : M Unit := enter .R_dot_Last do
  let _ ← unimplemented "R_dot_Last"
  return ()

-- line 1602
def R_compute_identical (x y flags : Val) : M Val := enter .R_compute_identical do
  let result ← callbacks .R_compute_identical_x [x, y, flags]
  checkExitCall
  return result

-- line 1609
def Rf_copyListMatrix (s t byrow : Val) : M Unit := enter .Rf_copyListMatrix do
  let _ ← callbacks .Rf_copyListMatrix_x [s, t, byrow]
  checkExitCall

-- line 1615
def Rf_copyMatrix (s t byrow : Val) : M Unit := enter .Rf_copyMatrix do
  let _ ← callbacks .Rf_copyMatrix_x [s, t, byrow]
  checkExitCall

-- line 1621
def FASTR_getConnectionChar (conn : Val) : M Val := enter .FASTR_getConnectionChar do
  let result ← callbacks .FASTR_getConnectionChar_x [conn]
  checkExitCall
  return result

-- line 1628
def Rf_str2type (s : Val) : M Val := enter .Rf_str2type do
  let result ← callbacks .Rf_str2type_x [s]
  checkExitCall
  return result

/-- Ordinals of the native symbol types ("Must match ordinal value for DLL.NativeSymbolType"). -/
def C_NATIVE_TYPE : Val := .int 0
def CALL_NATIVE_TYPE : Val := .int 1
def FORTRAN_NATIVE_TYPE : Val := .int 2
def EXTERNAL_NATIVE_TYPE : Val := .int 3

-- In `R_registerRoutines` the counter `num` is an `int`: `countNamed` yields it
-- only while it stays below `2^31`, so that `.int num` is the value of the `int`.

-- line 1645
def R_registerRoutines (info croutines callRoutines fortranRoutines externalRoutines : Val) : M Val := enter .R_registerRoutines do
  if croutines ≠ NULL then
    let num ← countNamed (← tableOf croutines) 0
    let _ ← callbacks .registerRoutines_x [info, C_NATIVE_TYPE, .int num, croutines]
  if callRoutines ≠ NULL then
    let num ← countNamed (← tableOf callRoutines) 0
    let _ ← callbacks .registerRoutines_x [info, CALL_NATIVE_TYPE, .int num, callRoutines]
  if fortranRoutines ≠ NULL then
    let num ← countNamed (← tableOf fortranRoutines) 0
    let _ ← callbacks .registerRoutines_x [info, FORTRAN_NATIVE_TYPE, .int num, fortranRoutines]
  if externalRoutines ≠ NULL then
    let num ← countNamed (← tableOf externalRoutines) 0
    let _ ← callbacks .registerRoutines_x [info, EXTERNAL_NATIVE_TYPE, .int num, externalRoutines]
  return .int 1

-- line 1671
def R_getEmbeddingDllInfo : M Val := enter .R_getEmbeddingDllInfo do
  let result ← callbacks .getEmbeddingDLLInfo_x []
  checkExitCall
  return result

-- line 1678
def R_useDynamicSymbols (dllInfo value : Val) : M Val := enter .R_useDynamicSymbols do
  let result ← callbacks .useDynamicSymbols_x [dllInfo, value]
  checkExitCall
  return result

-- line 1685
def R_forceSymbols (dllInfo value : Val) : M Val := enter .R_forceSymbols do
  let result ← callbacks .forceSymbols_x [dllInfo, value]
  checkExitCall
  return result

-- line 1692
def Rdynload_setSymbol (info nstOrd routinesAddr index : Val) : M Val := enter .Rdynload_setSymbol do
  let (name, fun_, numArgs) ←
    if nstOrd = C_NATIVE_TYPE then readRoutine routinesAddr index
    else if nstOrd = CALL_NATIVE_TYPE then readRoutine routinesAddr index
    else if nstOrd = FORTRAN_NATIVE_TYPE then readRoutine routinesAddr index
    else if nstOrd = EXTERNAL_NATIVE_TYPE then readRoutine routinesAddr index
    else pure (Val.indet, Val.indet, Val.indet)
  let result ← callbacks .setDotSymbolValues_x [info, (← ensure_string name), (← ensure_function fun_), numArgs]
  checkExitCall
  return result

-- line 1733
def R_RegisterCCallable (package name fptr : Val) : M Unit := enter .R_RegisterCCallable do
  let _ ← callbacks .registerCCallable_x [(← ensure_string package), (← ensure_string name), fptr]
  checkExitCall

-- line 1739
def R_GetCCallable (package name : Val) : M Val := enter .R_GetCCallable do
  let result ← callbacks .getCCallable_x [(← ensure_string package), (← ensure_string name)]
  checkExitCall
  return result

-- line 1746
def R_FindSymbol (name pkg symbol : Val) : M Val := enter .R_FindSymbol do
  return (← unimplemented "R_FindSymbol")

/-! ## Calling a function by name -/

/-- The `i`-th actual argument; a missing one is indeterminate. -/
def arg (a : List Val) (i : Nat) : Val := a.getD i .indet

/-- The `char` array an argument points at; a value that is not a C string points at no bytes. -/
def bufferArg : Val → Buffer
  | .cstr bytes => ⟨bytes.length, fun j => bytes.getD j 0⟩
  | _ => ⟨0, fun _ => 0⟩

/-- The `size_t` an argument holds: its value modulo `2^64 = 18446744073709551616`. -/
def sizeArg : Val → Nat
  | .int (.ofNat n) => n % 18446744073709551616
  | _ => 0

/-- A `void` call seen as returning the absent value. -/
def retVoid (m : M Unit) : M Val := do
  m
  return .void

/-- The call of function `f` on the argument list `a`: declared parameters are taken by position, and for a variadic function the rest is its variable argument list. -/
def invoke : Fn → List Val → M Val
  | .R_ExternalPtrAddrFn, a => R_ExternalPtrAddrFn (arg a 0)
  | .R_MakeExternalPtrFn, a => R_MakeExternalPtrFn (arg a 0) (arg a 1) (arg a 2)
  | .FASTR_R_GlobalEnv, a => FASTR_R_GlobalEnv
  | .FASTR_R_BaseEnv, a => FASTR_R_BaseEnv
  | .FASTR_R_BaseNamespace, a => FASTR_R_BaseNamespace
  | .FASTR_R_NamespaceRegistry, a => FASTR_R_NamespaceRegistry
  | .FASTR_GlobalContext, a => FASTR_GlobalContext
  | .FASTR_R_Interactive, a => FASTR_R_Interactive
  | .CAR, a => CAR (arg a 0)
  | .CDR, a => CDR (arg a 0)
  | .LENGTH, a => LENGTH (arg a 0)
  | .Rf_ScalarString, a => Rf_ScalarString (arg a 0)
  | .Rf_mkString, a => Rf_mkString (arg a 0)
  | .Rf_gsetVar, a => retVoid (Rf_gsetVar (arg a 0) (arg a 1) (arg a 2))
  | .Rf_coerceVector, a => Rf_coerceVector (arg a 0) (arg a 1)
  | .Rf_cons, a => Rf_cons (arg a 0) (arg a 1)
  | .Rf_GetOption1, a => Rf_GetOption1 (arg a 0)
  | .Rf_mkChar, a => Rf_mkChar (arg a 0)
  | .Rf_mkCharCE, a => Rf_mkCharCE (arg a 0) (arg a 1)
  | .Rf_mkCharLen, a => Rf_mkCharLen (arg a 0) (arg a 1)
  | .Rf_mkCharLenCE, a => Rf_mkCharLenCE (arg a 0) (arg a 1) (arg a 2)
  | .Rvsnprintf, a => do
    let (val, _) ← Rvsnprintf (bufferArg (arg a 0)) (sizeArg (arg a 1)) (arg a 2) (a.drop 3)
    return val
  | .Rf_errorcall, a => retVoid (Rf_errorcall (arg a 0) (arg a 1) (a.drop 2))
  | .Rf_warningcall, a => retVoid (Rf_warningcall (arg a 0) (arg a 1) (a.drop 2))
  | .Rf_warning, a => retVoid (Rf_warning (arg a 0) (a.drop 1))
  | .Rprintf, a => retVoid (Rprintf (arg a 0) (a.drop 1))
  | .Rf_error, a => retVoid (Rf_error (arg a 0) (a.drop 1))
  | .REprintf, a => retVoid (REprintf (arg a 0) (a.drop 1))
  | .Rvprintf, a => retVoid (Rvprintf (arg a 0) (arg a 1))
  | .REvprintf, a => retVoid (REvprintf (arg a 0) (arg a 1))
  | .Rf_ScalarInteger, a => Rf_ScalarInteger (arg a 0)
  | .Rf_ScalarReal, a => Rf_ScalarReal (arg a 0)
  | .Rf_ScalarLogical, a => Rf_ScalarLogical (arg a 0)
  | .Rf_allocVector3, a => Rf_allocVector3 (arg a 0) (arg a 1) (arg a 2)
  | .Rf_allocArray, a => Rf_allocArray (arg a 0) (arg a 1)
  | .Rf_alloc3DArray, a => Rf_alloc3DArray (arg a 0) (arg a 1) (arg a 2) (arg a 3)
  | .Rf_allocMatrix, a => Rf_allocMatrix (arg a 0) (arg a 1) (arg a 2)
  | .Rf_allocList, a => Rf_allocList (arg a 0)
  | .Rf_allocSExp, a => Rf_allocSExp (arg a 0)
  | .Rf_defineVar, a => retVoid (Rf_defineVar (arg a 0) (arg a 1) (arg a 2))
  | .Rf_setVar, a => retVoid (Rf_setVar (arg a 0) (arg a 1) (arg a 2))
  | .Rf_dimgets, a => Rf_dimgets (arg a 0) (arg a 1)
  | .Rf_dimnamesgets, a => Rf_dimnamesgets (arg a 0) (arg a 1)
  | .Rf_eval, a => Rf_eval (arg a 0) (arg a 1)
  | .Rf_findFun, a => Rf_findFun (arg a 0) (arg a 1)
  | .Rf_findVar, a => Rf_findVar (arg a 0) (arg a 1)
  | .Rf_findVarInFrame, a => Rf_findVarInFrame (arg a 0) (arg a 1)
  | .Rf_findVarInFrame3, a => Rf_findVarInFrame3 (arg a 0) (arg a 1) (arg a 2)
  | .Rf_getAttrib, a => Rf_getAttrib (arg a 0) (arg a 1)
  | .Rf_setAttrib, a => Rf_setAttrib (arg a 0) (arg a 1) (arg a 2)
  | .Rf_duplicate, a => Rf_duplicate (arg a 0)
  | .Rf_shallow_duplicate, a => Rf_shallow_duplicate (arg a 0)
  | .Rf_any_duplicated, a => Rf_any_duplicated (arg a 0) (arg a 1)
  | .Rf_any_duplicated3, a => Rf_any_duplicated3 (arg a 0) (arg a 1) (arg a 2)
  | .Rf_duplicated, a => Rf_duplicated (arg a 0) (arg a 1)
  | .Rf_applyClosure, a => Rf_applyClosure (arg a 0) (arg a 1) (arg a 2) (arg a 3) (arg a 4)
  | .Rf_copyMostAttrib, a => retVoid (Rf_copyMostAttrib (arg a 0) (arg a 1))
  | .Rf_copyVector, a => retVoid (Rf_copyVector (arg a 0) (arg a 1))
  | .Rf_countContexts, a => Rf_countContexts (arg a 0) (arg a 1)
  | .Rf_inherits, a => Rf_inherits (arg a 0) (arg a 1)
  | .Rf_isObject, a => Rf_isObject (arg a 0)
  | .Rf_PrintValue, a => retVoid (Rf_PrintValue (arg a 0))
  | .Rf_install, a => Rf_install (arg a 0)
  | .Rf_installChar, a => Rf_installChar (arg a 0)
  | .Rf_isNull, a => Rf_isNull (arg a 0)
  | .Rf_isString, a => Rf_isString (arg a 0)
  | .R_cycle_detected, a => R_cycle_detected (arg a 0) (arg a 1)
  | .Rf_getCharCE, a => Rf_getCharCE (arg a 0)
  | .Rf_reEnc, a => Rf_reEnc (arg a 0) (arg a 1) (arg a 2) (arg a 3)
  | .Rf_ncols, a => Rf_ncols (arg a 0)
  | .Rf_nrows, a => Rf_nrows (arg a 0)
  | .Rf_protect, a => Rf_protect (arg a 0)
  | .Rf_unprotect, a => retVoid (Rf_unprotect (arg a 0))
  | .R_ProtectWithIndex, a => retVoid (R_ProtectWithIndex (arg a 0) (arg a 1))
  | .R_Reprotect, a => retVoid (R_Reprotect (arg a 0) (arg a 1))
  | .Rf_unprotect_ptr, a => retVoid (Rf_unprotect_ptr (arg a 0))
  | .R_FlushConsole, a => retVoid (R_FlushConsole)
  | .R_ProcessEvents, a => retVoid (R_ProcessEvents)
  | .R_NewHashedEnv, a => R_NewHashedEnv (arg a 0) (arg a 1)
  | .Rf_classgets, a => Rf_classgets (arg a 0) (arg a 1)
  | .Rf_translateChar, a => Rf_translateChar (arg a 0)
  | .Rf_translateChar0, a => Rf_translateChar0 (arg a 0)
  | .Rf_translateCharUTF8, a => Rf_translateCharUTF8 (arg a 0)
  | .Rf_lengthgets, a => Rf_lengthgets (arg a 0) (arg a 1)
  | .Rf_xlengthgets, a => Rf_xlengthgets (arg a 0) (arg a 1)
  | .R_lsInternal, a => R_lsInternal (arg a 0) (arg a 1)
  | .R_lsInternal3, a => R_lsInternal3 (arg a 0) (arg a 1) (arg a 2)
  | .Rf_namesgets, a => Rf_namesgets (arg a 0) (arg a 1)
  | .TAG, a => TAG (arg a 0)
  | .PRINTNAME, a => PRINTNAME (arg a 0)
  | .CAAR, a => CAAR (arg a 0)
  | .CDAR, a => CDAR (arg a 0)
  | .CADR, a => CADR (arg a 0)
  | .CDDR, a => CDDR (arg a 0)
  | .CDDDR, a => CDDDR (arg a 0)
  | .CADDR, a => CADDR (arg a 0)
  | .CADDDR, a => CADDDR (arg a 0)
  | .CAD4R, a => CAD4R (arg a 0)
  | .MISSING, a => MISSING (arg a 0)
  | .SET_MISSING, a => retVoid (SET_MISSING (arg a 0) (arg a 1))
  | .SET_TAG, a => retVoid (SET_TAG (arg a 0) (arg a 1))
  | .SETCAR, a => SETCAR (arg a 0) (arg a 1)
  | .SETCDR, a => SETCDR (arg a 0) (arg a 1)
  | .SETCADR, a => SETCADR (arg a 0) (arg a 1)
  | .SETCADDR, a => SETCADDR (arg a 0) (arg a 1)
  | .SETCADDDR, a => SETCADDDR (arg a 0) (arg a 1)
  | .SETCAD4R, a => SETCAD4R (arg a 0) (arg a 1)
  | .FORMALS, a => FORMALS (arg a 0)
  | .BODY, a => BODY (arg a 0)
  | .CLOENV, a => CLOENV (arg a 0)
  | .RDEBUG, a => RDEBUG (arg a 0)
  | .RSTEP, a => RSTEP (arg a 0)
  | .RTRACE, a => RTRACE (arg a 0)
  | .SET_RDEBUG, a => retVoid (SET_RDEBUG (arg a 0) (arg a 1))
  | .SET_RSTEP, a => retVoid (SET_RSTEP (arg a 0) (arg a 1))
  | .SET_RTRACE, a => retVoid (SET_RTRACE (arg a 0) (arg a 1))
  | .SET_FORMALS, a => retVoid (SET_FORMALS (arg a 0) (arg a 1))
  | .SET_BODY, a => retVoid (SET_BODY (arg a 0) (arg a 1))
  | .SET_CLOENV, a => retVoid (SET_CLOENV (arg a 0) (arg a 1))
  | .SYMVALUE, a => SYMVALUE (arg a 0)
  | .INTERNAL, a => INTERNAL (arg a 0)
  | .DDVAL, a => DDVAL (arg a 0)
  | .SET_DDVAL, a => retVoid (SET_DDVAL (arg a 0) (arg a 1))
  | .SET_SYMVALUE, a => retVoid (SET_SYMVALUE (arg a 0) (arg a 1))
  | .SET_INTERNAL, a => retVoid (SET_INTERNAL (arg a 0) (arg a 1))
  | .FRAME, a => FRAME (arg a 0)
  | .ENCLOS, a => ENCLOS (arg a 0)
  | .HASHTAB, a => HASHTAB (arg a 0)
  | .ENVFLAGS, a => ENVFLAGS (arg a 0)
  | .SET_ENVFLAGS, a => retVoid (SET_ENVFLAGS (arg a 0) (arg a 1))
  | .SET_FRAME, a => retVoid (SET_FRAME (arg a 0) (arg a 1))
  | .SET_ENCLOS, a => retVoid (SET_ENCLOS (arg a 0) (arg a 1))
  | .SET_HASHTAB, a => retVoid (SET_HASHTAB (arg a 0) (arg a 1))
  | .PRCODE, a => PRCODE (arg a 0)
  | .PRENV, a => PRENV (arg a 0)
  | .PRVALUE, a => PRVALUE (arg a 0)
  | .PRSEEN, a => PRSEEN (arg a 0)
  | .SET_PRSEEN, a => retVoid (SET_PRSEEN (arg a 0) (arg a 1))
  | .SET_PRENV, a => retVoid (SET_PRENV (arg a 0) (arg a 1))
  | .SET_PRVALUE, a => retVoid (SET_PRVALUE (arg a 0) (arg a 1))
  | .SET_PRCODE, a => retVoid (SET_PRCODE (arg a 0) (arg a 1))
  | .TRUELENGTH, a => TRUELENGTH (arg a 0)
  | .SETLENGTH, a => retVoid (SETLENGTH (arg a 0) (arg a 1))
  | .SET_TRUELENGTH, a => retVoid (SET_TRUELENGTH (arg a 0) (arg a 1))
  | .XLENGTH, a => XLENGTH (arg a 0)
  | .XTRUELENGTH, a => XTRUELENGTH (arg a 0)
  | .IS_LONG_VEC, a => IS_LONG_VEC (arg a 0)
  | .LEVELS, a => LEVELS (arg a 0)
  | .SETLEVELS, a => SETLEVELS (arg a 0) (arg a 1)
  | .FASTR_INTEGER, a => FASTR_INTEGER (arg a 0)
  | .FASTR_REAL, a => FASTR_REAL (arg a 0)
  | .COMPLEX, a => COMPLEX (arg a 0)
  | .LOGICAL, a => LOGICAL (arg a 0)
  | .RAW, a => RAW (arg a 0)
  | .R_CHAR, a => R_CHAR (arg a 0)
  | .STRING_ELT, a => STRING_ELT (arg a 0) (arg a 1)
  | .VECTOR_ELT, a => VECTOR_ELT (arg a 0) (arg a 1)
  | .SET_STRING_ELT, a => retVoid (SET_STRING_ELT (arg a 0) (arg a 1) (arg a 2))
  | .SET_VECTOR_ELT, a => SET_VECTOR_ELT (arg a 0) (arg a 1) (arg a 2)
  | .STRING_PTR, a => STRING_PTR (arg a 0)
  | .VECTOR_PTR, a => VECTOR_PTR (arg a 0)
  | .Rf_asChar, a => Rf_asChar (arg a 0)
  | .Rf_PairToVectorList, a => Rf_PairToVectorList (arg a 0)
  | .Rf_VectorToPairList, a => Rf_VectorToPairList (arg a 0)
  | .Rf_asCharacterFactor, a => Rf_asCharacterFactor (arg a 0)
  | .Rf_asLogical, a => Rf_asLogical (arg a 0)
  | .Rf_asInteger, a => Rf_asInteger (arg a 0)
  | .Rf_asReal, a => Rf_asReal (arg a 0)
  | .Rf_asComplex, a => Rf_asComplex (arg a 0)
  | .TYPEOF, a => TYPEOF (arg a 0)
  | .ATTRIB, a => ATTRIB (arg a 0)
  | .OBJECT, a => OBJECT (arg a 0)
  | .MARK, a => MARK (arg a 0)
  | .NAMED, a => NAMED (arg a 0)
  | .REFCNT, a => REFCNT (arg a 0)
  | .SET_OBJECT, a => retVoid (SET_OBJECT (arg a 0) (arg a 1))
  | .SET_TYPEOF, a => retVoid (SET_TYPEOF (arg a 0) (arg a 1))
  | .SET_NAMED, a => retVoid (SET_NAMED (arg a 0) (arg a 1))
  | .SET_ATTRIB, a => retVoid (SET_ATTRIB (arg a 0) (arg a 1))
  | .DUPLICATE_ATTRIB, a => retVoid (DUPLICATE_ATTRIB (arg a 0) (arg a 1))
  | .R_BadLongVector, a => R_BadLongVector (arg a 0) (arg a 1) (arg a 2)
  | .IS_S4_OBJECT, a => IS_S4_OBJECT (arg a 0)
  | .SET_S4_OBJECT, a => retVoid (SET_S4_OBJECT (arg a 0))
  | .UNSET_S4_OBJECT, a => retVoid (UNSET_S4_OBJECT (arg a 0))
  | .R_ToplevelExec, a => R_ToplevelExec (arg a 0) (arg a 1)
  | .R_ExecWithCleanup, a => R_ExecWithCleanup (arg a 0) (arg a 1) (arg a 2) (arg a 3)
  | .R_RestoreHashCount, a => retVoid (R_RestoreHashCount (arg a 0))
  | .R_IsPackageEnv, a => R_IsPackageEnv (arg a 0)
  | .R_PackageEnvName, a => R_PackageEnvName (arg a 0)
  | .R_FindPackageEnv, a => R_FindPackageEnv (arg a 0)
  | .R_IsNamespaceEnv, a => R_IsNamespaceEnv (arg a 0)
  | .R_FindNamespace, a => R_FindNamespace (arg a 0)
  | .R_NamespaceEnvSpec, a => R_NamespaceEnvSpec (arg a 0)
  | .R_LockEnvironment, a => retVoid (R_LockEnvironment (arg a 0) (arg a 1))
  | .R_EnvironmentIsLocked, a => R_EnvironmentIsLocked (arg a 0)
  | .R_LockBinding, a => retVoid (R_LockBinding (arg a 0) (arg a 1))
  | .R_unLockBinding, a => retVoid (R_unLockBinding (arg a 0) (arg a 1))
  | .R_MakeActiveBinding, a => retVoid (R_MakeActiveBinding (arg a 0) (arg a 1) (arg a 2))
  | .R_BindingIsLocked, a => R_BindingIsLocked (arg a 0) (arg a 1)
  | .R_BindingIsActive, a => R_BindingIsActive (arg a 0) (arg a 1)
  | .R_HasFancyBindings, a => R_HasFancyBindings (arg a 0)
  | .Rf_isS4, a => Rf_isS4 (arg a 0)
  | .Rf_asS4, a => Rf_asS4 (arg a 0) (arg a 1) (arg a 2)
  | .R_tryEvalInternal, a => R_tryEvalInternal (arg a 0) (arg a 1) (arg a 2) (arg a 3)
  | .R_tryEval, a => R_tryEval (arg a 0) (arg a 1) (arg a 2)
  | .R_tryEvalSilent, a => R_tryEvalSilent (arg a 0) (arg a 1) (arg a 2)
  | .R_PromiseExpr, a => R_PromiseExpr (arg a 0)
  | .R_ClosureExpr, a => R_ClosureExpr (arg a 0)
  | .R_forceAndCall, a => R_forceAndCall (arg a 0) (arg a 1) (arg a 2)
  | .R_MakeExternalPtr, a => R_MakeExternalPtr (arg a 0) (arg a 1) (arg a 2)
  | .R_ExternalPtrAddr, a => R_ExternalPtrAddr (arg a 0)
  | .R_ExternalPtrTag, a => R_ExternalPtrTag (arg a 0)
  | .R_ExternalPtrProtected, a => R_ExternalPtrProtected (arg a 0)
  | .R_SetExternalPtrAddr, a => retVoid (R_SetExternalPtrAddr (arg a 0) (arg a 1))
  | .R_SetExternalPtrTag, a => retVoid (R_SetExternalPtrTag (arg a 0) (arg a 1))
  | .R_SetExternalPtrProtected, a => retVoid (R_SetExternalPtrProtected (arg a 0) (arg a 1))
  | .R_ClearExternalPtr, a => retVoid (R_ClearExternalPtr (arg a 0))
  | .R_RegisterFinalizer, a => retVoid (R_RegisterFinalizer (arg a 0) (arg a 1))
  | .R_RegisterCFinalizer, a => retVoid (R_RegisterCFinalizer (arg a 0) (arg a 1))
  | .R_RegisterFinalizerEx, a => retVoid (R_RegisterFinalizerEx (arg a 0) (arg a 1) (arg a 2))
  | .R_RegisterCFinalizerEx, a => retVoid (R_RegisterCFinalizerEx (arg a 0) (arg a 1) (arg a 2))
  | .R_RunPendingFinalizers, a => retVoid (R_RunPendingFinalizers)
  | .R_MakeWeakRef, a => R_MakeWeakRef (arg a 0) (arg a 1) (arg a 2) (arg a 3)
  | .R_MakeWeakRefC, a => R_MakeWeakRefC (arg a 0) (arg a 1) (arg a 2) (arg a 3)
  | .R_WeakRefKey, a => R_WeakRefKey (arg a 0)
  | .R_WeakRefValue, a => R_WeakRefValue (arg a 0)
  | .R_RunWeakRefFinalizer, a => retVoid (R_RunWeakRefFinalizer (arg a 0))
  | .R_do_slot, a => R_do_slot (arg a 0) (arg a 1)
  | .R_do_slot_assign, a => R_do_slot_assign (arg a 0) (arg a 1) (arg a 2)
  | .R_has_slot, a => R_has_slot (arg a 0) (arg a 1)
  | .R_do_MAKE_CLASS, a => R_do_MAKE_CLASS (arg a 0)
  | .R_getClassDef, a => R_getClassDef (arg a 0)
  | .R_do_new_object, a => R_do_new_object (arg a 0)
  | .nfiGetMethodsNamespace, a => nfiGetMethodsNamespace
  | .R_check_class_etc, a => R_check_class_etc (arg a 0) (arg a 1)
  | .R_PreserveObject, a => retVoid (R_PreserveObject (arg a 0))
  | .R_ReleaseObject, a => retVoid (R_ReleaseObject (arg a 0))
  | .R_dot_Last, a => retVoid (R_dot_Last)
  | .R_compute_identical, a => R_compute_identical (arg a 0) (arg a 1) (arg a 2)
  | .Rf_copyListMatrix, a => retVoid (Rf_copyListMatrix (arg a 0) (arg a 1) (arg a 2))
  | .Rf_copyMatrix, a => retVoid (Rf_copyMatrix (arg a 0) (arg a 1) (arg a 2))
  | .FASTR_getConnectionChar, a => FASTR_getConnectionChar (arg a 0)
  | .Rf_str2type, a => Rf_str2type (arg a 0)
  | .R_registerRoutines, a => R_registerRoutines (arg a 0) (arg a 1) (arg a 2) (arg a 3) (arg a 4)
  | .R_getEmbeddingDllInfo, a => R_getEmbeddingDllInfo
  | .R_useDynamicSymbols, a => R_useDynamicSymbols (arg a 0) (arg a 1)
  | .R_forceSymbols, a => R_forceSymbols (arg a 0) (arg a 1)
  | .Rdynload_setSymbol, a => Rdynload_setSymbol (arg a 0) (arg a 1) (arg a 2) (arg a 3)
  | .R_RegisterCCallable, a => retVoid (R_RegisterCCallable (arg a 0) (arg a 1) (arg a 2))
  | .R_GetCCallable, a => R_GetCCallable (arg a 0) (arg a 1)
  | .R_FindSymbol, a => R_FindSymbol (arg a 0) (arg a 1) (arg a 2)

/-- A top-level run of function `f` on arguments `a` in environment `env`, from the empty history. -/
def call (env : Env) (f : Fn) (a : List Val) : Run Val := invoke f a env f []


/-! ## Body shapes

Most bodies follow one of a few shapes.  The table `kind` records the shape of
each function; `kind_run` shows that the table agrees with the definitions, so
that a property of all functions can be proved shape by shape. -/

/-- How an argument of an upcall is obtained from the parameters of the function. -/
inductive ArgSrc
  /-- The parameter at the given position, unchanged. -/
  | param (i : Nat)
  /-- The hook `ensure_string` applied to the parameter at the given position. -/
  | ensured (i : Nat)
  /-- The hook `ensure_truffle_chararray_n` applied to two parameters. -/
  | chars (i j : Nat)
  /-- A constant. -/
  | lit (v : Val)
  deriving DecidableEq, Repr

/-- What a forwarding function returns. -/
inductive RetSrc
  /-- The value the callback returned. -/
  | result
  /-- A constant. -/
  | lit (v : Val)
  deriving DecidableEq, Repr

/-- The common shapes of a function body. -/
inductive Kind
  /-- One upcall, an optional exit check, then the return of a value. -/
  | forward (slot : Slot) (args : List ArgSrc) (checked : Bool) (ret : RetSrc)
  /-- One upcall and an optional exit check in a `void` function. -/
  | forwardVoid (slot : Slot) (args : List ArgSrc) (checked : Bool)
  /-- A call of `unimplemented` with the given message as the first statement. -/
  | stub (msg : String)
  /-- No call at all. -/
  | noop (ret : ArgSrc)
  /-- Anything else. -/
  | special
  deriving DecidableEq, Repr

/-- The value of an argument source on the actual arguments `a`. -/
def ArgSrc.eval (env : Env) (a : List Val) : ArgSrc → Val
  | .param i => arg a i
  | .ensured i => env.ensure_string (arg a i)
  | .chars i j => env.ensure_truffle_chararray_n (arg a i) (arg a j)
  | .lit v => v

/-- The value of a return source given the callback result. -/
def RetSrc.eval (r : Val) : RetSrc → Val
  | .result => r
  | .lit v => v

/-- The generic forwarding body of a function `f` that returns a value: one
upcall, an optional exit check, the return. -/
def forwardM (f : Fn) (slot : Slot) (args : List Val) (checked : Bool) (ret : RetSrc) : M Val :=
  enter f do
    let r ← callbacks slot args
    if checked then checkExitCall else pure ()
    pure (ret.eval r)

/-- The generic forwarding body of a `void` function `f`. -/
def forwardVoidM (f : Fn) (slot : Slot) (args : List Val) (checked : Bool) : M Val :=
  retVoid (enter f do
    let _ ← callbacks slot args
    if checked then checkExitCall else pure ())

/-- The run of a function of the given shape. -/
def Kind.run (env : Env) (f : Fn) (a : List Val) : Kind → Run Val
  | .forward slot args checked ret =>
    forwardM f slot (args.map (ArgSrc.eval env a)) checked ret env f []
  | .forwardVoid slot args checked =>
    forwardVoidM f slot (args.map (ArgSrc.eval env a)) checked env f []
  | .stub msg => ⟨.stop .aborted, [.unimplemented f msg]⟩
  | .noop ret => ⟨.ret (ret.eval env a), []⟩
  | .special => invoke f a env f []

/-- One registration block of `R_registerRoutines`: for a non-NULL table, count
its entries and make the upcall. -/
def regBlock (info ty tbl : Val) : M Unit :=
  if tbl ≠ NULL then do
    let num ← countNamed (← tableOf tbl) 0
    let _ ← callbacks .registerRoutines_x [info, ty, .int num, tbl]
  else pure ()

/-- The shape of each function body, used to reason about all functions at once. -/
def kind : Fn → Kind
  | .FASTR_R_GlobalEnv => .forward .R_GlobalEnv_x [] true .result
  | .FASTR_R_BaseEnv => .forward .R_BaseEnv_x [] true .result
  | .FASTR_R_BaseNamespace => .forward .R_BaseNamespace_x [] true .result
  | .FASTR_R_NamespaceRegistry => .forward .R_NamespaceRegistry_x [] true .result
  | .FASTR_GlobalContext => .forward .R_GlobalContext_x [] true .result
  | .FASTR_R_Interactive => .forward .R_Interactive_x [] true .result
  | .CAR => .forward .CAR_x [.param 0] true .result
  | .CDR => .forward .CDR_x [.param 0] true .result
  | .LENGTH => .forward .LENGTH_x [.param 0] true .result
  | .Rf_ScalarString => .forward .Rf_ScalarString_x [.param 0] true .result
  | .Rf_gsetVar => .forwardVoid .Rf_gsetVar_x [.param 0, .param 1, .param 2] true
  | .Rf_coerceVector => .forward .Rf_coerceVector_x [.param 0, .param 1] true .result
  | .Rf_cons => .forward .Rf_cons_x [.param 0, .param 1] true .result
  | .Rf_GetOption1 => .forward .Rf_GetOption1_x [.param 0] false .result
  | .Rf_mkCharLenCE => .forward .Rf_mkCharLenCE_x [.chars 0 1, .param 1, .param 2] true .result
  | .Rvprintf => .stub "Rvprintf"
  | .REvprintf => .stub "REvprintf"
  | .Rf_ScalarInteger => .forward .Rf_ScalarInteger_x [.param 0] true .result
  | .Rf_ScalarReal => .forward .Rf_ScalarReal_x [.param 0] true .result
  | .Rf_ScalarLogical => .forward .Rf_ScalarLogical_x [.param 0] true .result
  | .Rf_allocArray => .forward .Rf_allocArray_x [.param 0, .param 1] true .result
  | .Rf_alloc3DArray => .stub "Rf_alloc3DArray"
  | .Rf_allocMatrix => .forward .Rf_allocMatrix_x [.param 0, .param 1, .param 2] true .result
  | .Rf_allocList => .stub "Rf_allocList"
  | .Rf_allocSExp => .stub "Rf_allocSExp"
  | .Rf_defineVar => .forwardVoid .Rf_defineVar_x [.param 0, .param 1, .param 2] true
  | .Rf_setVar => .stub "Rf_setVar"
  | .Rf_dimgets => .stub "Rf_dimgets"
  | .Rf_dimnamesgets => .stub "Rf_dimnamesgets"
  | .Rf_eval => .forward .Rf_eval_x [.param 0, .param 1] true .result
  | .Rf_findFun => .forward .Rf_findFun_x [.param 0, .param 1] true .result
  | .Rf_findVar => .forward .Rf_findVar_x [.param 0, .param 1] true .result
  | .Rf_findVarInFrame => .forward .Rf_findVarInFrame_x [.param 0, .param 1] true .result
  | .Rf_findVarInFrame3 => .forward .Rf_findVarInFrame3_x [.param 0, .param 1, .param 2] false .result
  | .Rf_getAttrib => .forward .Rf_getAttrib_x [.param 0, .param 1] false .result
  | .Rf_setAttrib => .forward .Rf_setAttrib_x [.param 0, .param 1, .param 2] true .result
  | .Rf_duplicate => .forward .Rf_duplicate_x [.param 0, .lit (.int 1)] true .result
  | .Rf_shallow_duplicate => .forward .Rf_duplicate_x [.param 0, .lit (.int 0)] true .result
  | .Rf_any_duplicated => .forward .Rf_any_duplicated_x [.param 0, .param 1] true .result
  | .Rf_any_duplicated3 => .forward .Rf_any_duplicated3_x [.param 0, .param 1, .param 2] true .result
  | .Rf_duplicated => .stub "Rf_duplicated"
  | .Rf_applyClosure => .stub "Rf_applyClosure"
  | .Rf_copyMostAttrib => .forwardVoid .Rf_copyMostAttrib_x [.param 0, .param 1] true
  | .Rf_copyVector => .stub "Rf_copyVector"
  | .Rf_countContexts => .stub "Rf_countContexts"
  | .Rf_inherits => .forward .Rf_inherits_x [.param 0, .ensured 1] true .result
  | .Rf_isObject => .stub "Rf_isObject"
  | .Rf_PrintValue => .forwardVoid .Rf_PrintValue_x [.param 0] true
  | .Rf_install => .forward .Rf_install_x [.ensured 0] true .result
  | .Rf_installChar => .forward .Rf_installChar_x [.param 0] true .result
  | .Rf_isNull => .forward .Rf_isNull_x [.param 0] true .result
  | .Rf_isString => .forward .Rf_isString_x [.param 0] true .result
  | .R_cycle_detected => .stub "R_cycle_detected"
  | .Rf_getCharCE => .noop (.lit (.int 0))
  | .Rf_reEnc => .noop (.param 0)
  | .Rf_ncols => .forward .Rf_ncols_x [.param 0] true .result
  | .Rf_nrows => .forward .Rf_nrows_x [.param 0] true .result
  | .Rf_protect => .forward .Rf_protect_x [.param 0] true .result
  | .Rf_unprotect => .forwardVoid .Rf_unprotect_x [.param 0] true
  | .R_Reprotect => .forwardVoid .R_Reprotect_x [.param 0, .param 1] true
  | .Rf_unprotect_ptr => .forwardVoid .Rf_unprotect_ptr_x [.param 0] true
  | .R_FlushConsole => .noop (.lit .void)
  | .R_ProcessEvents => .stub "R_ProcessEvents"
  | .R_NewHashedEnv => .forward .R_NewHashedEnv_x [.param 0, .param 1] true .result
  | .Rf_classgets => .forward .Rf_classgets_x [.param 0, .param 1] true .result
  | .Rf_lengthgets => .forward .Rf_lengthgets_x [.param 0, .param 1] true .result
  | .Rf_xlengthgets => .stub "Rf_xlengthgets"
  | .R_lsInternal3 => .forward .R_lsInternal3_x [.param 0, .param 1, .param 2] false .result
  | .Rf_namesgets => .forward .Rf_namesgets_x [.param 0, .param 1] true .result
  | .TAG => .forward .TAG_x [.param 0] true .result
  | .PRINTNAME => .forward .PRINTNAME_x [.param 0] true .result
  | .CAAR => .forward .CAAR_x [.param 0] true .result
  | .CDAR => .forward .CDAR_x [.param 0] true .result
  | .CADR => .forward .CADR_x [.param 0] true .result
  | .CDDR => .forward .CDDR_x [.param 0] true .result
  | .CDDDR => .forward .CDDDR_x [.param 0] true .result
  | .CADDR => .forward .CADDR_x [.param 0] true .result
  | .CADDDR => .forward .CADDDR_x [.param 0] true .result
  | .CAD4R => .forward .CAD4R_x [.param 0] true .result
  | .MISSING => .stub "MISSING"
  | .SET_MISSING => .stub "SET_MISSING"
  | .SET_TAG => .forwardVoid .SET_TAG_x [.param 0, .param 1] true
  | .SETCAR => .forward .SETCAR_x [.param 0, .param 1] true .result
  | .SETCDR => .forward .SETCDR_x [.param 0, .param 1] true .result
  | .SETCADR => .forward .SETCADR_x [.param 0, .param 1] true .result
  | .SETCADDR => .forward .SETCADDR_x [.param 0, .param 1] false (.lit .null)
  | .SETCADDDR => .forward .SETCADDDR_x [.param 0, .param 1] false (.lit .null)
  | .SETCAD4R => .forward .SETCAD4R_x [.param 0, .param 1] false (.lit .null)
  | .FORMALS => .forward .FORMALS_x [.param 0] true .result
  | .BODY => .forward .BODY_x [.param 0] true .result
  | .CLOENV => .forward .CLOENV_x [.param 0] true .result
  | .RDEBUG => .forward .RDEBUG_x [.param 0] true .result
  | .RSTEP => .forward .RSTEP_x [.param 0] true .result
  | .RTRACE => .stub "RTRACE"
  | .SET_RDEBUG => .forwardVoid .SET_RDEBUG_x [.param 0, .param 1] true
  | .SET_RSTEP => .forwardVoid .SET_RSTEP_x [.param 0, .param 1] true
  | .SET_RTRACE => .stub "SET_RTRACE"
  | .SET_FORMALS => .forwardVoid .SET_FORMALS_x [.param 0, .param 1] true
  | .SET_BODY => .forwardVoid .SET_BODY_x [.param 0, .param 1] true
  | .SET_CLOENV => .forwardVoid .SET_CLOENV_x [.param 0, .param 1] true
  | .SYMVALUE => .forward .SYMVALUE_x [.param 0] true .result
  | .INTERNAL => .stub "INTERNAL"
  | .DDVAL => .stub "DDVAL"
  | .SET_DDVAL => .stub "SET_DDVAL"
  | .SET_SYMVALUE => .forwardVoid .SET_SYMVALUE_x [.param 0, .param 1] true
  | .SET_INTERNAL => .stub "SET_INTERNAL"
  | .FRAME => .stub "FRAME"
  | .ENCLOS => .forward .ENCLOS_x [.param 0] true .result
  | .HASHTAB => .stub "HASHTAB"
  | .ENVFLAGS => .stub "ENVFLAGS"
  | .SET_ENVFLAGS => .stub "SET_ENVFLAGS"
  | .SET_FRAME => .stub "SET_FRAME"
  | .SET_ENCLOS => .stub "SET_ENCLOS"
  | .SET_HASHTAB => .stub "SET_HASHTAB"
  | .PRCODE => .forward .PRCODE_x [.param 0] true .result
  | .PRENV => .forward .PRENV_x [.param 0] true .result
  | .PRVALUE => .forward .PRVALUE_x [.param 0] true .result
  | .PRSEEN => .forward .PRSEEN_x [.param 0] true .result
  | .SET_PRSEEN => .stub "SET_PRSEEN"
  | .SET_PRENV => .stub "SET_PRENV"
  | .SET_PRVALUE => .stub "SET_PRVALUE"
  | .SET_PRCODE => .stub "SET_PRCODE"
  | .TRUELENGTH => .noop (.lit (.int 0))
  | .SETLENGTH => .stub "SETLENGTH"
  | .SET_TRUELENGTH => .stub "SET_TRUELENGTH"
  | .XTRUELENGTH => .stub "XTRUELENGTH"
  | .IS_LONG_VEC => .stub "IS_LONG_VEC"
  | .LEVELS => .stub "LEVELS"
  | .SETLEVELS => .stub "SETLEVELS"
  | .FASTR_INTEGER => .forward .INTEGER_x [.param 0] true .result
  | .FASTR_REAL => .forward .REAL_x [.param 0] true .result
  | .COMPLEX => .forward .COMPLEX_x [.param 0] true .result
  | .LOGICAL => .forward .LOGICAL_x [.param 0] true .result
  | .RAW => .forward .RAW_x [.param 0] true .result
  | .R_CHAR => .forward .R_CHAR_x [.param 0] true .result
  | .STRING_ELT => .forward .STRING_ELT_x [.param 0, .param 1] true .result
  | .VECTOR_ELT => .forward .VECTOR_ELT_x [.param 0, .param 1] true .result
  | .SET_STRING_ELT => .forwardVoid .SET_STRING_ELT_x [.param 0, .param 1, .param 2] true
  | .SET_VECTOR_ELT => .forward .SET_VECTOR_ELT_x [.param 0, .param 1, .param 2] true .result
  | .STRING_PTR => .stub "STRING_PTR"
  | .VECTOR_PTR => .stub "VECTOR_PTR"
  | .Rf_asChar => .forward .Rf_asChar_x [.param 0] true .result
  | .Rf_PairToVectorList => .forward .Rf_PairToVectorList_x [.param 0] true .result
  | .Rf_VectorToPairList => .forward .Rf_VectorToPairList_x [.param 0] true .result
  | .Rf_asCharacterFactor => .forward .Rf_asCharacterFactor_x [.param 0] true .result
  | .Rf_asLogical => .forward .Rf_asLogical_x [.param 0] true .result
  | .Rf_asInteger => .forward .Rf_asInteger_x [.param 0] true .result
  | .Rf_asReal => .forward .Rf_asReal_x [.param 0] true .result
  | .Rf_asComplex => .stub "Rf_asComplex"
  | .TYPEOF => .forward .TYPEOF_x [.param 0] true .result
  | .ATTRIB => .forward .ATTRIB_x [.param 0] true .result
  | .OBJECT => .forward .OBJECT_x [.param 0] true .result
  | .MARK => .stub "MARK"
  | .NAMED => .forward .NAMED_x [.param 0] true .result
  | .REFCNT => .stub "REFCNT"
  | .SET_OBJECT => .forwardVoid .SET_OBJECT_x [.param 0, .param 1] false
  | .SET_TYPEOF => .forwardVoid .SET_TYPEOF_x [.param 0, .param 1] true
  | .SET_NAMED => .forwardVoid .SET_NAMED_FASTR_x [.param 0, .param 1] true
  | .SET_ATTRIB => .forwardVoid .SET_ATTRIB_x [.param 0, .param 1] false
  | .DUPLICATE_ATTRIB => .forwardVoid .DUPLICATE_ATTRIB_x [.param 0, .param 1] true
  | .R_BadLongVector => .stub "R_BadLongVector"
  | .IS_S4_OBJECT => .forward .IS_S4_OBJECT_x [.param 0] true .result
  | .SET_S4_OBJECT => .forwardVoid .SET_S4_OBJECT_x [.param 0] false
  | .UNSET_S4_OBJECT => .forwardVoid .UNSET_S4_OBJECT_x [.param 0] false
  | .R_ExecWithCleanup => .stub "R_ExecWithCleanup"
  | .R_RestoreHashCount => .stub "R_RestoreHashCount"
  | .R_IsPackageEnv => .stub "R_IsPackageEnv"
  | .R_PackageEnvName => .stub "R_PackageEnvName"
  | .R_FindPackageEnv => .stub "R_FindPackageEnv"
  | .R_IsNamespaceEnv => .stub "R_IsNamespaceEnv"
  | .R_FindNamespace => .forward .R_FindNamespace_x [.param 0] true .result
  | .R_NamespaceEnvSpec => .stub "R_NamespaceEnvSpec"
  | .R_LockEnvironment => .stub "R_LockEnvironment"
  | .R_EnvironmentIsLocked => .stub ""
  | .R_LockBinding => .forwardVoid .R_LockBinding_x [.param 0, .param 1] true
  | .R_unLockBinding => .forwardVoid .R_unLockBinding_x [.param 0, .param 1] true
  | .R_MakeActiveBinding => .stub "R_MakeActiveBinding"
  | .R_BindingIsLocked => .forward .R_BindingIsLocked_x [.param 0, .param 1] true .result
  | .R_BindingIsActive => .noop (.lit (.int 0))
  | .R_HasFancyBindings => .stub "R_HasFancyBindings"
  | .Rf_asS4 => .stub "Rf_asS4"
  | .R_PromiseExpr => .forward .R_PromiseExpr_x [.param 0] true .result
  | .R_ClosureExpr => .stub "R_ClosureExpr"
  | .R_forceAndCall => .stub "R_forceAndCall"
  | .R_MakeExternalPtr => .forward .R_MakeExternalPtr_x [.param 0, .param 1, .param 2] true .result
  | .R_ExternalPtrAddr => .forward .R_ExternalPtrAddr_x [.param 0] true .result
  | .R_ExternalPtrTag => .forward .R_ExternalPtrTag_x [.param 0] true .result
  | .R_ExternalPtrProtected => .forward .R_ExternalPtrProtected_x [.param 0] true .result
  | .R_SetExternalPtrAddr => .forwardVoid .R_SetExternalPtrAddr_x [.param 0, .param 1] false
  | .R_SetExternalPtrTag => .forwardVoid .R_SetExternalPtrTag_x [.param 0, .param 1] false
  | .R_SetExternalPtrProtected => .forwardVoid .R_SetExternalPtrProtected_x [.param 0, .param 1] false
  | .R_RegisterFinalizer => .noop (.lit .void)
  | .R_RegisterCFinalizer => .noop (.lit .void)
  | .R_RegisterFinalizerEx => .noop (.lit .void)
  | .R_RegisterCFinalizerEx => .noop (.lit .void)
  | .R_RunPendingFinalizers => .noop (.lit .void)
  | .R_MakeWeakRef => .stub "R_MakeWeakRef"
  | .R_MakeWeakRefC => .stub "R_MakeWeakRefC"
  | .R_WeakRefKey => .stub "R_WeakRefKey"
  | .R_WeakRefValue => .stub "R_WeakRefValue"
  | .R_RunWeakRefFinalizer => .noop (.lit .void)
  | .R_do_slot => .forward .R_do_slot_x [.param 0, .param 1] true .result
  | .R_do_slot_assign => .forward .R_do_slot_assign_x [.param 0, .param 1, .param 2] true .result
  | .R_has_slot => .forward .R_has_slot_x [.param 0, .param 1] true .result
  | .R_do_MAKE_CLASS => .forward .R_do_MAKE_CLASS_x [.param 0] true .result
  | .R_getClassDef => .forward .R_getClassDef_x [.param 0] true .result
  | .R_do_new_object => .forward .R_do_new_object_x [.param 0] true .result
  | .nfiGetMethodsNamespace => .forward .R_MethodsNamespace_x [] true .result
  | .R_PreserveObject => .forwardVoid .R_PreserveObject_x [.param 0] false
  | .R_dot_Last => .stub "R_dot_Last"
  | .R_compute_identical => .forward .R_compute_identical_x [.param 0, .param 1, .param 2] true .result
  | .Rf_copyListMatrix => .forwardVoid .Rf_copyListMatrix_x [.param 0, .param 1, .param 2] true
  | .Rf_copyMatrix => .forwardVoid .Rf_copyMatrix_x [.param 0, .param 1, .param 2] true
  | .FASTR_getConnectionChar => .forward .FASTR_getConnectionChar_x [.param 0] true .result
  | .Rf_str2type => .forward .Rf_str2type_x [.param 0] true .result
  | .R_getEmbeddingDllInfo => .forward .getEmbeddingDLLInfo_x [] true .result
  | .R_useDynamicSymbols => .forward .useDynamicSymbols_x [.param 0, .param 1] true .result
  | .R_forceSymbols => .forward .forceSymbols_x [.param 0, .param 1] true .result
  | .R_RegisterCCallable => .forwardVoid .registerCCallable_x [.ensured 0, .ensured 1, .param 2] true
  | .R_GetCCallable => .forward .getCCallable_x [.ensured 0, .ensured 1] true .result
  | .R_FindSymbol => .stub "R_FindSymbol"
  | _ => .special

/-- The functions whose body does not follow one of the common shapes. -/
def specialFns : List Fn :=
  [.R_ExternalPtrAddrFn,
   .R_MakeExternalPtrFn,
   .Rf_mkString,
   .Rf_mkChar,
   .Rf_mkCharCE,
   .Rf_mkCharLen,
   .Rvsnprintf,
   .Rf_errorcall,
   .Rf_warningcall,
   .Rf_warning,
   .Rprintf,
   .Rf_error,
   .REprintf,
   .Rf_allocVector3,
   .R_ProtectWithIndex,
   .Rf_translateChar,
   .Rf_translateChar0,
   .Rf_translateCharUTF8,
   .R_lsInternal,
   .XLENGTH,
   .R_ToplevelExec,
   .Rf_isS4,
   .R_tryEvalInternal,
   .R_tryEval,
   .R_tryEvalSilent,
   .R_ClearExternalPtr,
   .R_check_class_etc,
   .R_ReleaseObject,
   .R_registerRoutines,
   .Rdynload_setSymbol]

/-! ## Observations on traces -/

/-- Whether an event is an invocation of a callback-table slot. -/
def Event.isUpcall : Event → Bool
  | .upcall .. => true
  | _ => false

/-- The upcalls of a trace, in order. -/
def upcalls (tr : List Event) : List Event := tr.filter Event.isUpcall

/-- The number of exit checks made before the next upcall, or before the end of the trace. -/
def checksBeforeNextUpcall : List Event → Nat
  | [] => 0
  | .upcall .. :: _ => 0
  | .exitCheck _ :: rest => checksBeforeNextUpcall rest + 1
  | _ :: rest => checksBeforeNextUpcall rest

/-- Every upcall of the trace is followed by exactly one exit check before the
next upcall or the end of the trace. -/
def checkedOnce : List Event → Bool
  | [] => true
  | .upcall .. :: rest => checksBeforeNextUpcall rest == 1 && checkedOnce rest
  | _ :: rest => checkedOnce rest

/-- Every exit check of the trace comes right after an upcall made in the same
function body, `prev` being the call made just before the trace.  A write
through a pointer is not a call and is skipped. -/
def guardedFrom (prev : Option Event) : List Event → Bool
  | [] => true
  | .exitCheck f :: rest =>
    (match prev with
      | some (.upcall g _ _ _) => f == g
      | _ => false) && guardedFrom (some (.exitCheck f)) rest
  | .store .. :: rest => guardedFrom prev rest
  | e :: rest => guardedFrom (some e) rest

/-- Every exit check of the trace comes right after an upcall made in the same function body. -/
def guarded (tr : List Event) : Bool := guardedFrom none tr

/-- The value `x` is the parameter `p`, possibly passed through one of the three normalization hooks. -/
def normalized (env : Env) (p x : Val) : Prop :=
  x = p ∨ x = env.ensure_string p ∨ x = env.ensure_function p ∨
    ∃ n, x = env.ensure_truffle_chararray_n p n

/-- The body of function `f` indexes slot `s`: some run of some function makes
an upcall to `s` from within the body of `f`. -/
def indexes (f : Fn) (s : Slot) : Prop :=
  ∃ (env : Env) (ep : Fn) (a : List Val) (args : List Val) (r : Val),
    Event.upcall f s args r ∈ (call env ep a).trace

/-- The C string a formatting function hands to its callback: the formatted
output cut to `BUFSIZE - 2` bytes, up to its first NUL. -/
def message (env : Env) (format : Val) (ap : List Val) : List Nat :=
  ((env.formatted format ap).take (BUFSIZE - 2)).takeWhile (fun b => b != 0)

/-- A sample environment: the table is loaded, the `n`-th event of a run is
answered by the handle `100 + n`, no exit is ever requested, and
`ensure_string` turns a C string into a managed string. -/
def demoEnv : Env where
  callbacksLoaded := true
  callback := fun tr _ _ => .ptr (100 + tr.length)
  exitRequested := fun _ => false
  ensure_string := fun v =>
    match v with
    | .cstr b => .jstring b
    | w => w
  ensure_truffle_chararray_n := fun v _ => v
  ensure_function := fun v => v
  nativeReturns := fun _ _ _ => true
  nativeResult := fun _ _ _ => .void
  nativeStop := fun _ _ _ => .aborted
  formatted := fun _ _ => [104, 105]
  stackByte := fun _ => 0

/-! ## Function lists used in the statements -/

/-- Functions with a run in which an upcall is not followed by the exit check. -/
def uncheckedFns : List Fn :=
  [.Rf_GetOption1, .Rf_warningcall, .Rf_warning, .Rprintf, .Rf_findVarInFrame3, .Rf_getAttrib,
   .R_lsInternal, .R_lsInternal3, .SETCADDR, .SETCADDDR, .SETCAD4R, .SET_OBJECT, .SET_ATTRIB,
   .SET_S4_OBJECT, .UNSET_S4_OBJECT, .R_tryEvalInternal, .R_tryEval, .R_tryEvalSilent,
   .R_SetExternalPtrAddr, .R_SetExternalPtrTag, .R_SetExternalPtrProtected, .R_ClearExternalPtr,
   .R_PreserveObject, .R_ReleaseObject, .R_registerRoutines]

/-- Functions that make upcalls and return a value that is not a callback result. -/
def ownResultFns : List Fn :=
  [.R_ToplevelExec, .R_registerRoutines, .SETCADDR, .SETCADDDR, .SETCAD4R]

/-- Functions whose upcall arguments are not their own parameters in declaration order. -/
def reshapingFns : List Fn :=
  [.Rf_mkString, .Rf_mkChar, .Rf_mkCharCE, .Rf_mkCharLen, .Rf_errorcall, .Rf_warningcall,
   .Rf_warning, .Rprintf, .Rf_error, .Rf_allocVector3, .Rf_duplicate, .Rf_shallow_duplicate,
   .R_ProtectWithIndex, .R_lsInternal, .R_ToplevelExec, .R_tryEval, .R_tryEvalSilent,
   .R_ClearExternalPtr, .R_registerRoutines, .Rdynload_setSymbol]

/-- Functions that make no upcall of their own and return normally instead of aborting. -/
def quietFns : List Fn :=
  [.REprintf, .Rf_getCharCE, .Rf_reEnc, .R_FlushConsole, .TRUELENGTH, .R_BindingIsActive,
   .R_RegisterFinalizer, .R_RegisterCFinalizer, .R_RegisterFinalizerEx, .R_RegisterCFinalizerEx,
   .R_RunPendingFinalizers, .R_RunWeakRefFinalizer, .R_check_class_etc]

/-- The largest number of upcalls a run of the function makes. -/
def upcallBound : Fn → Nat
  | .R_registerRoutines => 4
  | .R_ToplevelExec => 2
  | .Rf_mkString => 2
  | _ => 1

/-- The function whose body indexes the slot (for `Rf_duplicate_x`, the first of the two). -/
def Slot.owner : Slot → Fn
  | .R_GlobalEnv_x => .FASTR_R_GlobalEnv
  | .R_BaseEnv_x => .FASTR_R_BaseEnv
  | .R_BaseNamespace_x => .FASTR_R_BaseNamespace
  | .R_NamespaceRegistry_x => .FASTR_R_NamespaceRegistry
  | .R_GlobalContext_x => .FASTR_GlobalContext
  | .R_Interactive_x => .FASTR_R_Interactive
  | .CAR_x => .CAR
  | .CDR_x => .CDR
  | .LENGTH_x => .LENGTH
  | .Rf_ScalarString_x => .Rf_ScalarString
  | .Rf_gsetVar_x => .Rf_gsetVar
  | .Rf_coerceVector_x => .Rf_coerceVector
  | .Rf_cons_x => .Rf_cons
  | .Rf_GetOption1_x => .Rf_GetOption1
  | .Rf_mkCharLenCE_x => .Rf_mkCharLenCE
  | .Rf_errorcall_x => .Rf_errorcall
  | .Rf_warningcall_x => .Rf_warningcall
  | .Rf_warning_x => .Rf_warning
  | .Rprintf_x => .Rprintf
  | .Rf_error_x => .Rf_error
  | .Rf_ScalarInteger_x => .Rf_ScalarInteger
  | .Rf_ScalarReal_x => .Rf_ScalarReal
  | .Rf_ScalarLogical_x => .Rf_ScalarLogical
  | .Rf_allocVector_x => .Rf_allocVector3
  | .Rf_allocArray_x => .Rf_allocArray
  | .Rf_allocMatrix_x => .Rf_allocMatrix
  | .Rf_defineVar_x => .Rf_defineVar
  | .Rf_eval_x => .Rf_eval
  | .Rf_findFun_x => .Rf_findFun
  | .Rf_findVar_x => .Rf_findVar
  | .Rf_findVarInFrame_x => .Rf_findVarInFrame
  | .Rf_findVarInFrame3_x => .Rf_findVarInFrame3
  | .Rf_getAttrib_x => .Rf_getAttrib
  | .Rf_setAttrib_x => .Rf_setAttrib
  | .Rf_duplicate_x => .Rf_duplicate
  | .Rf_any_duplicated_x => .Rf_any_duplicated
  | .Rf_any_duplicated3_x => .Rf_any_duplicated3
  | .Rf_copyMostAttrib_x => .Rf_copyMostAttrib
  | .Rf_inherits_x => .Rf_inherits
  | .Rf_PrintValue_x => .Rf_PrintValue
  | .Rf_install_x => .Rf_install
  | .Rf_installChar_x => .Rf_installChar
  | .Rf_isNull_x => .Rf_isNull
  | .Rf_isString_x => .Rf_isString
  | .Rf_ncols_x => .Rf_ncols
  | .Rf_nrows_x => .Rf_nrows
  | .Rf_protect_x => .Rf_protect
  | .Rf_unprotect_x => .Rf_unprotect
  | .R_ProtectWithIndex_x => .R_ProtectWithIndex
  | .R_Reprotect_x => .R_Reprotect
  | .Rf_unprotect_ptr_x => .Rf_unprotect_ptr
  | .R_NewHashedEnv_x => .R_NewHashedEnv
  | .Rf_classgets_x => .Rf_classgets
  | .Rf_lengthgets_x => .Rf_lengthgets
  | .R_lsInternal3_x => .R_lsInternal3
  | .Rf_namesgets_x => .Rf_namesgets
  | .TAG_x => .TAG
  | .PRINTNAME_x => .PRINTNAME
  | .CAAR_x => .CAAR
  | .CDAR_x => .CDAR
  | .CADR_x => .CADR
  | .CDDR_x => .CDDR
  | .CDDDR_x => .CDDDR
  | .CADDR_x => .CADDR
  | .CADDDR_x => .CADDDR
  | .CAD4R_x => .CAD4R
  | .SET_TAG_x => .SET_TAG
  | .SETCAR_x => .SETCAR
  | .SETCDR_x => .SETCDR
  | .SETCADR_x => .SETCADR
  | .SETCADDR_x => .SETCADDR
  | .SETCADDDR_x => .SETCADDDR
  | .SETCAD4R_x => .SETCAD4R
  | .FORMALS_x => .FORMALS
  | .BODY_x => .BODY
  | .CLOENV_x => .CLOENV
  | .RDEBUG_x => .RDEBUG
  | .RSTEP_x => .RSTEP
  | .SET_RDEBUG_x => .SET_RDEBUG
  | .SET_RSTEP_x => .SET_RSTEP
  | .SET_FORMALS_x => .SET_FORMALS
  | .SET_BODY_x => .SET_BODY
  | .SET_CLOENV_x => .SET_CLOENV
  | .SYMVALUE_x => .SYMVALUE
  | .SET_SYMVALUE_x => .SET_SYMVALUE
  | .ENCLOS_x => .ENCLOS
  | .PRCODE_x => .PRCODE
  | .PRENV_x => .PRENV
  | .PRVALUE_x => .PRVALUE
  | .PRSEEN_x => .PRSEEN
  | .INTEGER_x => .FASTR_INTEGER
  | .REAL_x => .FASTR_REAL
  | .COMPLEX_x => .COMPLEX
  | .LOGICAL_x => .LOGICAL
  | .RAW_x => .RAW
  | .R_CHAR_x => .R_CHAR
  | .STRING_ELT_x => .STRING_ELT
  | .VECTOR_ELT_x => .VECTOR_ELT
  | .SET_STRING_ELT_x => .SET_STRING_ELT
  | .SET_VECTOR_ELT_x => .SET_VECTOR_ELT
  | .Rf_asChar_x => .Rf_asChar
  | .Rf_PairToVectorList_x => .Rf_PairToVectorList
  | .Rf_VectorToPairList_x => .Rf_VectorToPairList
  | .Rf_asCharacterFactor_x => .Rf_asCharacterFactor
  | .Rf_asLogical_x => .Rf_asLogical
  | .Rf_asInteger_x => .Rf_asInteger
  | .Rf_asReal_x => .Rf_asReal
  | .TYPEOF_x => .TYPEOF
  | .ATTRIB_x => .ATTRIB
  | .OBJECT_x => .OBJECT
  | .NAMED_x => .NAMED
  | .SET_OBJECT_x => .SET_OBJECT
  | .SET_TYPEOF_x => .SET_TYPEOF
  | .SET_NAMED_FASTR_x => .SET_NAMED
  | .SET_ATTRIB_x => .SET_ATTRIB
  | .DUPLICATE_ATTRIB_x => .DUPLICATE_ATTRIB
  | .IS_S4_OBJECT_x => .IS_S4_OBJECT
  | .SET_S4_OBJECT_x => .SET_S4_OBJECT
  | .UNSET_S4_OBJECT_x => .UNSET_S4_OBJECT
  | .R_ToplevelExec_x => .R_ToplevelExec
  | .restoreHandlerStacks_x => .R_ToplevelExec
  | .R_FindNamespace_x => .R_FindNamespace
  | .R_LockBinding_x => .R_LockBinding
  | .R_unLockBinding_x => .R_unLockBinding
  | .R_BindingIsLocked_x => .R_BindingIsLocked
  | .R_tryEval_x => .R_tryEvalInternal
  | .R_PromiseExpr_x => .R_PromiseExpr
  | .R_MakeExternalPtr_x => .R_MakeExternalPtr
  | .R_ExternalPtrAddr_x => .R_ExternalPtrAddr
  | .R_ExternalPtrTag_x => .R_ExternalPtrTag
  | .R_ExternalPtrProtected_x => .R_ExternalPtrProtected
  | .R_SetExternalPtrAddr_x => .R_SetExternalPtrAddr
  | .R_SetExternalPtrTag_x => .R_SetExternalPtrTag
  | .R_SetExternalPtrProtected_x => .R_SetExternalPtrProtected
  | .R_do_slot_x => .R_do_slot
  | .R_do_slot_assign_x => .R_do_slot_assign
  | .R_has_slot_x => .R_has_slot
  | .R_do_MAKE_CLASS_x => .R_do_MAKE_CLASS
  | .R_getClassDef_x => .R_getClassDef
  | .R_do_new_object_x => .R_do_new_object
  | .R_MethodsNamespace_x => .nfiGetMethodsNamespace
  | .R_PreserveObject_x => .R_PreserveObject
  | .R_ReleaseObject_x => .R_ReleaseObject
  | .R_compute_identical_x => .R_compute_identical
  | .Rf_copyListMatrix_x => .Rf_copyListMatrix
  | .Rf_copyMatrix_x => .Rf_copyMatrix
  | .FASTR_getConnectionChar_x => .FASTR_getConnectionChar
  | .Rf_str2type_x => .Rf_str2type
  | .registerRoutines_x => .R_registerRoutines
  | .getEmbeddingDLLInfo_x => .R_getEmbeddingDllInfo
  | .useDynamicSymbols_x => .R_useDynamicSymbols
  | .forceSymbols_x => .R_forceSymbols
  | .setDotSymbolValues_x => .Rdynload_setSymbol
  | .registerCCallable_x => .R_RegisterCCallable
  | .getCCallable_x => .R_GetCCallable

/-! ## Closed forms used in the proofs -/

/-- The index of the first entry of a table whose name is NULL, if there is one. -/
def firstUnnamed : List MethodDef → Option Nat
  | [] => none
  | d :: rest => if d.name = none then some 0 else (firstUnnamed rest).map (fun i => i + 1)

/-- The count the loop of `R_registerRoutines` yields on a table, if it yields
one: the index of the first NULL-named entry, provided it is an `int`. -/
def loopCount (t : List MethodDef) : Option Nat :=
  match firstUnnamed t with
  | some k => if k < 2147483648 then some k else none
  | none => none

/-- The count the loop yields on the table a value points at. -/
def countOf : Val → Option Nat
  | .routines t => loopCount t
  | _ => none

/-- The table a value points at. -/
def tblOf : Val → Option (List MethodDef)
  | .routines t => some t
  | _ => none

/-- The length of the C string a value points at. -/
def strlenOf : Val → Option Nat
  | .cstr bytes => some (bytes.takeWhile (fun b => b != 0)).length
  | _ => none

/-- The fields of the entry at `index` of the table a value points at. -/
def routineOf : Val → Val → Option (Val × Val × Val)
  | .routines t, .int (.ofNat i) =>
    (t.get? i).map fun d =>
      (match d.name with
        | some b => Val.cstr b
        | none => Val.null, Val.ptr d.funPtr, Val.int d.numArgs)
  | _, _ => none

/-- A run extends the history `tr0` by at most `n` events, all of them upcalls
to `registerRoutines_x` made in the body of `f`, and stops only by crashing. -/
def OnlyReg {α : Type} (f : Fn) (n : Nat) (tr0 : List Event) (r : Run α) : Prop :=
  ∃ ext, r.trace = tr0 ++ ext ∧ ext.length ≤ n ∧
    (∀ e ∈ ext, ∃ args res, e = Event.upcall f .registerRoutines_x args res) ∧
    (∀ s, r.outcome = .stop s → s = .crashed)

/-- The content of the local buffer of a formatting function after `Rvsnprintf`. -/
def formattedBuffer (env : Env) (format : Val) (ap : List Val) : Buffer :=
  ⟨BUFSIZE, fun j =>
    if j = BUFSIZE - 2 then 0
    else if j < min (env.formatted format ap).length (BUFSIZE - 2) then
      (env.formatted format ap).getD j 0
    else if j = min (env.formatted format ap).length (BUFSIZE - 2) then 0
    else env.stackByte j⟩

/-! ## The specification of routine registration, in its own words -/

/-- The number of entries of a routine table that precede its first NULL-named entry. -/
def entriesBefore : Val → Nat
  | .routines t => (t.takeWhile (fun d => d.name.isSome)).length
  | _ => 0

/-- Whether a value is a routine table terminated by an entry whose name is NULL. -/
def terminated : Val → Bool
  | .routines t => t.any (fun d => d.name.isNone)
  | _ => false

/-- What is asked of `R_registerRoutines` for one table after the history `tr`:
no upcall for a NULL table, otherwise one upcall to `registerRoutines_x` with
`info`, the type ordinal, the number of entries preceding the first NULL-named
entry, and the table itself. -/
def registration (env : Env) (info : Val) (ordinal : Int) (tbl : Val) (tr : List Event) :
    List Event :=
  if tbl = .null then tr
  else tr ++ [.upcall .R_registerRoutines .registerRoutines_x
    [info, .int ordinal, .int (entriesBefore tbl), tbl]
    (env.callback tr .registerRoutines_x [info, .int ordinal, .int (entriesBefore tbl), tbl])]

/-! ## Properties of events and shapes used in the statements about all functions -/

/-- Whether an upcall is made from the body of the owner of its slot, or from
`Rf_shallow_duplicate` on `Rf_duplicate_x`; any other event passes. -/
def Event.ownSlot : Event → Bool
  | .upcall f s _ _ => f == s.owner || (s == .Rf_duplicate_x && f == .Rf_shallow_duplicate)
  | _ => true

/-- The value returned by the last upcall of a trace, if there is one. -/
def lastUpcallResult (tr : List Event) : Option Val :=
  match (upcalls tr).getLast? with
  | some (.upcall _ _ _ r) => some r
  | _ => none

/-- An upcall carries exactly the parameters of the function `ep`, called on
the actual arguments `a`: as many arguments as `ep` has parameters, the `i`-th
being the `i`-th parameter, possibly normalized.  Any other event passes. -/
def forwardsParams (env : Env) (ep : Fn) (a : List Val) : Event → Prop
  | .upcall _ _ args _ =>
    args.length = ep.arity ∧
      ∀ i, i < ep.arity → normalized env (arg a i) (args.getD i .indet)
  | _ => True

/-- Whether an argument source is the parameter at position `i`, possibly normalized. -/
def ArgSrc.isParam (i : Nat) : ArgSrc → Bool
  | .param j => j == i
  | .ensured j => j == i
  | .chars j _ => j == i
  | .lit _ => false

/-- Whether the argument sources are the parameters from position `i` on, in order. -/
def ArgSrc.inOrder : Nat → List ArgSrc → Bool
  | _, [] => true
  | i, s :: rest => s.isParam i && ArgSrc.inOrder (i + 1) rest

/-- Whether a forwarding shape passes exactly the `n` parameters in order. -/
def Kind.paramsOk (n : Nat) : Kind → Bool
  | .forward _ args _ _ => args.length == n && ArgSrc.inOrder 0 args
  | .forwardVoid _ args _ => args.length == n && ArgSrc.inOrder 0 args
  | _ => true

/-- Whether a shape that returns a value after an upcall returns the callback result. -/
def Kind.returnsResult : Kind → Bool
  | .forward _ _ _ (.lit _) => false
  | _ => true

/-- Whether the slot of a forwarding shape of function `f` is owned by `f`, or
is `Rf_duplicate_x` used by `Rf_shallow_duplicate`. -/
def Kind.slotOk (f : Fn) : Kind → Bool
  | .forward s _ _ _ => f == s.owner || (s == .Rf_duplicate_x && f == .Rf_shallow_duplicate)
  | .forwardVoid s _ _ => f == s.owner
  | _ => true

/-- Whether a shape makes no call at all. -/
def Kind.isNoop : Kind → Bool
  | .noop _ => true
  | _ => false

/-! # Theorems -/

/-! ## Evaluation lemmas -/

@[simp] theorem andThen_ret {α β : Type} (a : α) (t : List Event)
    (k : α → List Event → Run β) : Run.andThen ⟨.ret a, t⟩ k = k a t := rfl

@[simp] theorem andThen_stop {α β : Type} (s : Stop) (t : List Event)
    (k : α → List Event → Run β) :
    Run.andThen (⟨.stop s, t⟩ : Run α) k = ⟨.stop s, t⟩ := rfl

@[simp] theorem andThen_ite {α β : Type} (c : Prop) [Decidable c] (x y : Run α)
    (k : α → List Event → Run β) :
    Run.andThen (if c then x else y) k = if c then x.andThen k else y.andThen k := by
  split_ifs <;> rfl

@[simp] theorem bind_apply {α β : Type} (m : M α) (f : α → M β) (env : Env) (fn : Fn)
    (tr : List Event) :
    (m >>= f) env fn tr = (m env fn tr).andThen (fun a tr1 => f a env fn tr1) := rfl

@[simp] theorem pure_apply {α : Type} (a : α) (env : Env) (fn : Fn) (tr : List Event) :
    (pure a : M α) env fn tr = ⟨.ret a, tr⟩ := rfl

@[simp] theorem ite_run {α : Type} (c : Prop) [Decidable c] (m1 m2 : M α) (env : Env) (fn : Fn)
    (tr : List Event) :
    (if c then m1 else m2) env fn tr = if c then m1 env fn tr else m2 env fn tr := by
  split_ifs <;> rfl

@[simp] theorem enter_apply {α : Type} (f : Fn) (body : M α) (env : Env) (fn : Fn)
    (tr : List Event) : enter f body env fn tr = body env f tr := rfl

@[simp] theorem callbacks_apply (slot : Slot) (args : List Val) (env : Env) (fn : Fn)
    (tr : List Event) :
    callbacks slot args env fn tr =
      if env.callbacksLoaded then
        ⟨.ret (env.callback tr slot args),
          tr ++ [.upcall fn slot args (env.callback tr slot args)]⟩
      else ⟨.stop .crashed, tr⟩ := rfl

@[simp] theorem checkExitCall_apply (env : Env) (fn : Fn) (tr : List Event) :
    checkExitCall env fn tr =
      if env.exitRequested tr then ⟨.stop .unwound, tr ++ [.exitCheck fn]⟩
      else ⟨.ret (), tr ++ [.exitCheck fn]⟩ := rfl

@[simp] theorem unimplemented_apply (msg : String) (env : Env) (fn : Fn) (tr : List Event) :
    unimplemented msg env fn tr = ⟨.stop .aborted, tr ++ [.unimplemented fn msg]⟩ := rfl

@[simp] theorem UNIMPLEMENTED_apply (env : Env) (fn : Fn) (tr : List Event) :
    UNIMPLEMENTED env fn tr = ⟨.stop .aborted, tr ++ [.unimplemented fn fn.name]⟩ := rfl

@[simp] theorem ensure_string_apply (x : Val) (env : Env) (fn : Fn) (tr : List Event) :
    ensure_string x env fn tr = ⟨.ret (env.ensure_string x), tr⟩ := rfl

@[simp] theorem ensure_function_apply (x : Val) (env : Env) (fn : Fn) (tr : List Event) :
    ensure_function x env fn tr = ⟨.ret (env.ensure_function x), tr⟩ := rfl

@[simp] theorem ensure_truffle_chararray_n_apply (x n : Val) (env : Env) (fn : Fn)
    (tr : List Event) :
    ensure_truffle_chararray_n x n env fn tr =
      ⟨.ret (env.ensure_truffle_chararray_n x n), tr⟩ := rfl

@[simp] theorem crash_apply {α : Type} (env : Env) (fn : Fn) (tr : List Event) :
    (crash : M α) env fn tr = ⟨.stop .crashed, tr⟩ := rfl

@[simp] theorem exit_apply {α : Type} (c : Int) (env : Env) (fn : Fn) (tr : List Event) :
    (exit c : M α) env fn tr = ⟨.stop (.exited c), tr⟩ := rfl

@[simp] theorem fallOffEnd_apply (env : Env) (fn : Fn) (tr : List Event) :
    fallOffEnd env fn tr = ⟨.ret .indet, tr⟩ := rfl

@[simp] theorem store_apply (p v : Val) (env : Env) (fn : Fn) (tr : List Event) :
    store p v env fn tr =
      if p = .null then ⟨.stop .crashed, tr⟩ else ⟨.ret (), tr ++ [.store fn p v]⟩ := rfl

@[simp] theorem callNative_apply (f : Val) (args : List Val) (env : Env) (fn : Fn)
    (tr : List Event) :
    callNative f args env fn tr =
      if f.callable then
        if env.nativeReturns tr f args then
          ⟨.ret (env.nativeResult tr f args),
            tr ++ [.native fn f args (env.nativeResult tr f args)]⟩
        else ⟨.stop (env.nativeStop tr f args), tr ++ [.nativeStop fn f args]⟩
      else ⟨.stop .crashed, tr⟩ := rfl

@[simp] theorem callable_extfn (name : String) : (Val.extfn name).callable = true := rfl

@[simp] theorem callbacksNonNull_apply (env : Env) (fn : Fn) (tr : List Event) :
    callbacksNonNull env fn tr = ⟨.ret env.callbacksLoaded, tr⟩ := rfl

@[simp] theorem uninit_apply (n : Nat) (env : Env) (fn : Fn) (tr : List Event) :
    uninit n env fn tr = ⟨.ret ⟨n, env.stackByte⟩, tr⟩ := rfl

@[simp] theorem retVoid_eq (m : M Unit) : retVoid m = m >>= fun _ => pure Val.void := rfl

theorem strlen_apply (x : Val) (env : Env) (fn : Fn) (tr : List Event) :
    strlen x env fn tr =
      if (strlenOf x).isSome then ⟨.ret ((strlenOf x).getD 0), tr⟩
      else ⟨.stop .crashed, tr⟩ := by
  cases x <;> rfl

theorem tableOf_apply (v : Val) (env : Env) (fn : Fn) (tr : List Event) :
    tableOf v env fn tr =
      if (tblOf v).isSome then ⟨.ret ((tblOf v).getD []), tr⟩ else ⟨.stop .crashed, tr⟩ := by
  cases v <;> rfl

theorem countNamed_run (tbl : List MethodDef) (n : Nat) (env : Env) (fn : Fn)
    (tr : List Event) :
    countNamed tbl n env fn tr =
      if (firstUnnamed tbl).isSome then
        if (firstUnnamed tbl).getD 0 = 0 ∨ n + (firstUnnamed tbl).getD 0 < 2147483648 then
          ⟨.ret (n + (firstUnnamed tbl).getD 0), tr⟩
        else ⟨.stop .crashed, tr⟩
      else ⟨.stop .crashed, tr⟩ := by
  induction tbl generalizing n with
  | nil => rfl
  | cons d rest ih =>
    by_cases h : d.name = none
    · simp [countNamed, firstUnnamed, h]
    · simp only [countNamed, firstUnnamed, h, ne_eq, not_false_eq_true, if_true, if_false,
        ite_run, crash_apply]
      by_cases hn : n < 2147483647
      · rw [if_pos hn, ih]
        cases hr : firstUnnamed rest with
        | none => simp
        | some k =>
          have e1 : n + 1 + k = n + (k + 1) := by omega
          by_cases hk : n + (k + 1) < 2147483648
          · have hk2 : k = 0 ∨ n + 1 + k < 2147483648 := Or.inr (by omega)
            simp [hk, hk2, e1]
          · have hk2 : ¬ (k = 0 ∨ n + 1 + k < 2147483648) := by omega
            simp [hk, hk2]
      · rw [if_neg hn]
        cases hr : firstUnnamed rest with
        | none => simp
        | some k =>
          have hk : ¬ n + (k + 1) < 2147483648 := by omega
          simp [hk]

theorem loopCount_isSome (tbl : List MethodDef) :
    (loopCount tbl).isSome =
      ((firstUnnamed tbl).isSome && decide ((firstUnnamed tbl).getD 0 < 2147483648)) := by
  unfold loopCount
  cases firstUnnamed tbl with
  | none => rfl
  | some k => by_cases hk : k < 2147483648 <;> simp [hk]

theorem loopCount_getD (tbl : List MethodDef) (h : (loopCount tbl).isSome = true) :
    (loopCount tbl).getD 0 = (firstUnnamed tbl).getD 0 := by
  unfold loopCount at h ⊢
  cases hf : firstUnnamed tbl with
  | none => rfl
  | some k =>
    rw [hf] at h
    by_cases hk : k < 2147483648 <;> simp_all

theorem countNamed_apply (tbl : List MethodDef) (env : Env) (fn : Fn) (tr : List Event) :
    countNamed tbl 0 env fn tr =
      if (loopCount tbl).isSome then ⟨.ret ((loopCount tbl).getD 0), tr⟩
      else ⟨.stop .crashed, tr⟩ := by
  rw [countNamed_run]
  by_cases h : (loopCount tbl).isSome = true
  · have h2 := loopCount_getD tbl h
    rw [loopCount_isSome] at h
    simp only [Bool.and_eq_true, decide_eq_true_eq] at h
    rw [if_pos h.1, if_pos (Or.inr (by omega)), if_pos (by rw [loopCount_isSome]; simp [h]), h2,
      Nat.zero_add]
  · rw [if_neg h]
    rw [loopCount_isSome] at h
    simp only [Bool.and_eq_true, decide_eq_true_eq, not_and] at h
    by_cases h1 : (firstUnnamed tbl).isSome = true
    · have h3 := h h1
      rw [if_pos h1, if_neg (by omega)]
    · rw [if_neg h1]

theorem readRoutine_apply (r i : Val) (env : Env) (fn : Fn) (tr : List Event) :
    readRoutine r i env fn tr =
      if (routineOf r i).isSome then
        ⟨.ret ((routineOf r i).getD (.indet, .indet, .indet)), tr⟩
      else ⟨.stop .crashed, tr⟩ := by
  cases r <;> try rfl
  rename_i t
  cases i <;> try rfl
  rename_i j
  cases j <;> try rfl
  rename_i k
  simp only [readRoutine, tableOf, bind_apply, pure_apply, andThen_ret, routineOf]
  cases t.get? k <;> rfl

theorem cString_prefix (byte : Nat → Nat) (l : List Nat) (i fuel : Nat)
    (h1 : ∀ j, j < l.length → byte (i + j) = l.getD j 0) (h0 : byte (i + l.length) = 0)
    (hf : l.length < fuel) :
    cString byte fuel i = l.takeWhile (fun b => b != 0) := by
  induction l generalizing i fuel with
  | nil =>
    cases fuel with
    | zero => simp at hf
    | succ f => simpa [cString] using h0
  | cons x l ih =>
    cases fuel with
    | zero => simp at hf
    | succ f =>
      have hx : byte i = x := by simpa using h1 0 (by simp)
      by_cases hz : x = 0
      · simp [cString, hx, hz]
      · have hrec := ih (i + 1) f
          (fun j hj => by
            have := h1 (j + 1) (by simpa using hj)
            simpa [Nat.add_assoc, Nat.add_comm 1 j] using this)
          (by simpa [Nat.add_assoc, Nat.add_comm 1] using h0)
          (by simpa using hf)
        simp [cString, hx, hz, hrec]

theorem decay_formattedBuffer (env : Env) (format : Val) (ap : List Val) :
    decay (formattedBuffer env format ap) = .cstr (message env format ap) := by
  unfold decay message
  congr 1
  apply cString_prefix
  · intro j hj
    have hj2 : j < min (env.formatted format ap).length 8190 := by
      simpa [BUFSIZE, Nat.min_comm] using hj
    have hj3 : j ≠ 8190 := by omega
    have hj4 : j < 8190 := by omega
    have hj5 : j < (env.formatted format ap).length := by omega
    simp [formattedBuffer, BUFSIZE, hj3, List.getD_eq_getElem?_getD, List.getElem?_take, hj4, hj5]
  · simp only [formattedBuffer, BUFSIZE, List.length_take, Nat.zero_add]
    split_ifs <;> simp_all <;> omega
  · simp [formattedBuffer, BUFSIZE]

theorem Rvsnprintf_apply (env : Env) (format : Val) (ap : List Val) (fn : Fn) (tr : List Event) :
    Rvsnprintf ⟨8192, env.stackByte⟩ (8192 - 1) format ap env fn tr =
      ⟨.ret (.int (env.formatted format ap).length, formattedBuffer env format ap), tr⟩ := by
  have hlen : min (env.formatted format ap).length 8190 < 8192 := by omega
  simp [Rvsnprintf, vsnprintf, setByte, sizeMinusOne, formattedBuffer, BUFSIZE, hlen]

theorem Rvsnprintf_trace (buf : Buffer) (size : Nat) (format : Val) (ap : List Val) (env : Env)
    (fn : Fn) (tr : List Event) :
    (Rvsnprintf buf size format ap env fn tr).trace = tr := by
  simp only [Rvsnprintf, vsnprintf, setByte, sizeMinusOne, enter_apply, bind_apply, pure_apply, ite_run,
    crash_apply]
  split_ifs <;> simp only [andThen_ret, andThen_stop, andThen_ite, ite_run, pure_apply,
    crash_apply] <;> split_ifs <;> rfl

/-! ## The shape table agrees with the definitions -/

theorem kind_run (env : Env) (ep : Fn) (a : List Val) :
    call env ep a = (kind ep).run env ep a := by
  cases ep <;> rfl

theorem special_mem (ep : Fn) (h : kind ep = .special) : ep ∈ specialFns := by
  cases ep <;> first | (exact absurd h (by decide)) | decide

theorem forwardM_run (env : Env) (f fn : Fn) (slot : Slot) (args : List Val)
    (checked : Bool) (ret : RetSrc) (tr : List Event) :
    forwardM f slot args checked ret env fn tr =
      if env.callbacksLoaded then
        if checked then
          if env.exitRequested (tr ++ [.upcall f slot args (env.callback tr slot args)]) then
            ⟨.stop .unwound, tr ++ [.upcall f slot args (env.callback tr slot args), .exitCheck f]⟩
          else
            ⟨.ret (ret.eval (env.callback tr slot args)),
              tr ++ [.upcall f slot args (env.callback tr slot args), .exitCheck f]⟩
        else
          ⟨.ret (ret.eval (env.callback tr slot args)),
            tr ++ [.upcall f slot args (env.callback tr slot args)]⟩
      else ⟨.stop .crashed, tr⟩ := by
  simp only [forwardM, enter_apply, bind_apply, callbacks_apply, ite_run, checkExitCall_apply,
    pure_apply, andThen_ite, andThen_ret, andThen_stop]
  cases checked <;> split_ifs <;> simp_all

theorem forwardVoidM_run (env : Env) (f fn : Fn) (slot : Slot) (args : List Val)
    (checked : Bool) (tr : List Event) :
    forwardVoidM f slot args checked env fn tr =
      if env.callbacksLoaded then
        if checked then
          if env.exitRequested (tr ++ [.upcall f slot args (env.callback tr slot args)]) then
            ⟨.stop .unwound, tr ++ [.upcall f slot args (env.callback tr slot args), .exitCheck f]⟩
          else
            ⟨.ret .void, tr ++ [.upcall f slot args (env.callback tr slot args), .exitCheck f]⟩
        else
          ⟨.ret .void, tr ++ [.upcall f slot args (env.callback tr slot args)]⟩
      else ⟨.stop .crashed, tr⟩ := by
  simp only [forwardVoidM, retVoid_eq, enter_apply, bind_apply, callbacks_apply, ite_run,
    checkExitCall_apply, pure_apply, andThen_ite, andThen_ret, andThen_stop]
  cases checked <;> split_ifs <;> simp_all

/-! ## Unfolding a call of a function with an irregular body -/

theorem call_R_ExternalPtrAddrFn (env : Env) (a : List Val) :
    call env .R_ExternalPtrAddrFn a = (R_ExternalPtrAddrFn (arg a 0)) env .R_ExternalPtrAddrFn [] := rfl

theorem call_R_MakeExternalPtrFn (env : Env) (a : List Val) :
    call env .R_MakeExternalPtrFn a = (R_MakeExternalPtrFn (arg a 0) (arg a 1) (arg a 2)) env .R_MakeExternalPtrFn [] := rfl

theorem call_Rf_mkString (env : Env) (a : List Val) :
    call env .Rf_mkString a = (Rf_mkString (arg a 0)) env .Rf_mkString [] := rfl

theorem call_Rf_mkChar (env : Env) (a : List Val) :
    call env .Rf_mkChar a = (Rf_mkChar (arg a 0)) env .Rf_mkChar [] := rfl

theorem call_Rf_mkCharCE (env : Env) (a : List Val) :
    call env .Rf_mkCharCE a = (Rf_mkCharCE (arg a 0) (arg a 1)) env .Rf_mkCharCE [] := rfl

theorem call_Rf_mkCharLen (env : Env) (a : List Val) :
    call env .Rf_mkCharLen a = (Rf_mkCharLen (arg a 0) (arg a 1)) env .Rf_mkCharLen [] := rfl

theorem call_Rvsnprintf (env : Env) (a : List Val) :
    call env .Rvsnprintf a = (do
        let (val, _) ← Rvsnprintf (bufferArg (arg a 0)) (sizeArg (arg a 1)) (arg a 2) (a.drop 3)
        return val) env .Rvsnprintf [] := rfl

theorem call_Rf_errorcall (env : Env) (a : List Val) :
    call env .Rf_errorcall a = retVoid (Rf_errorcall (arg a 0) (arg a 1) (a.drop 2)) env .Rf_errorcall [] := rfl

theorem call_Rf_warningcall (env : Env) (a : List Val) :
    call env .Rf_warningcall a = retVoid (Rf_warningcall (arg a 0) (arg a 1) (a.drop 2)) env .Rf_warningcall [] := rfl

theorem call_Rf_warning (env : Env) (a : List Val) :
    call env .Rf_warning a = retVoid (Rf_warning (arg a 0) (a.drop 1)) env .Rf_warning [] := rfl

theorem call_Rprintf (env : Env) (a : List Val) :
    call env .Rprintf a = retVoid (Rprintf (arg a 0) (a.drop 1)) env .Rprintf [] := rfl

theorem call_Rf_error (env : Env) (a : List Val) :
    call env .Rf_error a = retVoid (Rf_error (arg a 0) (a.drop 1)) env .Rf_error [] := rfl

theorem call_REprintf (env : Env) (a : List Val) :
    call env .REprintf a = retVoid (REprintf (arg a 0) (a.drop 1)) env .REprintf [] := rfl

theorem call_Rf_allocVector3 (env : Env) (a : List Val) :
    call env .Rf_allocVector3 a = (Rf_allocVector3 (arg a 0) (arg a 1) (arg a 2)) env .Rf_allocVector3 [] := rfl

theorem call_R_ProtectWithIndex (env : Env) (a : List Val) :
    call env .R_ProtectWithIndex a = retVoid (R_ProtectWithIndex (arg a 0) (arg a 1)) env .R_ProtectWithIndex [] := rfl

theorem call_Rf_translateChar (env : Env) (a : List Val) :
    call env .Rf_translateChar a = (Rf_translateChar (arg a 0)) env .Rf_translateChar [] := rfl

theorem call_Rf_translateChar0 (env : Env) (a : List Val) :
    call env .Rf_translateChar0 a = (Rf_translateChar0 (arg a 0)) env .Rf_translateChar0 [] := rfl

theorem call_Rf_translateCharUTF8 (env : Env) (a : List Val) :
    call env .Rf_translateCharUTF8 a = (Rf_translateCharUTF8 (arg a 0)) env .Rf_translateCharUTF8 [] := rfl

theorem call_R_lsInternal (env : Env) (a : List Val) :
    call env .R_lsInternal a = (R_lsInternal (arg a 0) (arg a 1)) env .R_lsInternal [] := rfl

theorem call_XLENGTH (env : Env) (a : List Val) :
    call env .XLENGTH a = (XLENGTH (arg a 0)) env .XLENGTH [] := rfl

theorem call_R_ToplevelExec (env : Env) (a : List Val) :
    call env .R_ToplevelExec a = (R_ToplevelExec (arg a 0) (arg a 1)) env .R_ToplevelExec [] := rfl

theorem call_Rf_isS4 (env : Env) (a : List Val) :
    call env .Rf_isS4 a = (Rf_isS4 (arg a 0)) env .Rf_isS4 [] := rfl

theorem call_R_tryEvalInternal (env : Env) (a : List Val) :
    call env .R_tryEvalInternal a = (R_tryEvalInternal (arg a 0) (arg a 1) (arg a 2) (arg a 3)) env .R_tryEvalInternal [] := rfl

theorem call_R_tryEval (env : Env) (a : List Val) :
    call env .R_tryEval a = (R_tryEval (arg a 0) (arg a 1) (arg a 2)) env .R_tryEval [] := rfl

theorem call_R_tryEvalSilent (env : Env) (a : List Val) :
    call env .R_tryEvalSilent a = (R_tryEvalSilent (arg a 0) (arg a 1) (arg a 2)) env .R_tryEvalSilent [] := rfl

theorem call_R_ClearExternalPtr (env : Env) (a : List Val) :
    call env .R_ClearExternalPtr a = retVoid (R_ClearExternalPtr (arg a 0)) env .R_ClearExternalPtr [] := rfl

theorem call_R_check_class_etc (env : Env) (a : List Val) :
    call env .R_check_class_etc a = (R_check_class_etc (arg a 0) (arg a 1)) env .R_check_class_etc [] := rfl

theorem call_R_ReleaseObject (env : Env) (a : List Val) :
    call env .R_ReleaseObject a = retVoid (R_ReleaseObject (arg a 0)) env .R_ReleaseObject [] := rfl

theorem call_R_registerRoutines (env : Env) (a : List Val) :
    call env .R_registerRoutines a = (R_registerRoutines (arg a 0) (arg a 1) (arg a 2) (arg a 3) (arg a 4)) env .R_registerRoutines [] := rfl

theorem call_Rdynload_setSymbol (env : Env) (a : List Val) :
    call env .Rdynload_setSymbol a = (Rdynload_setSymbol (arg a 0) (arg a 1) (arg a 2) (arg a 3)) env .Rdynload_setSymbol [] := rfl

/-! ## The two table-driven functions -/

theorem andThen_pure {α : Type} (r : Run α) : r.andThen (fun a t => ⟨.ret a, t⟩) = r := by
  rcases r with ⟨o, t⟩
  cases o <;> rfl

theorem andThen_assoc {α β γ : Type} (r : Run α) (k : α → List Event → Run β)
    (k2 : β → List Event → Run γ) :
    (r.andThen k).andThen k2 = r.andThen (fun a t => (k a t).andThen k2) := by
  rcases r with ⟨o, t⟩
  cases o <;> rfl

theorem OnlyReg.bind {α β : Type} {f : Fn} {n k : Nat} {tr0 : List Event} {m : M α}
    {g : α → M β} {env : Env} {fn : Fn} (hm : OnlyReg f n tr0 (m env fn tr0))
    (hg : ∀ a tr1, OnlyReg f k tr1 (g a env fn tr1)) :
    OnlyReg f (n + k) tr0 ((m >>= g) env fn tr0) := by
  obtain ⟨ext, h1, h2, h3, h4⟩ := hm
  rw [bind_apply]
  rcases hr : m env fn tr0 with ⟨o, t⟩
  rw [hr] at h1 h4
  simp only at h1 h4
  subst h1
  cases o with
  | ret x =>
    obtain ⟨ext2, g1, g2, g3, g4⟩ := hg x (tr0 ++ ext)
    refine ⟨ext ++ ext2, ?_, ?_, ?_, ?_⟩
    · simp only [andThen_ret, g1, List.append_assoc]
    · simp only [List.length_append]; omega
    · intro e he
      rcases List.mem_append.mp he with h | h
      · exact h3 e h
      · exact g3 e h
    · simpa only [andThen_ret] using g4
  | stop s =>
    refine ⟨ext, ?_, ?_, h3, ?_⟩
    · simp only [andThen_stop]
    · omega
    · intro s1 hs
      simp only [andThen_stop] at hs
      cases hs
      exact h4 s rfl

theorem regBlock_apply (info ty tbl : Val) (env : Env) (fn : Fn) (tr : List Event) :
    regBlock info ty tbl env fn tr =
      if tbl = .null then ⟨.ret (), tr⟩
      else if (countOf tbl).isSome then
        if env.callbacksLoaded then
          ⟨.ret (), tr ++ [.upcall fn .registerRoutines_x
            [info, ty, .int ((countOf tbl).getD 0), tbl]
            (env.callback tr .registerRoutines_x [info, ty, .int ((countOf tbl).getD 0), tbl])]⟩
        else ⟨.stop .crashed, tr⟩
      else ⟨.stop .crashed, tr⟩ := by
  by_cases h : tbl = .null
  · subst h; rfl
  · cases tbl <;> first
      | exact absurd rfl h
      | rfl
      | skip
    rename_i t
    simp only [regBlock, NULL, ne_eq, not_false_eq_true, if_true, if_false, reduceCtorEq,
      bind_apply, tableOf, pure_apply, andThen_ret, countNamed_apply, andThen_ite, andThen_stop,
      callbacks_apply, countOf, ite_run]

theorem regBlock_onlyReg (info ty tbl : Val) (env : Env) (fn : Fn) (tr : List Event) :
    OnlyReg fn 1 tr (regBlock info ty tbl env fn tr) := by
  rw [regBlock_apply]
  split_ifs
  · exact ⟨[], by simp, by simp, by simp, by simp⟩
  · exact ⟨[_], rfl, by simp, by simp, by simp⟩
  · exact ⟨[], by simp, by simp, by simp, by simp⟩
  · exact ⟨[], by simp, by simp, by simp, by simp⟩

theorem R_registerRoutines_eq (info c1 c2 c3 c4 : Val) (env : Env) (fn : Fn)
    (tr : List Event) :
    R_registerRoutines info c1 c2 c3 c4 env fn tr = (enter .R_registerRoutines (do
      regBlock info C_NATIVE_TYPE c1
      regBlock info CALL_NATIVE_TYPE c2
      regBlock info FORTRAN_NATIVE_TYPE c3
      regBlock info EXTERNAL_NATIVE_TYPE c4
      return .int 1)) env fn tr := by
  simp only [R_registerRoutines, regBlock, enter_apply, bind_apply, ite_run, andThen_ite,
    andThen_assoc, pure_apply, andThen_ret]

theorem R_registerRoutines_onlyReg (env : Env) (a : List Val) :
    OnlyReg .R_registerRoutines 4 [] (call env .R_registerRoutines a) := by
  rw [call_R_registerRoutines, R_registerRoutines_eq, enter_apply]
  have h := OnlyReg.bind (regBlock_onlyReg (arg a 0) C_NATIVE_TYPE (arg a 1) env .R_registerRoutines [])
    (fun _ tr1 => OnlyReg.bind (regBlock_onlyReg (arg a 0) CALL_NATIVE_TYPE (arg a 2) env .R_registerRoutines tr1)
      (fun _ tr2 => OnlyReg.bind (regBlock_onlyReg (arg a 0) FORTRAN_NATIVE_TYPE (arg a 3) env .R_registerRoutines tr2)
        (fun _ tr3 => OnlyReg.bind (regBlock_onlyReg (arg a 0) EXTERNAL_NATIVE_TYPE (arg a 4) env .R_registerRoutines tr3)
          (fun _ tr4 => (⟨[], by simp, by simp, by simp, by simp⟩ :
            OnlyReg .R_registerRoutines 0 tr4 ((pure (Val.int 1) : M Val) env .R_registerRoutines tr4))))))
  exact h

theorem Rdynload_setSymbol_run (env : Env) (a : List Val) :
    call env .Rdynload_setSymbol a = ⟨.stop .crashed, []⟩ ∨
    ∃ t : Val × Val × Val, call env .Rdynload_setSymbol a =
      forwardM .Rdynload_setSymbol .setDotSymbolValues_x
        [arg a 0, env.ensure_string t.1, env.ensure_function t.2.1, t.2.2] true .result
        env .Rdynload_setSymbol [] := by
  have key : ∀ t : Val × Val × Val,
      ((ensure_string t.1 env .Rdynload_setSymbol []).andThen fun x1 tr1 =>
        (ensure_function t.2.1 env .Rdynload_setSymbol tr1).andThen fun x2 tr2 =>
          (callbacks .setDotSymbolValues_x [arg a 0, x1, x2, t.2.2] env .Rdynload_setSymbol
            tr2).andThen fun result tr3 =>
            (checkExitCall env .Rdynload_setSymbol tr3).andThen fun _ tr4 =>
              (⟨.ret result, tr4⟩ : Run Val)) =
      forwardM .Rdynload_setSymbol .setDotSymbolValues_x
        [arg a 0, env.ensure_string t.1, env.ensure_function t.2.1, t.2.2] true .result
        env .Rdynload_setSymbol [] := fun t => rfl
  rw [call_Rdynload_setSymbol]
  simp only [Rdynload_setSymbol, enter_apply, bind_apply, ite_run, readRoutine_apply, pure_apply,
    andThen_ite, andThen_ret, andThen_stop]
  split_ifs <;> first
    | (left; rfl)
    | (right; exact ⟨(_, _, _), key (_, _, _)⟩)

/-! ## The counting loop -/

theorem firstUnnamed_isSome (t : List MethodDef) :
    (firstUnnamed t).isSome = t.any (fun d => d.name.isNone) := by
  induction t with
  | nil => rfl
  | cons d rest ih =>
    by_cases h : d.name = none
    · simp [firstUnnamed, h]
    · have h2 : d.name.isNone = false := by
        cases hd : d.name with
        | none => exact absurd hd h
        | some b => rfl
      simp [firstUnnamed, h, h2, ← ih]

theorem firstUnnamed_getD (t : List MethodDef) :
    (firstUnnamed t).getD 0 =
      if (firstUnnamed t).isSome then (t.takeWhile (fun d => d.name.isSome)).length else 0 := by
  induction t with
  | nil => rfl
  | cons d rest ih =>
    by_cases h : d.name = none
    · simp [firstUnnamed, h, List.takeWhile]
    · have h2 : d.name.isSome = true := by
        cases hd : d.name with
        | none => exact absurd hd h
        | some b => rfl
      cases hr : firstUnnamed rest with
      | none => simp [firstUnnamed, h, hr]
      | some k =>
        rw [hr] at ih
        simp only [Option.getD_some, Option.isSome_some, if_true] at ih
        simp [firstUnnamed, h, hr, List.takeWhile, h2, ih]

theorem countOf_routines (t : List MethodDef) (h : terminated (.routines t) = true)
    (hb : entriesBefore (.routines t) < 2147483648) :
    (countOf (.routines t)).isSome = true ∧
      (countOf (.routines t)).getD 0 = entriesBefore (.routines t) := by
  have h1 : (firstUnnamed t).isSome = true := by rw [firstUnnamed_isSome]; exact h
  have h2 : (firstUnnamed t).getD 0 = entriesBefore (.routines t) := by
    rw [firstUnnamed_getD, if_pos h1]
    rfl
  have h3 : (loopCount t).isSome = true := by
    rw [loopCount_isSome, h1, h2]
    simpa using hb
  exact ⟨h3, (loopCount_getD t h3).trans h2⟩

theorem countOf_terminated (c : Val) (h : terminated c = true)
    (hb : entriesBefore c < 2147483648) :
    (countOf c).isSome = true ∧ (countOf c).getD 0 = entriesBefore c := by
  cases c with
  | routines t => exact countOf_routines t h hb
  | _ => exact absurd h (by simp [terminated])

theorem regBlock_spec (env : Env) (info : Val) (ordinal : Int) (c : Val) (tr : List Event)
    (h : c = .null ∨ (terminated c = true ∧ entriesBefore c < 2147483648)) :
    regBlock info (.int ordinal) c env .R_registerRoutines tr =
      if c = .null ∨ env.callbacksLoaded = true then
        ⟨.ret (), registration env info ordinal c tr⟩
      else ⟨.stop .crashed, tr⟩ := by
  rw [regBlock_apply]
  by_cases hc : c = .null
  · simp [hc, registration]
  · have ht := h.resolve_left hc
    obtain ⟨h1, h2⟩ := countOf_terminated c ht.1 ht.2
    simp only [hc, if_false, h1, if_true, registration, h2, false_or]

theorem firstUnnamed_least (t : List MethodDef) (n : Nat) (d : MethodDef)
    (hd : t.get? n = some d) (hnull : d.name = none)
    (hleast : ∀ j e, j < n → t.get? j = some e → e.name ≠ none) :
    firstUnnamed t = some n := by
  induction t generalizing n with
  | nil => simp at hd
  | cons x rest ih =>
    cases n with
    | zero =>
      simp only [List.get?_cons_zero, Option.some.injEq] at hd
      subst hd
      simp [firstUnnamed, hnull]
    | succ k =>
      have hx : x.name ≠ none := hleast 0 x (Nat.succ_pos k) rfl
      have := ih k (by simpa using hd) (fun j e hj he => hleast (j + 1) e (by omega) (by simpa using he))
      simp [firstUnnamed, hx, this]

theorem firstUnnamed_none (t : List MethodDef) (h : ∀ d ∈ t, d.name ≠ none) :
    firstUnnamed t = none := by
  induction t with
  | nil => rfl
  | cons x rest ih =>
    have hx : x.name ≠ none := h x (List.mem_cons_self _ _)
    simp [firstUnnamed, hx, ih (fun d hd => h d (List.mem_cons_of_mem _ hd))]

theorem firstUnnamed_append (t u : List MethodDef) (n : Nat) (h : firstUnnamed t = some n) :
    firstUnnamed (t ++ u) = some n := by
  induction t generalizing n with
  | nil => simp [firstUnnamed] at h
  | cons x rest ih =>
    by_cases hx : x.name = none
    · simpa [firstUnnamed, hx] using h
    · cases hr : firstUnnamed rest with
      | none => simp [firstUnnamed, hx, hr] at h
      | some k =>
        simp only [firstUnnamed, hx, if_false, hr] at h
        have h3 : k + 1 = n := Option.some.inj h
        subst h3
        simp [firstUnnamed, hx, ih k hr]

theorem firstUnnamed_take (t : List MethodDef) (n : Nat) (h : firstUnnamed t = some n) :
    firstUnnamed (t.take (n + 1)) = some n := by
  induction t generalizing n with
  | nil => simp [firstUnnamed] at h
  | cons x rest ih =>
    by_cases hx : x.name = none
    · simp only [firstUnnamed, hx, if_true, Option.some.injEq] at h
      subst h
      simp [firstUnnamed, hx]
    · cases hr : firstUnnamed rest with
      | none => simp [firstUnnamed, hx, hr] at h
      | some k =>
        simp only [firstUnnamed, hx, if_false, hr] at h
        have h3 : k + 1 = n := Option.some.inj h
        subst h3
        simp [firstUnnamed, hx, ih k hr]

theorem firstUnnamed_spec (t : List MethodDef) (k : Nat) (h : firstUnnamed t = some k) :
    (∃ d, t.get? k = some d ∧ d.name = none) ∧
      ∀ j e, j < k → t.get? j = some e → e.name ≠ none := by
  induction t generalizing k with
  | nil => simp [firstUnnamed] at h
  | cons x rest ih =>
    by_cases hx : x.name = none
    · simp only [firstUnnamed, hx, if_true, Option.some.injEq] at h
      subst h
      exact ⟨⟨x, rfl, hx⟩, fun j e hj => absurd hj (Nat.not_lt_zero j)⟩
    · cases hr : firstUnnamed rest with
      | none => simp [firstUnnamed, hx, hr] at h
      | some m =>
        simp only [firstUnnamed, hx, if_false, hr] at h
        have h3 : m + 1 = k := Option.some.inj h
        subst h3
        obtain ⟨⟨d, hd, hn⟩, hleast⟩ := ih m hr
        refine ⟨⟨d, by simpa using hd, hn⟩, ?_⟩
        intro j e hj he
        cases j with
        | zero =>
          simp only [List.get?_cons_zero, Option.some.injEq] at he
          subst he
          exact hx
        | succ i => exact hleast i e (by omega) (by simpa using he)

theorem firstUnnamed_replicate (n : Nat) (b : List Nat) (f : Nat) (k : Int) (s : MethodDef)
    (hs : s.name = none) :
    firstUnnamed (List.replicate n ⟨some b, f, k⟩ ++ [s]) = some n := by
  induction n with
  | zero => simp [firstUnnamed, hs]
  | succ m ih => simp [List.replicate_succ, firstUnnamed, ih]

theorem loopCount_of_first (t : List MethodDef) (k : Nat) (hf : firstUnnamed t = some k) :
    loopCount t = if k < 2147483648 then some k else none := by
  unfold loopCount
  rw [hf]

theorem countNamed_append_named (tbl rest : List MethodDef) (n : Nat) (env : Env) (fn : Fn)
    (tr : List Event) (hall : ∀ d ∈ tbl, d.name ≠ none) (hb : n + tbl.length < 2147483648) :
    countNamed (tbl ++ rest) n env fn tr = countNamed rest (n + tbl.length) env fn tr := by
  induction tbl generalizing n with
  | nil => rfl
  | cons x xs ih =>
    have hx : x.name ≠ none := hall x (List.mem_cons_self _ _)
    have hn : n < 2147483647 := by
      simp only [List.length_cons] at hb
      omega
    have hrec := ih (n + 1) (fun d hd => hall d (List.mem_cons_of_mem _ hd))
      (by simp only [List.length_cons] at hb; omega)
    have e1 : n + 1 + xs.length = n + (xs.length + 1) := by omega
    rw [e1] at hrec
    simp only [List.cons_append, countNamed, hx, ne_eq, not_false_eq_true, if_true, hn,
      List.length_cons]
    exact hrec

theorem R_registerRoutines_single (env : Env) (info : Val) (t : List MethodDef) :
    call env .R_registerRoutines [info, .routines t, .null, .null, .null] =
      if (loopCount t).isSome then
        if env.callbacksLoaded then
          ⟨.ret (.int 1), [.upcall .R_registerRoutines .registerRoutines_x
            [info, .int 0, .int ((loopCount t).getD 0), .routines t]
            (env.callback [] .registerRoutines_x
              [info, .int 0, .int ((loopCount t).getD 0), .routines t])]⟩
        else ⟨.stop .crashed, []⟩
      else ⟨.stop .crashed, []⟩ := by
  rw [call_R_registerRoutines, R_registerRoutines_eq]
  simp only [enter_apply, bind_apply, arg, List.getD_cons_zero, List.getD_cons_succ,
    C_NATIVE_TYPE, CALL_NATIVE_TYPE, FORTRAN_NATIVE_TYPE, EXTERNAL_NATIVE_TYPE,
    regBlock_apply, countOf, if_true, if_false,
    reduceCtorEq, andThen_ite, andThen_ret, andThen_stop, pure_apply, List.nil_append]

theorem call_Rvsnprintf_trace (env : Env) (a : List Val) :
    (call env .Rvsnprintf a).trace = [] := by
  rw [call_Rvsnprintf, bind_apply]
  have h := Rvsnprintf_trace (bufferArg (arg a 0)) (sizeArg (arg a 1)) (arg a 2) (a.drop 3) env
    .Rvsnprintf []
  rcases hr : Rvsnprintf (bufferArg (arg a 0)) (sizeArg (arg a 1)) (arg a 2) (a.drop 3) env
    .Rvsnprintf [] with ⟨o, t⟩
  rw [hr] at h
  simp only at h
  subst h
  cases o <;> rfl

theorem guardedFrom_onlyUpcalls (f : Fn) (s : Slot) (l : List Event)
    (h : ∀ e ∈ l, ∃ args res, e = Event.upcall f s args res) (prev : Option Event) :
    guardedFrom prev l = true := by
  induction l generalizing prev with
  | nil => rfl
  | cons e rest ih =>
    obtain ⟨args, res, rfl⟩ := h e (List.mem_cons_self _ _)
    exact ih (fun x hx => h x (List.mem_cons_of_mem _ hx)) _


/-! ## Facts read off the shape table -/

theorem kind_slotOk (ep : Fn) : (kind ep).slotOk ep = true := by
  cases ep <;> rfl

theorem kind_returnsResult (ep : Fn) :
    ep ∈ ownResultFns ∨ (kind ep).returnsResult = true := by
  cases ep <;> first | exact Or.inr rfl | exact Or.inl (by decide)

theorem kind_paramsOk (ep : Fn) :
    ep ∈ reshapingFns ∨ (kind ep).paramsOk ep.arity = true := by
  cases ep <;> first | exact Or.inr rfl | exact Or.inl (by decide)

theorem kind_noop_quiet (ep : Fn) (h : (kind ep).isNoop = true) : ep ∈ quietFns := by
  revert h
  cases ep <;> first | (intro h; exact absurd h (by decide)) | (intro _; decide)

/-- Every upcall of every run is made from the body of the owner of its slot. -/
theorem trace_ownSlot (env : Env) (ep : Fn) (a : List Val) :
    (call env ep a).trace.all Event.ownSlot = true := by
  rcases hk : kind ep with ⟨slot, args, checked, ret⟩ | ⟨slot, args, checked⟩ | msg | ret | _
  · have hs := kind_slotOk ep
    rw [hk] at hs
    have hs2 : Event.ownSlot (.upcall ep slot (args.map (ArgSrc.eval env a))
        (env.callback [] slot (args.map (ArgSrc.eval env a)))) = true := hs
    rw [kind_run, hk]
    simp only [Kind.run]
    rw [forwardM_run]
    split_ifs <;> simp only [List.nil_append, List.all_cons, List.all_nil, hs2, Bool.and_true] <;>
      rfl
  · have hs := kind_slotOk ep
    rw [hk] at hs
    have hs1 : ep = slot.owner := by simpa [Kind.slotOk] using hs
    have hs2 : Event.ownSlot (.upcall ep slot (args.map (ArgSrc.eval env a))
        (env.callback [] slot (args.map (ArgSrc.eval env a)))) = true := by
      simp [Event.ownSlot, ← hs1]
    rw [kind_run, hk]
    simp only [Kind.run]
    rw [forwardVoidM_run]
    split_ifs <;> simp only [List.nil_append, List.all_cons, List.all_nil, hs2, Bool.and_true] <;>
      rfl
  · rw [kind_run, hk]; rfl
  · rw [kind_run, hk]; rfl
  · have hm := special_mem ep hk
    simp only [specialFns, List.mem_cons, List.mem_singleton, List.not_mem_nil, or_false] at hm
    clear hk
    rcases hm with rfl | rfl | rfl | rfl | rfl | rfl | rfl | rfl | rfl | rfl | rfl | rfl | rfl | rfl | rfl | rfl | rfl | rfl | rfl | rfl | rfl | rfl | rfl | rfl | rfl | rfl | rfl | rfl | rfl | rfl
    case inr.inr.inr.inr.inr.inr.inl =>
      rw [call_Rvsnprintf_trace]; rfl
    case inr.inr.inr.inr.inr.inr.inr.inr.inr.inr.inr.inr.inr.inr.inr.inr.inr.inr.inr.inr.inr.inr.inr.inr.inr.inr.inr.inr.inl =>
      obtain ⟨ext, h1, _, h3, _⟩ := R_registerRoutines_onlyReg env a
      rw [h1, List.all_eq_true]
      intro e he
      obtain ⟨args, res, rfl⟩ := h3 e (by simpa using he)
      rfl
    case inr.inr.inr.inr.inr.inr.inr.inr.inr.inr.inr.inr.inr.inr.inr.inr.inr.inr.inr.inr.inr.inr.inr.inr.inr.inr.inr.inr.inr =>
      rcases Rdynload_setSymbol_run env a with h | ⟨t, h⟩
      · rw [h]; rfl
      · rw [h, forwardM_run]
        split_ifs <;> rfl
    all_goals
      simp only [call_R_ExternalPtrAddrFn, call_R_MakeExternalPtrFn, call_Rf_mkString, call_Rf_mkChar,
      call_Rf_mkCharCE, call_Rf_mkCharLen, call_Rvsnprintf, call_Rf_errorcall,
      call_Rf_warningcall, call_Rf_warning, call_Rprintf, call_Rf_error, call_REprintf,
      call_Rf_allocVector3, call_R_ProtectWithIndex, call_Rf_translateChar,
      call_Rf_translateChar0, call_Rf_translateCharUTF8, call_R_lsInternal, call_XLENGTH,
      call_R_ToplevelExec, call_Rf_isS4, call_R_tryEvalInternal, call_R_tryEval,
      call_R_tryEvalSilent, call_R_ClearExternalPtr, call_R_check_class_etc,
      call_R_ReleaseObject, call_R_registerRoutines, call_Rdynload_setSymbol, R_ExternalPtrAddrFn, R_ExternalPtrAddr, R_MakeExternalPtrFn,
      R_MakeExternalPtr, Rf_mkString, Rf_mkChar, Rf_mkCharCE, Rf_mkCharLen, Rf_mkCharLenCE,
      ScalarString, Rf_ScalarString, Rf_errorcall, Rf_warningcall, Rf_warning, Rprintf, Rf_error,
      REprintf, Rf_allocVector3, R_ProtectWithIndex, Rf_translateChar, Rf_translateChar0,
      Rf_translateCharUTF8, CHAR, R_CHAR, R_lsInternal, R_lsInternal3, XLENGTH, LENGTH,
      R_ToplevelExec, Rf_isS4, IS_S4_OBJECT, R_tryEvalInternal, R_tryEval, R_tryEvalSilent,
      R_ClearExternalPtr, R_SetExternalPtrAddr, R_check_class_etc, R_check_class_etc_helper,
      R_ReleaseObject, R_registerRoutines, Rdynload_setSymbol, retVoid_eq, enter_apply,
      bind_apply, pure_apply, ite_run, andThen_ret, andThen_stop, andThen_ite, callbacks_apply,
      checkExitCall_apply, unimplemented_apply, UNIMPLEMENTED_apply, ensure_string_apply,
      ensure_function_apply, ensure_truffle_chararray_n_apply, crash_apply, exit_apply,
      store_apply, callNative_apply, callable_extfn, callbacksNonNull_apply, uninit_apply,
      BUFSIZE,
      Rvsnprintf_apply, strlen_apply, tableOf_apply, countNamed_apply, readRoutine_apply,
      List.nil_append, List.append_assoc, List.cons_append, List.singleton_append, NULL, TRUE,
      FALSE, CE_NATIVE, C_NATIVE_TYPE, CALL_NATIVE_TYPE, FORTRAN_NATIVE_TYPE,
      EXTERNAL_NATIVE_TYPE, arg]
      first
        | rfl
        | (split_ifs <;> rfl)

theorem indexes_owner (f : Fn) (s : Slot) (h : indexes f s) :
    f = s.owner ∨ (s = .Rf_duplicate_x ∧ f = .Rf_shallow_duplicate) := by
  obtain ⟨env, ep, a, args, r, hmem⟩ := h
  have h1 := List.all_eq_true.mp (trace_ownSlot env ep a) _ hmem
  simpa [Event.ownSlot] using h1

theorem inOrder_normalized (env : Env) (a : List Val) (l : List ArgSrc) (i : Nat)
    (h : ArgSrc.inOrder i l = true) :
    ∀ k, k < l.length →
      normalized env (arg a (i + k)) ((l.map (ArgSrc.eval env a)).getD k .indet) := by
  induction l generalizing i with
  | nil => intro k hk; exact absurd hk (Nat.not_lt_zero k)
  | cons s rest ih =>
    simp only [ArgSrc.inOrder, Bool.and_eq_true] at h
    intro k hk
    cases k with
    | zero =>
      have hs := h.1
      cases s with
      | param j =>
        have hj : j = i := by simpa [ArgSrc.isParam] using hs
        subst hj
        exact Or.inl rfl
      | ensured j =>
        have hj : j = i := by simpa [ArgSrc.isParam] using hs
        subst hj
        exact Or.inr (Or.inl rfl)
      | chars j m =>
        have hj : j = i := by simpa [ArgSrc.isParam] using hs
        subst hj
        exact Or.inr (Or.inr (Or.inr ⟨arg a m, rfl⟩))
      | lit v => simp [ArgSrc.isParam] at hs
    | succ m =>
      have hrec := ih (i + 1) h.2 m (by simpa using hk)
      have e1 : i + 1 + m = i + (m + 1) := by omega
      rw [e1] at hrec
      simpa using hrec

theorem forwardsParams_of_paramsOk (env : Env) (ep : Fn) (a : List Val) (slot : Slot)
    (args : List ArgSrc) (r : Val)
    (h : (args.length == ep.arity && ArgSrc.inOrder 0 args) = true) :
    forwardsParams env ep a (.upcall ep slot (args.map (ArgSrc.eval env a)) r) := by
  simp only [Bool.and_eq_true, beq_iff_eq] at h
  refine ⟨by simpa using h.1, ?_⟩
  intro i hi
  have := inOrder_normalized env a args 0 h.2 i (by omega)
  simpa using this

/-! ## Claims about single functions -/

/-- C1 (code defect).  `Rf_GetOption1` returns the result of its upcall without
calling `checkExitCall()`: with a loaded callback table its whole run is the single
upcall followed by the return, so the upcall is followed by no exit check.  On
the sample environment the run returns normally and the trace fails `checkedOnce`. -/
theorem C1_Rf_GetOption1_skips_exit_check :
    (∀ (env : Env) (tag : Val),
      call env .Rf_GetOption1 [tag] =
        if env.callbacksLoaded then
          ⟨.ret (env.callback [] .Rf_GetOption1_x [tag]),
            [.upcall .Rf_GetOption1 .Rf_GetOption1_x [tag]
              (env.callback [] .Rf_GetOption1_x [tag])]⟩
        else ⟨.stop .crashed, []⟩) ∧
    (call demoEnv .Rf_GetOption1 [.ptr 1]).outcome = .ret (.ptr 100) ∧
    checkedOnce (call demoEnv .Rf_GetOption1 [.ptr 1]).trace = false := by
  refine ⟨?_, rfl, rfl⟩
  intro env tag
  have h : call env .Rf_GetOption1 [tag] =
      forwardM .Rf_GetOption1 .Rf_GetOption1_x [tag] false .result env .Rf_GetOption1 [] := rfl
  rw [h, forwardM_run]
  simp only [RetSrc.eval, List.nil_append, Bool.false_eq_true, if_false]

/-- C6 (code defect).  `R_EnvironmentIsLocked` aborts through `unimplemented("")`:
on every input its run is the single abort with the empty string as diagnostic,
which is not the name of the function. -/
theorem C6_R_EnvironmentIsLocked_empty_diagnostic :
    (∀ (env : Env) (a : List Val),
      call env .R_EnvironmentIsLocked a =
        ⟨.stop .aborted, [.unimplemented .R_EnvironmentIsLocked ""]⟩) ∧
    Fn.R_EnvironmentIsLocked.name = "R_EnvironmentIsLocked" ∧
    Fn.R_EnvironmentIsLocked.name ≠ "" := by
  refine ⟨fun env a => rfl, rfl, by decide⟩

/-- C9 (code defect).  `R_do_MAKE_CLASS`, `R_getClassDef` and `Rf_str2type` hand
their `const char *` parameter to the callback as it is, without `ensure_string`:
the only upcall of each carries the raw parameter.  On the sample environment,
where `ensure_string` turns a C string into a managed string, the argument that
reaches the slot differs from the normalized one. -/
theorem C9_raw_string_reaches_callback :
    (∀ (env : Env) (what : Val),
      upcalls (call env .R_do_MAKE_CLASS [what]).trace =
        if env.callbacksLoaded then
          [.upcall .R_do_MAKE_CLASS .R_do_MAKE_CLASS_x [what]
            (env.callback [] .R_do_MAKE_CLASS_x [what])]
        else []) ∧
    (∀ (env : Env) (what : Val),
      upcalls (call env .R_getClassDef [what]).trace =
        if env.callbacksLoaded then
          [.upcall .R_getClassDef .R_getClassDef_x [what]
            (env.callback [] .R_getClassDef_x [what])]
        else []) ∧
    (∀ (env : Env) (s : Val),
      upcalls (call env .Rf_str2type [s]).trace =
        if env.callbacksLoaded then
          [.upcall .Rf_str2type .Rf_str2type_x [s] (env.callback [] .Rf_str2type_x [s])]
        else []) ∧
    upcalls (call demoEnv .R_do_MAKE_CLASS [.cstr [110, 117, 109]]).trace =
      [.upcall .R_do_MAKE_CLASS .R_do_MAKE_CLASS_x [.cstr [110, 117, 109]] (.ptr 100)] ∧
    demoEnv.ensure_string (.cstr [110, 117, 109]) = .jstring [110, 117, 109] := by
  refine ⟨?_, ?_, ?_, rfl, rfl⟩
  · intro env x
    have h : call env .R_do_MAKE_CLASS [x] =
        forwardM .R_do_MAKE_CLASS .R_do_MAKE_CLASS_x [x] true .result env .R_do_MAKE_CLASS [] :=
      rfl
    rw [h, forwardM_run]
    split_ifs <;> simp [upcalls, Event.isUpcall]
  · intro env x
    have h : call env .R_getClassDef [x] =
        forwardM .R_getClassDef .R_getClassDef_x [x] true .result env .R_getClassDef [] := rfl
    rw [h, forwardM_run]
    split_ifs <;> simp [upcalls, Event.isUpcall]
  · intro env x
    have h : call env .Rf_str2type [x] =
        forwardM .Rf_str2type .Rf_str2type_x [x] true .result env .Rf_str2type [] := rfl
    rw [h, forwardM_run]
    split_ifs <;> simp [upcalls, Event.isUpcall]

/-- C17.  `Rf_allocVector3(t, len, allocator)`: with `allocator = NULL` it makes
exactly one upcall, `Rf_allocVector_x(t, len)`, runs the exit check and returns
the callback result (unless the guard unwinds); with any other allocator it
makes no upcall and aborts through `unimplemented("Rf_allocVector3")`. -/
theorem C17_Rf_allocVector3 (env : Env) (t len allocator : Val) :
    call env .Rf_allocVector3 [t, len, allocator] =
      if allocator = .null then
        if env.callbacksLoaded then
          if env.exitRequested [.upcall .Rf_allocVector3 .Rf_allocVector_x [t, len]
              (env.callback [] .Rf_allocVector_x [t, len])] then
            ⟨.stop .unwound, [.upcall .Rf_allocVector3 .Rf_allocVector_x [t, len]
              (env.callback [] .Rf_allocVector_x [t, len]), .exitCheck .Rf_allocVector3]⟩
          else
            ⟨.ret (env.callback [] .Rf_allocVector_x [t, len]),
              [.upcall .Rf_allocVector3 .Rf_allocVector_x [t, len]
                (env.callback [] .Rf_allocVector_x [t, len]), .exitCheck .Rf_allocVector3]⟩
        else ⟨.stop .crashed, []⟩
      else ⟨.stop .aborted, [.unimplemented .Rf_allocVector3 "Rf_allocVector3"]⟩ := by
  simp only [call_R_ExternalPtrAddrFn, call_R_MakeExternalPtrFn, call_Rf_mkString, call_Rf_mkChar,
      call_Rf_mkCharCE, call_Rf_mkCharLen, call_Rvsnprintf, call_Rf_errorcall,
      call_Rf_warningcall, call_Rf_warning, call_Rprintf, call_Rf_error, call_REprintf,
      call_Rf_allocVector3, call_R_ProtectWithIndex, call_Rf_translateChar,
      call_Rf_translateChar0, call_Rf_translateCharUTF8, call_R_lsInternal, call_XLENGTH,
      call_R_ToplevelExec, call_Rf_isS4, call_R_tryEvalInternal, call_R_tryEval,
      call_R_tryEvalSilent, call_R_ClearExternalPtr, call_R_check_class_etc,
      call_R_ReleaseObject, call_R_registerRoutines, call_Rdynload_setSymbol, R_ExternalPtrAddrFn, R_ExternalPtrAddr, R_MakeExternalPtrFn,
      R_MakeExternalPtr, Rf_mkString, Rf_mkChar, Rf_mkCharCE, Rf_mkCharLen, Rf_mkCharLenCE,
      ScalarString, Rf_ScalarString, Rf_errorcall, Rf_warningcall, Rf_warning, Rprintf, Rf_error,
      REprintf, Rf_allocVector3, R_ProtectWithIndex, Rf_translateChar, Rf_translateChar0,
      Rf_translateCharUTF8, CHAR, R_CHAR, R_lsInternal, R_lsInternal3, XLENGTH, LENGTH,
      R_ToplevelExec, Rf_isS4, IS_S4_OBJECT, R_tryEvalInternal, R_tryEval, R_tryEvalSilent,
      R_ClearExternalPtr, R_SetExternalPtrAddr, R_check_class_etc, R_check_class_etc_helper,
      R_ReleaseObject, R_registerRoutines, Rdynload_setSymbol, retVoid_eq, enter_apply,
      bind_apply, pure_apply, ite_run, andThen_ret, andThen_stop, andThen_ite, callbacks_apply,
      checkExitCall_apply, unimplemented_apply, UNIMPLEMENTED_apply, ensure_string_apply,
      ensure_function_apply, ensure_truffle_chararray_n_apply, crash_apply, exit_apply,
      store_apply, callNative_apply, callbacksNonNull_apply, uninit_apply, BUFSIZE,
      Rvsnprintf_apply, strlen_apply, tableOf_apply, countNamed_apply, readRoutine_apply,
      List.nil_append, List.append_assoc, List.cons_append, List.singleton_append, NULL, TRUE,
      FALSE, CE_NATIVE, C_NATIVE_TYPE, CALL_NATIVE_TYPE, FORTRAN_NATIVE_TYPE,
      EXTERNAL_NATIVE_TYPE, arg, List.getD_cons_zero, List.getD_cons_succ]
  split_ifs <;> first | rfl | simp_all

/-- C18.  `Rf_duplicate(x)` and `Rf_shallow_duplicate(x)` both invoke slot
`Rf_duplicate_x` with `x` as first argument; the second argument is 1 for
`Rf_duplicate` and 0 for `Rf_shallow_duplicate`; each runs one exit check and
returns the callback result, so the two runs differ only in the flag (and in the
name of the function making the calls). -/
theorem C18_duplicate_flag (env : Env) (x : Val) :
    call env .Rf_duplicate [x] =
      forwardM .Rf_duplicate .Rf_duplicate_x [x, .int 1] true .result env .Rf_duplicate [] ∧
    call env .Rf_shallow_duplicate [x] =
      forwardM .Rf_shallow_duplicate .Rf_duplicate_x [x, .int 0] true .result env
        .Rf_shallow_duplicate [] ∧
    (∀ (f : Fn) (flag : Val),
      forwardM f .Rf_duplicate_x [x, flag] true .result env f [] =
        if env.callbacksLoaded then
          if env.exitRequested [.upcall f .Rf_duplicate_x [x, flag]
              (env.callback [] .Rf_duplicate_x [x, flag])] then
            ⟨.stop .unwound, [.upcall f .Rf_duplicate_x [x, flag]
              (env.callback [] .Rf_duplicate_x [x, flag]), .exitCheck f]⟩
          else
            ⟨.ret (env.callback [] .Rf_duplicate_x [x, flag]),
              [.upcall f .Rf_duplicate_x [x, flag]
                (env.callback [] .Rf_duplicate_x [x, flag]), .exitCheck f]⟩
        else ⟨.stop .crashed, []⟩) := by
  refine ⟨rfl, rfl, ?_⟩
  intro f flag
  rw [forwardM_run]
  simp only [RetSrc.eval, List.nil_append, if_true]

/-- C19.  `R_ReleaseObject(x)` makes no upcall and returns normally when the
callback table pointer is NULL, and makes exactly one upcall to slot
`R_ReleaseObject_x` with argument `x` when the table is non-NULL; in neither case
does it abort or run the exit check. -/
theorem C19_R_ReleaseObject (env : Env) (x : Val) :
    call env .R_ReleaseObject [x] =
      if env.callbacksLoaded then
        ⟨.ret .void, [.upcall .R_ReleaseObject .R_ReleaseObject_x [x]
          (env.callback [] .R_ReleaseObject_x [x])]⟩
      else ⟨.ret .void, []⟩ := by
  simp only [call_R_ExternalPtrAddrFn, call_R_MakeExternalPtrFn, call_Rf_mkString, call_Rf_mkChar,
      call_Rf_mkCharCE, call_Rf_mkCharLen, call_Rvsnprintf, call_Rf_errorcall,
      call_Rf_warningcall, call_Rf_warning, call_Rprintf, call_Rf_error, call_REprintf,
      call_Rf_allocVector3, call_R_ProtectWithIndex, call_Rf_translateChar,
      call_Rf_translateChar0, call_Rf_translateCharUTF8, call_R_lsInternal, call_XLENGTH,
      call_R_ToplevelExec, call_Rf_isS4, call_R_tryEvalInternal, call_R_tryEval,
      call_R_tryEvalSilent, call_R_ClearExternalPtr, call_R_check_class_etc,
      call_R_ReleaseObject, call_R_registerRoutines, call_Rdynload_setSymbol, R_ExternalPtrAddrFn, R_ExternalPtrAddr, R_MakeExternalPtrFn,
      R_MakeExternalPtr, Rf_mkString, Rf_mkChar, Rf_mkCharCE, Rf_mkCharLen, Rf_mkCharLenCE,
      ScalarString, Rf_ScalarString, Rf_errorcall, Rf_warningcall, Rf_warning, Rprintf, Rf_error,
      REprintf, Rf_allocVector3, R_ProtectWithIndex, Rf_translateChar, Rf_translateChar0,
      Rf_translateCharUTF8, CHAR, R_CHAR, R_lsInternal, R_lsInternal3, XLENGTH, LENGTH,
      R_ToplevelExec, Rf_isS4, IS_S4_OBJECT, R_tryEvalInternal, R_tryEval, R_tryEvalSilent,
      R_ClearExternalPtr, R_SetExternalPtrAddr, R_check_class_etc, R_check_class_etc_helper,
      R_ReleaseObject, R_registerRoutines, Rdynload_setSymbol, retVoid_eq, enter_apply,
      bind_apply, pure_apply, ite_run, andThen_ret, andThen_stop, andThen_ite, callbacks_apply,
      checkExitCall_apply, unimplemented_apply, UNIMPLEMENTED_apply, ensure_string_apply,
      ensure_function_apply, ensure_truffle_chararray_n_apply, crash_apply, exit_apply,
      store_apply, callNative_apply, callbacksNonNull_apply, uninit_apply, BUFSIZE,
      Rvsnprintf_apply, strlen_apply, tableOf_apply, countNamed_apply, readRoutine_apply,
      List.nil_append, List.append_assoc, List.cons_append, List.singleton_append, NULL, TRUE,
      FALSE, CE_NATIVE, C_NATIVE_TYPE, CALL_NATIVE_TYPE, FORTRAN_NATIVE_TYPE,
      EXTERNAL_NATIVE_TYPE, arg, List.getD_cons_zero]
  cases env.callbacksLoaded <;> simp

/-- C16.  `R_tryEval` and `R_tryEvalSilent` make the same single upcall to slot
`R_tryEval_x` with `(x, y, ErrorOccurred, silent)`, with `silent = 0` for
`R_tryEval` and `silent = 1` for `R_tryEvalSilent`.  When `ErrorOccurred` is
non-NULL the `int` it points to is set to 0 before the upcall; when it is NULL
nothing is written.  The callback result is returned, and no exit check runs. -/
theorem C16_R_tryEval (env : Env) (x y errorOccurred : Val) :
    (∀ (f : Fn) (silent : Val), (f = .R_tryEval ∧ silent = .int 0) ∨
        (f = .R_tryEvalSilent ∧ silent = .int 1) →
      call env f [x, y, errorOccurred] =
        if errorOccurred = .null then
          if env.callbacksLoaded then
            ⟨.ret (env.callback [] .R_tryEval_x [x, y, .null, silent]),
              [.upcall .R_tryEvalInternal .R_tryEval_x [x, y, .null, silent]
                (env.callback [] .R_tryEval_x [x, y, .null, silent])]⟩
          else ⟨.stop .crashed, []⟩
        else
          if env.callbacksLoaded then
            ⟨.ret (env.callback [.store .R_tryEvalInternal errorOccurred (.int 0)] .R_tryEval_x
                [x, y, errorOccurred, silent]),
              [.store .R_tryEvalInternal errorOccurred (.int 0),
               .upcall .R_tryEvalInternal .R_tryEval_x [x, y, errorOccurred, silent]
                (env.callback [.store .R_tryEvalInternal errorOccurred (.int 0)] .R_tryEval_x
                  [x, y, errorOccurred, silent])]⟩
          else ⟨.stop .crashed, [.store .R_tryEvalInternal errorOccurred (.int 0)]⟩) := by
  intro f silent h
  rcases h with ⟨rfl, rfl⟩ | ⟨rfl, rfl⟩ <;>
    simp only [call_R_ExternalPtrAddrFn, call_R_MakeExternalPtrFn, call_Rf_mkString, call_Rf_mkChar,
      call_Rf_mkCharCE, call_Rf_mkCharLen, call_Rvsnprintf, call_Rf_errorcall,
      call_Rf_warningcall, call_Rf_warning, call_Rprintf, call_Rf_error, call_REprintf,
      call_Rf_allocVector3, call_R_ProtectWithIndex, call_Rf_translateChar,
      call_Rf_translateChar0, call_Rf_translateCharUTF8, call_R_lsInternal, call_XLENGTH,
      call_R_ToplevelExec, call_Rf_isS4, call_R_tryEvalInternal, call_R_tryEval,
      call_R_tryEvalSilent, call_R_ClearExternalPtr, call_R_check_class_etc,
      call_R_ReleaseObject, call_R_registerRoutines, call_Rdynload_setSymbol, R_ExternalPtrAddrFn, R_ExternalPtrAddr, R_MakeExternalPtrFn,
      R_MakeExternalPtr, Rf_mkString, Rf_mkChar, Rf_mkCharCE, Rf_mkCharLen, Rf_mkCharLenCE,
      ScalarString, Rf_ScalarString, Rf_errorcall, Rf_warningcall, Rf_warning, Rprintf, Rf_error,
      REprintf, Rf_allocVector3, R_ProtectWithIndex, Rf_translateChar, Rf_translateChar0,
      Rf_translateCharUTF8, CHAR, R_CHAR, R_lsInternal, R_lsInternal3, XLENGTH, LENGTH,
      R_ToplevelExec, Rf_isS4, IS_S4_OBJECT, R_tryEvalInternal, R_tryEval, R_tryEvalSilent,
      R_ClearExternalPtr, R_SetExternalPtrAddr, R_check_class_etc, R_check_class_etc_helper,
      R_ReleaseObject, R_registerRoutines, Rdynload_setSymbol, retVoid_eq, enter_apply,
      bind_apply, pure_apply, ite_run, andThen_ret, andThen_stop, andThen_ite, callbacks_apply,
      checkExitCall_apply, unimplemented_apply, UNIMPLEMENTED_apply, ensure_string_apply,
      ensure_function_apply, ensure_truffle_chararray_n_apply, crash_apply, exit_apply,
      store_apply, callNative_apply, callbacksNonNull_apply, uninit_apply, BUFSIZE,
      Rvsnprintf_apply, strlen_apply, tableOf_apply, countNamed_apply, readRoutine_apply,
      List.nil_append, List.append_assoc, List.cons_append, List.singleton_append, NULL, TRUE,
      FALSE, CE_NATIVE, C_NATIVE_TYPE, CALL_NATIVE_TYPE, FORTRAN_NATIVE_TYPE,
      EXTERNAL_NATIVE_TYPE, arg, List.getD_cons_zero, List.getD_cons_succ] <;>
    split_ifs <;> first | rfl | simp_all

/-- Witness of C16 on the sample environment, with a non-NULL `ErrorOccurred`. -/
theorem C16_R_tryEval_witness :
    call demoEnv .R_tryEvalSilent [.ptr 1, .ptr 2, .ptr 3] =
      ⟨.ret (.ptr 101),
        [.store .R_tryEvalInternal (.ptr 3) (.int 0),
         .upcall .R_tryEvalInternal .R_tryEval_x [.ptr 1, .ptr 2, .ptr 3, .int 1] (.ptr 101)]⟩ := by
  have h := C16_R_tryEval demoEnv (.ptr 1) (.ptr 2) (.ptr 3) .R_tryEvalSilent (.int 1)
    (Or.inr ⟨rfl, rfl⟩)
  rw [h]
  rfl

/-- C8.  `Rf_error` and `Rf_errorcall` never return normally.  With a loaded
callback table each makes its error upcall (slot `Rf_error_x`, `Rf_errorcall_x`)
with the formatted message passed through `ensure_string`, then calls
`checkExitCall()`, and if the guard lets control continue it aborts through
`unimplemented(..)`; with a NULL table the upcall itself crashes.  No run ends
in a normal return. -/
theorem C8_error_never_returns (env : Env) (x format : Val) (ap : List Val) :
    call env .Rf_error (format :: ap) =
      (if env.callbacksLoaded then
        if env.exitRequested [.upcall .Rf_error .Rf_error_x
            [env.ensure_string (.cstr (message env format ap))]
            (env.callback [] .Rf_error_x [env.ensure_string (.cstr (message env format ap))])] then
          ⟨.stop .unwound, [.upcall .Rf_error .Rf_error_x
            [env.ensure_string (.cstr (message env format ap))]
            (env.callback [] .Rf_error_x [env.ensure_string (.cstr (message env format ap))]),
            .exitCheck .Rf_error]⟩
        else
          ⟨.stop .aborted, [.upcall .Rf_error .Rf_error_x
            [env.ensure_string (.cstr (message env format ap))]
            (env.callback [] .Rf_error_x [env.ensure_string (.cstr (message env format ap))]),
            .exitCheck .Rf_error,
            .unimplemented .Rf_error
              "Unexpected return from Rf_error, should be no return function"]⟩
      else ⟨.stop .crashed, []⟩) ∧
    call env .Rf_errorcall (x :: format :: ap) =
      (if env.callbacksLoaded then
        if env.exitRequested [.upcall .Rf_errorcall .Rf_errorcall_x
            [x, env.ensure_string (.cstr (message env format ap))]
            (env.callback [] .Rf_errorcall_x
              [x, env.ensure_string (.cstr (message env format ap))])] then
          ⟨.stop .unwound, [.upcall .Rf_errorcall .Rf_errorcall_x
            [x, env.ensure_string (.cstr (message env format ap))]
            (env.callback [] .Rf_errorcall_x
              [x, env.ensure_string (.cstr (message env format ap))]),
            .exitCheck .Rf_errorcall]⟩
        else
          ⟨.stop .aborted, [.upcall .Rf_errorcall .Rf_errorcall_x
            [x, env.ensure_string (.cstr (message env format ap))]
            (env.callback [] .Rf_errorcall_x
              [x, env.ensure_string (.cstr (message env format ap))]),
            .exitCheck .Rf_errorcall,
            .unimplemented .Rf_errorcall
              "Unexpected return from Rf_errorcall, should be no return function"]⟩
      else ⟨.stop .crashed, []⟩) ∧
    (∀ v, (call env .Rf_error (format :: ap)).outcome ≠ .ret v) ∧
    (∀ v, (call env .Rf_errorcall (x :: format :: ap)).outcome ≠ .ret v) := by
  refine ⟨?_, ?_, ?_, ?_⟩
  · simp only [call_R_ExternalPtrAddrFn, call_R_MakeExternalPtrFn, call_Rf_mkString, call_Rf_mkChar,
      call_Rf_mkCharCE, call_Rf_mkCharLen, call_Rvsnprintf, call_Rf_errorcall,
      call_Rf_warningcall, call_Rf_warning, call_Rprintf, call_Rf_error, call_REprintf,
      call_Rf_allocVector3, call_R_ProtectWithIndex, call_Rf_translateChar,
      call_Rf_translateChar0, call_Rf_translateCharUTF8, call_R_lsInternal, call_XLENGTH,
      call_R_ToplevelExec, call_Rf_isS4, call_R_tryEvalInternal, call_R_tryEval,
      call_R_tryEvalSilent, call_R_ClearExternalPtr, call_R_check_class_etc,
      call_R_ReleaseObject, call_R_registerRoutines, call_Rdynload_setSymbol, R_ExternalPtrAddrFn, R_ExternalPtrAddr, R_MakeExternalPtrFn,
      R_MakeExternalPtr, Rf_mkString, Rf_mkChar, Rf_mkCharCE, Rf_mkCharLen, Rf_mkCharLenCE,
      ScalarString, Rf_ScalarString, Rf_errorcall, Rf_warningcall, Rf_warning, Rprintf, Rf_error,
      REprintf, Rf_allocVector3, R_ProtectWithIndex, Rf_translateChar, Rf_translateChar0,
      Rf_translateCharUTF8, CHAR, R_CHAR, R_lsInternal, R_lsInternal3, XLENGTH, LENGTH,
      R_ToplevelExec, Rf_isS4, IS_S4_OBJECT, R_tryEvalInternal, R_tryEval, R_tryEvalSilent,
      R_ClearExternalPtr, R_SetExternalPtrAddr, R_check_class_etc, R_check_class_etc_helper,
      R_ReleaseObject, R_registerRoutines, Rdynload_setSymbol, retVoid_eq, enter_apply,
      bind_apply, pure_apply, ite_run, andThen_ret, andThen_stop, andThen_ite, callbacks_apply,
      checkExitCall_apply, unimplemented_apply, UNIMPLEMENTED_apply, ensure_string_apply,
      ensure_function_apply, ensure_truffle_chararray_n_apply, crash_apply, exit_apply,
      store_apply, callNative_apply, callbacksNonNull_apply, uninit_apply, BUFSIZE,
      Rvsnprintf_apply, strlen_apply, tableOf_apply, countNamed_apply, readRoutine_apply,
      List.nil_append, List.append_assoc, List.cons_append, List.singleton_append, NULL, TRUE,
      FALSE, CE_NATIVE, C_NATIVE_TYPE, CALL_NATIVE_TYPE, FORTRAN_NATIVE_TYPE,
      EXTERNAL_NATIVE_TYPE, arg, List.getD_cons_zero, List.getD_cons_succ, List.drop_succ_cons,
      List.drop_zero, decay_formattedBuffer]
  · simp only [call_R_ExternalPtrAddrFn, call_R_MakeExternalPtrFn, call_Rf_mkString, call_Rf_mkChar,
      call_Rf_mkCharCE, call_Rf_mkCharLen, call_Rvsnprintf, call_Rf_errorcall,
      call_Rf_warningcall, call_Rf_warning, call_Rprintf, call_Rf_error, call_REprintf,
      call_Rf_allocVector3, call_R_ProtectWithIndex, call_Rf_translateChar,
      call_Rf_translateChar0, call_Rf_translateCharUTF8, call_R_lsInternal, call_XLENGTH,
      call_R_ToplevelExec, call_Rf_isS4, call_R_tryEvalInternal, call_R_tryEval,
      call_R_tryEvalSilent, call_R_ClearExternalPtr, call_R_check_class_etc,
      call_R_ReleaseObject, call_R_registerRoutines, call_Rdynload_setSymbol, R_ExternalPtrAddrFn, R_ExternalPtrAddr, R_MakeExternalPtrFn,
      R_MakeExternalPtr, Rf_mkString, Rf_mkChar, Rf_mkCharCE, Rf_mkCharLen, Rf_mkCharLenCE,
      ScalarString, Rf_ScalarString, Rf_errorcall, Rf_warningcall, Rf_warning, Rprintf, Rf_error,
      REprintf, Rf_allocVector3, R_ProtectWithIndex, Rf_translateChar, Rf_translateChar0,
      Rf_translateCharUTF8, CHAR, R_CHAR, R_lsInternal, R_lsInternal3, XLENGTH, LENGTH,
      R_ToplevelExec, Rf_isS4, IS_S4_OBJECT, R_tryEvalInternal, R_tryEval, R_tryEvalSilent,
      R_ClearExternalPtr, R_SetExternalPtrAddr, R_check_class_etc, R_check_class_etc_helper,
      R_ReleaseObject, R_registerRoutines, Rdynload_setSymbol, retVoid_eq, enter_apply,
      bind_apply, pure_apply, ite_run, andThen_ret, andThen_stop, andThen_ite, callbacks_apply,
      checkExitCall_apply, unimplemented_apply, UNIMPLEMENTED_apply, ensure_string_apply,
      ensure_function_apply, ensure_truffle_chararray_n_apply, crash_apply, exit_apply,
      store_apply, callNative_apply, callbacksNonNull_apply, uninit_apply, BUFSIZE,
      Rvsnprintf_apply, strlen_apply, tableOf_apply, countNamed_apply, readRoutine_apply,
      List.nil_append, List.append_assoc, List.cons_append, List.singleton_append, NULL, TRUE,
      FALSE, CE_NATIVE, C_NATIVE_TYPE, CALL_NATIVE_TYPE, FORTRAN_NATIVE_TYPE,
      EXTERNAL_NATIVE_TYPE, arg, List.getD_cons_zero, List.getD_cons_succ, List.drop_succ_cons,
      List.drop_zero, decay_formattedBuffer]
  · intro v
    simp only [call_R_ExternalPtrAddrFn, call_R_MakeExternalPtrFn, call_Rf_mkString, call_Rf_mkChar,
      call_Rf_mkCharCE, call_Rf_mkCharLen, call_Rvsnprintf, call_Rf_errorcall,
      call_Rf_warningcall, call_Rf_warning, call_Rprintf, call_Rf_error, call_REprintf,
      call_Rf_allocVector3, call_R_ProtectWithIndex, call_Rf_translateChar,
      call_Rf_translateChar0, call_Rf_translateCharUTF8, call_R_lsInternal, call_XLENGTH,
      call_R_ToplevelExec, call_Rf_isS4, call_R_tryEvalInternal, call_R_tryEval,
      call_R_tryEvalSilent, call_R_ClearExternalPtr, call_R_check_class_etc,
      call_R_ReleaseObject, call_R_registerRoutines, call_Rdynload_setSymbol, R_ExternalPtrAddrFn, R_ExternalPtrAddr, R_MakeExternalPtrFn,
      R_MakeExternalPtr, Rf_mkString, Rf_mkChar, Rf_mkCharCE, Rf_mkCharLen, Rf_mkCharLenCE,
      ScalarString, Rf_ScalarString, Rf_errorcall, Rf_warningcall, Rf_warning, Rprintf, Rf_error,
      REprintf, Rf_allocVector3, R_ProtectWithIndex, Rf_translateChar, Rf_translateChar0,
      Rf_translateCharUTF8, CHAR, R_CHAR, R_lsInternal, R_lsInternal3, XLENGTH, LENGTH,
      R_ToplevelExec, Rf_isS4, IS_S4_OBJECT, R_tryEvalInternal, R_tryEval, R_tryEvalSilent,
      R_ClearExternalPtr, R_SetExternalPtrAddr, R_check_class_etc, R_check_class_etc_helper,
      R_ReleaseObject, R_registerRoutines, Rdynload_setSymbol, retVoid_eq, enter_apply,
      bind_apply, pure_apply, ite_run, andThen_ret, andThen_stop, andThen_ite, callbacks_apply,
      checkExitCall_apply, unimplemented_apply, UNIMPLEMENTED_apply, ensure_string_apply,
      ensure_function_apply, ensure_truffle_chararray_n_apply, crash_apply, exit_apply,
      store_apply, callNative_apply, callbacksNonNull_apply, uninit_apply, BUFSIZE,
      Rvsnprintf_apply, strlen_apply, tableOf_apply, countNamed_apply, readRoutine_apply,
      List.nil_append, List.append_assoc, List.cons_append, List.singleton_append, NULL, TRUE,
      FALSE, CE_NATIVE, C_NATIVE_TYPE, CALL_NATIVE_TYPE, FORTRAN_NATIVE_TYPE,
      EXTERNAL_NATIVE_TYPE, arg, List.getD_cons_zero, List.getD_cons_succ, List.drop_succ_cons,
      List.drop_zero, decay_formattedBuffer]
    split_ifs <;> simp
  · intro v
    simp only [call_R_ExternalPtrAddrFn, call_R_MakeExternalPtrFn, call_Rf_mkString, call_Rf_mkChar,
      call_Rf_mkCharCE, call_Rf_mkCharLen, call_Rvsnprintf, call_Rf_errorcall,
      call_Rf_warningcall, call_Rf_warning, call_Rprintf, call_Rf_error, call_REprintf,
      call_Rf_allocVector3, call_R_ProtectWithIndex, call_Rf_translateChar,
      call_Rf_translateChar0, call_Rf_translateCharUTF8, call_R_lsInternal, call_XLENGTH,
      call_R_ToplevelExec, call_Rf_isS4, call_R_tryEvalInternal, call_R_tryEval,
      call_R_tryEvalSilent, call_R_ClearExternalPtr, call_R_check_class_etc,
      call_R_ReleaseObject, call_R_registerRoutines, call_Rdynload_setSymbol, R_ExternalPtrAddrFn, R_ExternalPtrAddr, R_MakeExternalPtrFn,
      R_MakeExternalPtr, Rf_mkString, Rf_mkChar, Rf_mkCharCE, Rf_mkCharLen, Rf_mkCharLenCE,
      ScalarString, Rf_ScalarString, Rf_errorcall, Rf_warningcall, Rf_warning, Rprintf, Rf_error,
      REprintf, Rf_allocVector3, R_ProtectWithIndex, Rf_translateChar, Rf_translateChar0,
      Rf_translateCharUTF8, CHAR, R_CHAR, R_lsInternal, R_lsInternal3, XLENGTH, LENGTH,
      R_ToplevelExec, Rf_isS4, IS_S4_OBJECT, R_tryEvalInternal, R_tryEval, R_tryEvalSilent,
      R_ClearExternalPtr, R_SetExternalPtrAddr, R_check_class_etc, R_check_class_etc_helper,
      R_ReleaseObject, R_registerRoutines, Rdynload_setSymbol, retVoid_eq, enter_apply,
      bind_apply, pure_apply, ite_run, andThen_ret, andThen_stop, andThen_ite, callbacks_apply,
      checkExitCall_apply, unimplemented_apply, UNIMPLEMENTED_apply, ensure_string_apply,
      ensure_function_apply, ensure_truffle_chararray_n_apply, crash_apply, exit_apply,
      store_apply, callNative_apply, callbacksNonNull_apply, uninit_apply, BUFSIZE,
      Rvsnprintf_apply, strlen_apply, tableOf_apply, countNamed_apply, readRoutine_apply,
      List.nil_append, List.append_assoc, List.cons_append, List.singleton_append, NULL, TRUE,
      FALSE, CE_NATIVE, C_NATIVE_TYPE, CALL_NATIVE_TYPE, FORTRAN_NATIVE_TYPE,
      EXTERNAL_NATIVE_TYPE, arg, List.getD_cons_zero, List.getD_cons_succ, List.drop_succ_cons,
      List.drop_zero, decay_formattedBuffer]
    split_ifs <;> simp

/-- C13.  For every C string `x` shorter than `2^31` bytes, every encoding
`e` and every length `n`: `Rf_mkChar(x)` has the same run (trace and result) as
`Rf_mkCharLenCE(x, strlen(x), CE_NATIVE)`, `Rf_mkCharCE(x, e)` the same as
`Rf_mkCharLenCE(x, strlen(x), e)`, and `Rf_mkCharLen(x, n)` the same as
`Rf_mkCharLenCE(x, n, CE_NATIVE)`; and in `Rf_mkCharLenCE` the byte count given
to `ensure_truffle_chararray_n` is the `len` given to the callback. -/
theorem C13_mkChar_family (env : Env) (bytes : List Nat) (e n x len enc : Val)
    (hlen : (bytes.takeWhile (fun b => b != 0)).length < 2147483648) :
    call env .Rf_mkChar [.cstr bytes] =
      call env .Rf_mkCharLenCE
        [.cstr bytes, .int (bytes.takeWhile (fun b => b != 0)).length, CE_NATIVE] ∧
    call env .Rf_mkCharCE [.cstr bytes, e] =
      call env .Rf_mkCharLenCE
        [.cstr bytes, .int (bytes.takeWhile (fun b => b != 0)).length, e] ∧
    call env .Rf_mkCharLen [x, n] = call env .Rf_mkCharLenCE [x, n, CE_NATIVE] ∧
    call env .Rf_mkCharLenCE [x, len, enc] =
      forwardM .Rf_mkCharLenCE .Rf_mkCharLenCE_x
        [env.ensure_truffle_chararray_n x len, len, enc] true .result env .Rf_mkCharLenCE [] := by
  have hconv : toInt32 (bytes.takeWhile (fun b => b != 0)).length =
      ((bytes.takeWhile (fun b => b != 0)).length : Int) := by
    unfold toInt32
    have hmod : (bytes.takeWhile (fun b => b != 0)).length % 4294967296 =
        (bytes.takeWhile (fun b => b != 0)).length := Nat.mod_eq_of_lt (by omega)
    rw [hmod, if_pos hlen]
    rfl
  have hcall : ∀ (p q r : Val), call env .Rf_mkCharLenCE [p, q, r] =
      Rf_mkCharLenCE p q r env .Rf_mkCharLenCE [] := fun _ _ _ => rfl
  refine ⟨?_, ?_, ?_, rfl⟩
  · rw [hcall, call_Rf_mkChar]
    simp only [Rf_mkChar, enter_apply, bind_apply, strlen, pure_apply, andThen_ret, arg,
      List.getD_cons_zero, hconv, Rf_mkCharLenCE, andThen_pure]
  · rw [hcall, call_Rf_mkCharCE]
    simp only [Rf_mkCharCE, enter_apply, bind_apply, strlen, pure_apply, andThen_ret, arg,
      List.getD_cons_zero, List.getD_cons_succ, hconv, Rf_mkCharLenCE, andThen_pure]
  · rw [hcall, call_Rf_mkCharLen]
    simp only [Rf_mkCharLen, enter_apply, bind_apply, pure_apply, arg,
      List.getD_cons_zero, List.getD_cons_succ, Rf_mkCharLenCE, andThen_pure]

/-- Witness of C13: the two-byte string "hi". -/
theorem C13_mkChar_family_witness :
    call demoEnv .Rf_mkChar [.cstr [104, 105]] =
      call demoEnv .Rf_mkCharLenCE [.cstr [104, 105], .int 2, CE_NATIVE] :=
  (C13_mkChar_family demoEnv [104, 105] (.int 0) (.int 0) .null (.int 0) (.int 0)
    (by decide)).1

/-- C15.  For every `nstOrd` in 0..3 and every index within the table at
`routinesAddr`, `Rdynload_setSymbol` forwards to slot `setDotSymbolValues_x`
exactly `(info, ensure_string(name), ensure_function(fun), numArgs)` of the
entry at that index, runs the exit check and returns the callback result.  For
every `nstOrd` outside 0..3 no case of the switch assigns `name`, `fun` or
`numArgs`: the forwarded values are the indeterminate ones, whatever the table
and the index. -/
theorem C15_Rdynload_setSymbol (env : Env) (info : Val) (tbl : List MethodDef) (i : Nat)
    (d : MethodDef) (hd : tbl.get? i = some d) :
    (∀ nstOrd : Val, nstOrd = C_NATIVE_TYPE ∨ nstOrd = CALL_NATIVE_TYPE ∨
        nstOrd = FORTRAN_NATIVE_TYPE ∨ nstOrd = EXTERNAL_NATIVE_TYPE →
      call env .Rdynload_setSymbol [info, nstOrd, .routines tbl, .int i] =
        forwardM .Rdynload_setSymbol .setDotSymbolValues_x
          [info,
           env.ensure_string (match d.name with
             | some b => Val.cstr b
             | none => Val.null),
           env.ensure_function (.ptr d.funPtr), .int d.numArgs]
          true .result env .Rdynload_setSymbol []) ∧
    (∀ nstOrd routinesAddr index : Val, nstOrd ≠ C_NATIVE_TYPE → nstOrd ≠ CALL_NATIVE_TYPE →
        nstOrd ≠ FORTRAN_NATIVE_TYPE → nstOrd ≠ EXTERNAL_NATIVE_TYPE →
      call env .Rdynload_setSymbol [info, nstOrd, routinesAddr, index] =
        forwardM .Rdynload_setSymbol .setDotSymbolValues_x
          [info, env.ensure_string .indet, env.ensure_function .indet, .indet]
          true .result env .Rdynload_setSymbol []) := by
  have hr : routineOf (.routines tbl) (.int i) =
      some (match d.name with
        | some b => Val.cstr b
        | none => Val.null, Val.ptr d.funPtr, Val.int d.numArgs) := by
    show Option.map _ (tbl.get? i) = _
    rw [hd]
    rfl
  constructor
  · intro nstOrd h
    rw [call_Rdynload_setSymbol, forwardM_run]
    rcases h with rfl | rfl | rfl | rfl <;>
      simp only [Rdynload_setSymbol, enter_apply, bind_apply, ite_run, readRoutine_apply,
        pure_apply, andThen_ite, andThen_ret, andThen_stop, arg, List.getD_cons_zero,
        List.getD_cons_succ, hr, Option.isSome_some, Option.getD_some, if_true,
        C_NATIVE_TYPE, CALL_NATIVE_TYPE, FORTRAN_NATIVE_TYPE, EXTERNAL_NATIVE_TYPE,
        ensure_string_apply, ensure_function_apply, callbacks_apply, checkExitCall_apply,
        RetSrc.eval, List.nil_append, List.append_assoc, List.singleton_append,
        List.cons_append] <;>
      split_ifs <;> rfl
  · intro nstOrd routinesAddr index h0 h1 h2 h3
    rw [call_Rdynload_setSymbol, forwardM_run]
    simp only [Rdynload_setSymbol, enter_apply, bind_apply, ite_run,
      pure_apply, andThen_ite, andThen_ret, andThen_stop, arg, List.getD_cons_zero,
      List.getD_cons_succ, h0, h1, h2, h3, if_false,
      ensure_string_apply, ensure_function_apply, callbacks_apply, checkExitCall_apply,
      RetSrc.eval, List.nil_append, List.append_assoc, List.singleton_append,
      List.cons_append, if_true]

/-- Witness of C15: entry 1 of a two-entry `.Call` table on the sample environment. -/
theorem C15_Rdynload_setSymbol_witness :
    call demoEnv .Rdynload_setSymbol
        [.ptr 1, .int 1, .routines [⟨some [102], 10, 0⟩, ⟨some [103], 20, 2⟩], .int 1] =
      ⟨.ret (.ptr 100),
        [.upcall .Rdynload_setSymbol .setDotSymbolValues_x
          [.ptr 1, .jstring [103], .ptr 20, .int 2] (.ptr 100),
         .exitCheck .Rdynload_setSymbol]⟩ := by
  have h := (C15_Rdynload_setSymbol demoEnv (.ptr 1) [⟨some [102], 10, 0⟩, ⟨some [103], 20, 2⟩] 1
    ⟨some [103], 20, 2⟩ rfl).1 (.int 1) (Or.inr (Or.inl rfl))
  exact h.trans rfl

/-- C14.  In `Rf_error`, `Rf_errorcall`, `Rf_warning`, `Rf_warningcall` and
`Rprintf` the local buffer has 8192 bytes and `Rvsnprintf` is given the size
8191.  For every fully formatted output `s`: `Rvsnprintf` returns normally, so
no write falls outside the buffer (the indices written are those up to
`min(|s|, 8190)` and the forced terminator at `size - 1 = 8190`); afterwards the
buffer holds the first `min(|s|, 8190)` bytes of `s` followed by a NUL; and the
only upcall of each of the five functions carries `ensure_string` of that
buffer, a C string that is `s` cut to 8190 bytes up to its first NUL. -/
theorem C14_message_fits_buffer (env : Env) (x format : Val) (ap : List Val) :
    (∀ (fn : Fn) (tr : List Event),
      Rvsnprintf ⟨8192, env.stackByte⟩ (BUFSIZE - 1) format ap env fn tr =
        ⟨.ret (.int (env.formatted format ap).length, formattedBuffer env format ap), tr⟩) ∧
    BUFSIZE = 8192 ∧ sizeMinusOne (BUFSIZE - 1) = 8190 ∧
    (formattedBuffer env format ap).size = 8192 ∧
    (∀ j, j < min (env.formatted format ap).length 8190 →
      (formattedBuffer env format ap).byte j = (env.formatted format ap).getD j 0) ∧
    (formattedBuffer env format ap).byte (min (env.formatted format ap).length 8190) = 0 ∧
    decay (formattedBuffer env format ap) =
      .cstr (((env.formatted format ap).take 8190).takeWhile (fun b => b != 0)) ∧
    upcalls (call env .Rf_error (format :: ap)).trace =
      (if env.callbacksLoaded then
        [.upcall .Rf_error .Rf_error_x
          [env.ensure_string (decay (formattedBuffer env format ap))]
          (env.callback [] .Rf_error_x
            [env.ensure_string (decay (formattedBuffer env format ap))])]
      else []) ∧
    upcalls (call env .Rf_errorcall (x :: format :: ap)).trace =
      (if env.callbacksLoaded then
        [.upcall .Rf_errorcall .Rf_errorcall_x
          [x, env.ensure_string (decay (formattedBuffer env format ap))]
          (env.callback [] .Rf_errorcall_x
            [x, env.ensure_string (decay (formattedBuffer env format ap))])]
      else []) ∧
    call env .Rf_warning (format :: ap) =
      (if env.callbacksLoaded then
        ⟨.ret .void, [.upcall .Rf_warning .Rf_warning_x
          [env.ensure_string (decay (formattedBuffer env format ap))]
          (env.callback [] .Rf_warning_x
            [env.ensure_string (decay (formattedBuffer env format ap))])]⟩
      else ⟨.stop .crashed, []⟩) ∧
    call env .Rf_warningcall (x :: format :: ap) =
      (if env.callbacksLoaded then
        ⟨.ret .void, [.upcall .Rf_warningcall .Rf_warningcall_x
          [x, env.ensure_string (decay (formattedBuffer env format ap))]
          (env.callback [] .Rf_warningcall_x
            [x, env.ensure_string (decay (formattedBuffer env format ap))])]⟩
      else ⟨.stop .crashed, []⟩) ∧
    call env .Rprintf (format :: ap) =
      (if env.callbacksLoaded then
        ⟨.ret .void, [.upcall .Rprintf .Rprintf_x
          [env.ensure_string (decay (formattedBuffer env format ap))]
          (env.callback [] .Rprintf_x
            [env.ensure_string (decay (formattedBuffer env format ap))])]⟩
      else ⟨.stop .crashed, []⟩) := by
  refine ⟨fun fn tr => Rvsnprintf_apply env format ap fn tr, rfl, rfl, rfl, ?_, ?_,
    decay_formattedBuffer env format ap, ?_, ?_, ?_, ?_, ?_⟩
  · intro j hj
    have hj3 : j ≠ 8190 := by omega
    simp only [formattedBuffer, BUFSIZE, hj3, if_false, hj, if_true]
  · simp only [formattedBuffer, BUFSIZE]
    split_ifs <;> first | rfl | omega
  · simp only [call_R_ExternalPtrAddrFn, call_R_MakeExternalPtrFn, call_Rf_mkString, call_Rf_mkChar,
      call_Rf_mkCharCE, call_Rf_mkCharLen, call_Rvsnprintf, call_Rf_errorcall,
      call_Rf_warningcall, call_Rf_warning, call_Rprintf, call_Rf_error, call_REprintf,
      call_Rf_allocVector3, call_R_ProtectWithIndex, call_Rf_translateChar,
      call_Rf_translateChar0, call_Rf_translateCharUTF8, call_R_lsInternal, call_XLENGTH,
      call_R_ToplevelExec, call_Rf_isS4, call_R_tryEvalInternal, call_R_tryEval,
      call_R_tryEvalSilent, call_R_ClearExternalPtr, call_R_check_class_etc,
      call_R_ReleaseObject, call_R_registerRoutines, call_Rdynload_setSymbol, R_ExternalPtrAddrFn, R_ExternalPtrAddr, R_MakeExternalPtrFn,
      R_MakeExternalPtr, Rf_mkString, Rf_mkChar, Rf_mkCharCE, Rf_mkCharLen, Rf_mkCharLenCE,
      ScalarString, Rf_ScalarString, Rf_errorcall, Rf_warningcall, Rf_warning, Rprintf, Rf_error,
      REprintf, Rf_allocVector3, R_ProtectWithIndex, Rf_translateChar, Rf_translateChar0,
      Rf_translateCharUTF8, CHAR, R_CHAR, R_lsInternal, R_lsInternal3, XLENGTH, LENGTH,
      R_ToplevelExec, Rf_isS4, IS_S4_OBJECT, R_tryEvalInternal, R_tryEval, R_tryEvalSilent,
      R_ClearExternalPtr, R_SetExternalPtrAddr, R_check_class_etc, R_check_class_etc_helper,
      R_ReleaseObject, R_registerRoutines, Rdynload_setSymbol, retVoid_eq, enter_apply,
      bind_apply, pure_apply, ite_run, andThen_ret, andThen_stop, andThen_ite, callbacks_apply,
      checkExitCall_apply, unimplemented_apply, UNIMPLEMENTED_apply, ensure_string_apply,
      ensure_function_apply, ensure_truffle_chararray_n_apply, crash_apply, exit_apply,
      store_apply, callNative_apply, callbacksNonNull_apply, uninit_apply, BUFSIZE,
      Rvsnprintf_apply, strlen_apply, tableOf_apply, countNamed_apply, readRoutine_apply,
      List.nil_append, List.append_assoc, List.cons_append, List.singleton_append, NULL, TRUE,
      FALSE, CE_NATIVE, C_NATIVE_TYPE, CALL_NATIVE_TYPE, FORTRAN_NATIVE_TYPE,
      EXTERNAL_NATIVE_TYPE, arg, List.getD_cons_zero, List.getD_cons_succ, List.drop_succ_cons,
      List.drop_zero, decay_formattedBuffer]
    split_ifs <;> simp [upcalls, Event.isUpcall]
  · simp only [call_R_ExternalPtrAddrFn, call_R_MakeExternalPtrFn, call_Rf_mkString, call_Rf_mkChar,
      call_Rf_mkCharCE, call_Rf_mkCharLen, call_Rvsnprintf, call_Rf_errorcall,
      call_Rf_warningcall, call_Rf_warning, call_Rprintf, call_Rf_error, call_REprintf,
      call_Rf_allocVector3, call_R_ProtectWithIndex, call_Rf_translateChar,
      call_Rf_translateChar0, call_Rf_translateCharUTF8, call_R_lsInternal, call_XLENGTH,
      call_R_ToplevelExec, call_Rf_isS4, call_R_tryEvalInternal, call_R_tryEval,
      call_R_tryEvalSilent, call_R_ClearExternalPtr, call_R_check_class_etc,
      call_R_ReleaseObject, call_R_registerRoutines, call_Rdynload_setSymbol, R_ExternalPtrAddrFn, R_ExternalPtrAddr, R_MakeExternalPtrFn,
      R_MakeExternalPtr, Rf_mkString, Rf_mkChar, Rf_mkCharCE, Rf_mkCharLen, Rf_mkCharLenCE,
      ScalarString, Rf_ScalarString, Rf_errorcall, Rf_warningcall, Rf_warning, Rprintf, Rf_error,
      REprintf, Rf_allocVector3, R_ProtectWithIndex, Rf_translateChar, Rf_translateChar0,
      Rf_translateCharUTF8, CHAR, R_CHAR, R_lsInternal, R_lsInternal3, XLENGTH, LENGTH,
      R_ToplevelExec, Rf_isS4, IS_S4_OBJECT, R_tryEvalInternal, R_tryEval, R_tryEvalSilent,
      R_ClearExternalPtr, R_SetExternalPtrAddr, R_check_class_etc, R_check_class_etc_helper,
      R_ReleaseObject, R_registerRoutines, Rdynload_setSymbol, retVoid_eq, enter_apply,
      bind_apply, pure_apply, ite_run, andThen_ret, andThen_stop, andThen_ite, callbacks_apply,
      checkExitCall_apply, unimplemented_apply, UNIMPLEMENTED_apply, ensure_string_apply,
      ensure_function_apply, ensure_truffle_chararray_n_apply, crash_apply, exit_apply,
      store_apply, callNative_apply, callbacksNonNull_apply, uninit_apply, BUFSIZE,
      Rvsnprintf_apply, strlen_apply, tableOf_apply, countNamed_apply, readRoutine_apply,
      List.nil_append, List.append_assoc, List.cons_append, List.singleton_append, NULL, TRUE,
      FALSE, CE_NATIVE, C_NATIVE_TYPE, CALL_NATIVE_TYPE, FORTRAN_NATIVE_TYPE,
      EXTERNAL_NATIVE_TYPE, arg, List.getD_cons_zero, List.getD_cons_succ, List.drop_succ_cons,
      List.drop_zero, decay_formattedBuffer]
    split_ifs <;> simp [upcalls, Event.isUpcall]
  · simp only [call_R_ExternalPtrAddrFn, call_R_MakeExternalPtrFn, call_Rf_mkString, call_Rf_mkChar,
      call_Rf_mkCharCE, call_Rf_mkCharLen, call_Rvsnprintf, call_Rf_errorcall,
      call_Rf_warningcall, call_Rf_warning, call_Rprintf, call_Rf_error, call_REprintf,
      call_Rf_allocVector3, call_R_ProtectWithIndex, call_Rf_translateChar,
      call_Rf_translateChar0, call_Rf_translateCharUTF8, call_R_lsInternal, call_XLENGTH,
      call_R_ToplevelExec, call_Rf_isS4, call_R_tryEvalInternal, call_R_tryEval,
      call_R_tryEvalSilent, call_R_ClearExternalPtr, call_R_check_class_etc,
      call_R_ReleaseObject, call_R_registerRoutines, call_Rdynload_setSymbol, R_ExternalPtrAddrFn, R_ExternalPtrAddr, R_MakeExternalPtrFn,
      R_MakeExternalPtr, Rf_mkString, Rf_mkChar, Rf_mkCharCE, Rf_mkCharLen, Rf_mkCharLenCE,
      ScalarString, Rf_ScalarString, Rf_errorcall, Rf_warningcall, Rf_warning, Rprintf, Rf_error,
      REprintf, Rf_allocVector3, R_ProtectWithIndex, Rf_translateChar, Rf_translateChar0,
      Rf_translateCharUTF8, CHAR, R_CHAR, R_lsInternal, R_lsInternal3, XLENGTH, LENGTH,
      R_ToplevelExec, Rf_isS4, IS_S4_OBJECT, R_tryEvalInternal, R_tryEval, R_tryEvalSilent,
      R_ClearExternalPtr, R_SetExternalPtrAddr, R_check_class_etc, R_check_class_etc_helper,
      R_ReleaseObject, R_registerRoutines, Rdynload_setSymbol, retVoid_eq, enter_apply,
      bind_apply, pure_apply, ite_run, andThen_ret, andThen_stop, andThen_ite, callbacks_apply,
      checkExitCall_apply, unimplemented_apply, UNIMPLEMENTED_apply, ensure_string_apply,
      ensure_function_apply, ensure_truffle_chararray_n_apply, crash_apply, exit_apply,
      store_apply, callNative_apply, callbacksNonNull_apply, uninit_apply, BUFSIZE,
      Rvsnprintf_apply, strlen_apply, tableOf_apply, countNamed_apply, readRoutine_apply,
      List.nil_append, List.append_assoc, List.cons_append, List.singleton_append, NULL, TRUE,
      FALSE, CE_NATIVE, C_NATIVE_TYPE, CALL_NATIVE_TYPE, FORTRAN_NATIVE_TYPE,
      EXTERNAL_NATIVE_TYPE, arg, List.getD_cons_zero, List.getD_cons_succ, List.drop_succ_cons,
      List.drop_zero, decay_formattedBuffer]
  · simp only [call_R_ExternalPtrAddrFn, call_R_MakeExternalPtrFn, call_Rf_mkString, call_Rf_mkChar,
      call_Rf_mkCharCE, call_Rf_mkCharLen, call_Rvsnprintf, call_Rf_errorcall,
      call_Rf_warningcall, call_Rf_warning, call_Rprintf, call_Rf_error, call_REprintf,
      call_Rf_allocVector3, call_R_ProtectWithIndex, call_Rf_translateChar,
      call_Rf_translateChar0, call_Rf_translateCharUTF8, call_R_lsInternal, call_XLENGTH,
      call_R_ToplevelExec, call_Rf_isS4, call_R_tryEvalInternal, call_R_tryEval,
      call_R_tryEvalSilent, call_R_ClearExternalPtr, call_R_check_class_etc,
      call_R_ReleaseObject, call_R_registerRoutines, call_Rdynload_setSymbol, R_ExternalPtrAddrFn, R_ExternalPtrAddr, R_MakeExternalPtrFn,
      R_MakeExternalPtr, Rf_mkString, Rf_mkChar, Rf_mkCharCE, Rf_mkCharLen, Rf_mkCharLenCE,
      ScalarString, Rf_ScalarString, Rf_errorcall, Rf_warningcall, Rf_warning, Rprintf, Rf_error,
      REprintf, Rf_allocVector3, R_ProtectWithIndex, Rf_translateChar, Rf_translateChar0,
      Rf_translateCharUTF8, CHAR, R_CHAR, R_lsInternal, R_lsInternal3, XLENGTH, LENGTH,
      R_ToplevelExec, Rf_isS4, IS_S4_OBJECT, R_tryEvalInternal, R_tryEval, R_tryEvalSilent,
      R_ClearExternalPtr, R_SetExternalPtrAddr, R_check_class_etc, R_check_class_etc_helper,
      R_ReleaseObject, R_registerRoutines, Rdynload_setSymbol, retVoid_eq, enter_apply,
      bind_apply, pure_apply, ite_run, andThen_ret, andThen_stop, andThen_ite, callbacks_apply,
      checkExitCall_apply, unimplemented_apply, UNIMPLEMENTED_apply, ensure_string_apply,
      ensure_function_apply, ensure_truffle_chararray_n_apply, crash_apply, exit_apply,
      store_apply, callNative_apply, callbacksNonNull_apply, uninit_apply, BUFSIZE,
      Rvsnprintf_apply, strlen_apply, tableOf_apply, countNamed_apply, readRoutine_apply,
      List.nil_append, List.append_assoc, List.cons_append, List.singleton_append, NULL, TRUE,
      FALSE, CE_NATIVE, C_NATIVE_TYPE, CALL_NATIVE_TYPE, FORTRAN_NATIVE_TYPE,
      EXTERNAL_NATIVE_TYPE, arg, List.getD_cons_zero, List.getD_cons_succ, List.drop_succ_cons,
      List.drop_zero, decay_formattedBuffer]
  · simp only [call_R_ExternalPtrAddrFn, call_R_MakeExternalPtrFn, call_Rf_mkString, call_Rf_mkChar,
      call_Rf_mkCharCE, call_Rf_mkCharLen, call_Rvsnprintf, call_Rf_errorcall,
      call_Rf_warningcall, call_Rf_warning, call_Rprintf, call_Rf_error, call_REprintf,
      call_Rf_allocVector3, call_R_ProtectWithIndex, call_Rf_translateChar,
      call_Rf_translateChar0, call_Rf_translateCharUTF8, call_R_lsInternal, call_XLENGTH,
      call_R_ToplevelExec, call_Rf_isS4, call_R_tryEvalInternal, call_R_tryEval,
      call_R_tryEvalSilent, call_R_ClearExternalPtr, call_R_check_class_etc,
      call_R_ReleaseObject, call_R_registerRoutines, call_Rdynload_setSymbol, R_ExternalPtrAddrFn, R_ExternalPtrAddr, R_MakeExternalPtrFn,
      R_MakeExternalPtr, Rf_mkString, Rf_mkChar, Rf_mkCharCE, Rf_mkCharLen, Rf_mkCharLenCE,
      ScalarString, Rf_ScalarString, Rf_errorcall, Rf_warningcall, Rf_warning, Rprintf, Rf_error,
      REprintf, Rf_allocVector3, R_ProtectWithIndex, Rf_translateChar, Rf_translateChar0,
      Rf_translateCharUTF8, CHAR, R_CHAR, R_lsInternal, R_lsInternal3, XLENGTH, LENGTH,
      R_ToplevelExec, Rf_isS4, IS_S4_OBJECT, R_tryEvalInternal, R_tryEval, R_tryEvalSilent,
      R_ClearExternalPtr, R_SetExternalPtrAddr, R_check_class_etc, R_check_class_etc_helper,
      R_ReleaseObject, R_registerRoutines, Rdynload_setSymbol, retVoid_eq, enter_apply,
      bind_apply, pure_apply, ite_run, andThen_ret, andThen_stop, andThen_ite, callbacks_apply,
      checkExitCall_apply, unimplemented_apply, UNIMPLEMENTED_apply, ensure_string_apply,
      ensure_function_apply, ensure_truffle_chararray_n_apply, crash_apply, exit_apply,
      store_apply, callNative_apply, callbacksNonNull_apply, uninit_apply, BUFSIZE,
      Rvsnprintf_apply, strlen_apply, tableOf_apply, countNamed_apply, readRoutine_apply,
      List.nil_append, List.append_assoc, List.cons_append, List.singleton_append, NULL, TRUE,
      FALSE, CE_NATIVE, C_NATIVE_TYPE, CALL_NATIVE_TYPE, FORTRAN_NATIVE_TYPE,
      EXTERNAL_NATIVE_TYPE, arg, List.getD_cons_zero, List.getD_cons_succ, List.drop_succ_cons,
      List.drop_zero, decay_formattedBuffer]

/-- C11, counterexample.  A `.C` table of `2^31 = 2147483648` named routines
followed by the NULL-named sentinel is terminated, but the counter of the loop
is an `int`: `num++` overflows at `2147483647`, the count 2147483648 is never
passed, and in the model of undefined behaviour no upcall is made. -/
theorem C11_count_overflows :
    terminated (.routines (List.replicate 2147483648 ⟨some [102], 1, 0⟩ ++ [⟨none, 0, 0⟩])) =
      true ∧
    entriesBefore (.routines (List.replicate 2147483648 ⟨some [102], 1, 0⟩ ++ [⟨none, 0, 0⟩])) =
      2147483648 ∧
    call demoEnv .R_registerRoutines
        [.ptr 1, .routines (List.replicate 2147483648 ⟨some [102], 1, 0⟩ ++ [⟨none, 0, 0⟩]),
          .null, .null, .null] = ⟨.stop .crashed, []⟩ := by
  have hf := firstUnnamed_replicate 2147483648 [102] 1 0 ⟨none, 0, 0⟩ rfl
  have hl := loopCount_of_first _ _ hf
  rw [if_neg (Nat.lt_irrefl _)] at hl
  have hsome : (firstUnnamed
      (List.replicate 2147483648 (⟨some [102], 1, 0⟩ : MethodDef) ++ [⟨none, 0, 0⟩])).isSome =
      true := by rw [hf]; rfl
  refine ⟨?_, ?_, ?_⟩
  · show List.any _ _ = true
    rw [← firstUnnamed_isSome]
    exact hsome
  · show List.length _ = _
    have h2 := firstUnnamed_getD
      (List.replicate 2147483648 (⟨some [102], 1, 0⟩ : MethodDef) ++ [⟨none, 0, 0⟩])
    rw [if_pos hsome, hf] at h2
    exact h2.symm
  · rw [R_registerRoutines_single, hl]
    rfl

/-- C11, amended.  When each of the four routine tables is either NULL or
terminated by a NULL-named entry with fewer than `2^31` entries before it,
`R_registerRoutines` makes one `registerRoutines_x` upcall per non-NULL table
and none for a NULL table, in the order C, `.Call`, Fortran, `.External` with
type ordinals 0, 1, 2, 3, passing `info`, the ordinal, the number of entries
preceding the first NULL-named entry, and the table itself; it makes no other
call and returns 1.  (With no callback table installed the first upcall is
undefined, so that the function returns only if all four tables are NULL.) -/
theorem C11_R_registerRoutines (env : Env) (info c1 c2 c3 c4 : Val)
    (h1 : c1 = .null ∨ (terminated c1 = true ∧ entriesBefore c1 < 2147483648))
    (h2 : c2 = .null ∨ (terminated c2 = true ∧ entriesBefore c2 < 2147483648))
    (h3 : c3 = .null ∨ (terminated c3 = true ∧ entriesBefore c3 < 2147483648))
    (h4 : c4 = .null ∨ (terminated c4 = true ∧ entriesBefore c4 < 2147483648)) :
    call env .R_registerRoutines [info, c1, c2, c3, c4] =
      if env.callbacksLoaded = true ∨ (c1 = .null ∧ c2 = .null ∧ c3 = .null ∧ c4 = .null) then
        ⟨.ret (.int 1),
          registration env info 3 c4 (registration env info 2 c3
            (registration env info 1 c2 (registration env info 0 c1 [])))⟩
      else ⟨.stop .crashed, []⟩ := by
  rw [call_R_registerRoutines, R_registerRoutines_eq]
  simp only [enter_apply, bind_apply, arg, List.getD_cons_zero, List.getD_cons_succ,
    C_NATIVE_TYPE, CALL_NATIVE_TYPE, FORTRAN_NATIVE_TYPE, EXTERNAL_NATIVE_TYPE,
    regBlock_spec env info _ _ _ h1, regBlock_spec env info _ _ _ h2,
    regBlock_spec env info _ _ _ h3, regBlock_spec env info _ _ _ h4,
    andThen_ite, andThen_ret, andThen_stop, pure_apply]
  by_cases hl : env.callbacksLoaded = true
  · simp only [hl, or_true, true_or, if_true]
  · by_cases e1 : c1 = .null <;> by_cases e2 : c2 = .null <;> by_cases e3 : c3 = .null <;>
      by_cases e4 : c4 = .null <;>
      simp [hl, e1, e2, e3, e4, registration]

/-- Witness of C11 on the sample environment: no C table, a `.Call` table with
two routines, no Fortran table, an empty `.External` table. -/
theorem C11_R_registerRoutines_witness :
    call demoEnv .R_registerRoutines
        [.ptr 1, .null, .routines [⟨some [102], 10, 0⟩, ⟨some [103], 20, 2⟩, ⟨none, 0, 0⟩],
          .null, .routines [⟨none, 0, 0⟩]] =
      ⟨.ret (.int 1),
        [.upcall .R_registerRoutines .registerRoutines_x
          [.ptr 1, .int 1, .int 2,
            .routines [⟨some [102], 10, 0⟩, ⟨some [103], 20, 2⟩, ⟨none, 0, 0⟩]] (.ptr 100),
         .upcall .R_registerRoutines .registerRoutines_x
          [.ptr 1, .int 3, .int 0, .routines [⟨none, 0, 0⟩]] (.ptr 101)]⟩ :=
  (C11_R_registerRoutines demoEnv (.ptr 1) .null
    (.routines [⟨some [102], 10, 0⟩, ⟨some [103], 20, 2⟩, ⟨none, 0, 0⟩]) .null
    (.routines [⟨none, 0, 0⟩]) (Or.inl rfl) (Or.inr ⟨rfl, by decide⟩) (Or.inl rfl)
    (Or.inr ⟨rfl, by decide⟩)).trans rfl

/-- C20, counterexample.  A table of `2^31 = 2147483648` named routines followed
by the NULL-named sentinel contains an entry whose name is NULL, yet the loop
does not yield the index of that entry: its counter is an `int`, and `num++`
at `2147483647` is signed overflow. -/
theorem C20_count_overflows :
    (⟨none, 0, 0⟩ : MethodDef) ∈
      List.replicate 2147483648 (⟨some [102], 1, 0⟩ : MethodDef) ++ [⟨none, 0, 0⟩] ∧
    countNamed (List.replicate 2147483648 ⟨some [102], 1, 0⟩ ++ [⟨none, 0, 0⟩]) 0
      demoEnv .R_registerRoutines [] = ⟨.stop .crashed, []⟩ := by
  have hf := firstUnnamed_replicate 2147483648 [102] 1 0 ⟨none, 0, 0⟩ rfl
  have hl := loopCount_of_first _ _ hf
  rw [if_neg (Nat.lt_irrefl _)] at hl
  refine ⟨List.mem_append_right _ (List.mem_singleton_self _), ?_⟩
  rw [countNamed_apply, hl]
  rfl

/-- C20, amended.  The counting loop of `R_registerRoutines`, for a table whose
entry at index `n` is the first with a NULL name, with `n` below `2^31`: it
terminates and yields `n`; it yields `n` whatever follows the entry at index
`n`, so no entry beyond the sentinel is read; and the upcall of
`R_registerRoutines` for that table carries the count `n`.  Whenever the loop
yields a count, that count is the least index whose name is NULL, so that for
a table with no NULL-named entry it yields none.  The loop has no bound other
than the sentinel and the range of its `int` counter: it passes over any
number, below `2^31`, of named entries. -/
theorem C20_counting_loop (env : Env) (info : Val) (tbl : List MethodDef) :
    (∀ (n : Nat) (d : MethodDef), tbl.get? n = some d → d.name = none →
      (∀ j e, j < n → tbl.get? j = some e → e.name ≠ none) → n < 2147483648 →
      (∀ (fn : Fn) (tr : List Event), countNamed tbl 0 env fn tr = ⟨.ret n, tr⟩) ∧
      (∀ (beyond : List MethodDef) (fn : Fn) (tr : List Event),
        countNamed (tbl.take (n + 1) ++ beyond) 0 env fn tr = ⟨.ret n, tr⟩) ∧
      call env .R_registerRoutines [info, .routines tbl, .null, .null, .null] =
        (if env.callbacksLoaded then
          ⟨.ret (.int 1), [.upcall .R_registerRoutines .registerRoutines_x
            [info, .int 0, .int n, .routines tbl]
            (env.callback [] .registerRoutines_x [info, .int 0, .int n, .routines tbl])]⟩
        else ⟨.stop .crashed, []⟩)) ∧
    (∀ (r : Nat) (fn : Fn) (tr tr1 : List Event),
      countNamed tbl 0 env fn tr = ⟨.ret r, tr1⟩ →
      tr1 = tr ∧ r < 2147483648 ∧ (∃ d, tbl.get? r = some d ∧ d.name = none) ∧
        ∀ j e, j < r → tbl.get? j = some e → e.name ≠ none) ∧
    (∀ (rest : List MethodDef) (fn : Fn) (tr : List Event),
      (∀ d ∈ tbl, d.name ≠ none) → tbl.length < 2147483648 →
      countNamed (tbl ++ rest) 0 env fn tr = countNamed rest tbl.length env fn tr) := by
  refine ⟨?_, ?_, ?_⟩
  · intro n d hd hnull hleast hn
    have hf : firstUnnamed tbl = some n := firstUnnamed_least tbl n d hd hnull hleast
    have hl : loopCount tbl = some n := by
      rw [loopCount_of_first tbl n hf, if_pos hn]
    refine ⟨?_, ?_, ?_⟩
    · intro fn tr
      rw [countNamed_apply, hl]
      rfl
    · intro beyond fn tr
      have hf2 := firstUnnamed_append _ beyond n (firstUnnamed_take tbl n hf)
      rw [countNamed_apply, loopCount_of_first _ n hf2, if_pos hn]
      rfl
    · rw [R_registerRoutines_single, hl]
      rfl
  · intro r fn tr tr1 h
    rw [countNamed_apply] at h
    by_cases hs : (loopCount tbl).isSome = true
    · rw [if_pos hs] at h
      have h1 : (loopCount tbl).getD 0 = r := by
        have := congrArg Run.outcome h
        simpa using this
      have h2 : tr = tr1 := congrArg Run.trace h
      have h3 := loopCount_getD tbl hs
      rw [loopCount_isSome] at hs
      simp only [Bool.and_eq_true, decide_eq_true_eq] at hs
      obtain ⟨k, hk⟩ := Option.isSome_iff_exists.mp hs.1
      have h4 : k = r := by
        rw [hk] at h3
        simpa [h1] using h3.symm
      subst h4
      have hb : k < 2147483648 := by
        have := hs.2
        rwa [hk] at this
      obtain ⟨hex, hleast⟩ := firstUnnamed_spec tbl k hk
      exact ⟨h2.symm, hb, hex, hleast⟩
    · rw [if_neg hs] at h
      have := congrArg Run.outcome h
      simp at this
  · intro rest fn tr hall hb
    have h := countNamed_append_named tbl rest 0 env fn tr hall (by omega)
    rw [Nat.zero_add] at h
    exact h

/-- Witness of C20: a table with two named routines and the sentinel at index 2,
followed by an entry that is never read. -/
theorem C20_counting_loop_witness :
    countNamed [⟨some [102], 10, 0⟩, ⟨some [103], 20, 2⟩, ⟨none, 0, 0⟩, ⟨some [104], 30, 1⟩] 0
        demoEnv .R_registerRoutines [] = ⟨.ret 2, []⟩ :=
  ((C20_counting_loop demoEnv (.ptr 1)
      [⟨some [102], 10, 0⟩, ⟨some [103], 20, 2⟩, ⟨none, 0, 0⟩, ⟨some [104], 30, 1⟩]).1
      2 ⟨none, 0, 0⟩ rfl rfl (by
        intro j e hj he
        have hcases : j = 0 ∨ j = 1 := by omega
        rcases hcases with rfl | rfl <;> cases he <;> simp) (by decide)).1 .R_registerRoutines []

/-- C2.  In every run of every function of the file, each call of
`checkExitCall()` comes right after an upcall made in the same function body: no
exit check is made before the first upcall, after a call that is not an upcall,
or twice in a row. -/
theorem C2_exit_check_follows_upcall (env : Env) (ep : Fn) (a : List Val) :
    guarded (call env ep a).trace = true := by
  rcases hk : kind ep with ⟨slot, args, checked, ret⟩ | ⟨slot, args, checked⟩ | msg | ret | _
  · rw [kind_run, hk]
    simp only [Kind.run]
    rw [forwardM_run]
    split_ifs <;> simp [guarded, guardedFrom]
  · rw [kind_run, hk]
    simp only [Kind.run]
    rw [forwardVoidM_run]
    split_ifs <;> simp [guarded, guardedFrom]
  · rw [kind_run, hk]; rfl
  · rw [kind_run, hk]; rfl
  · have hm := special_mem ep hk
    simp only [specialFns, List.mem_cons, List.mem_singleton, List.not_mem_nil, or_false] at hm
    clear hk
    rcases hm with rfl | rfl | rfl | rfl | rfl | rfl | rfl | rfl | rfl | rfl | rfl | rfl | rfl | rfl | rfl | rfl | rfl | rfl | rfl | rfl | rfl | rfl | rfl | rfl | rfl | rfl | rfl | rfl | rfl | rfl
    case inr.inr.inr.inr.inr.inr.inl =>
      rw [call_Rvsnprintf_trace]; rfl
    case inr.inr.inr.inr.inr.inr.inr.inr.inr.inr.inr.inr.inr.inr.inr.inr.inr.inr.inr.inr.inr.inr.inr.inr.inr.inr.inr.inr.inl =>
      obtain ⟨ext, h1, _, h3, _⟩ := R_registerRoutines_onlyReg env a
      rw [h1]
      exact guardedFrom_onlyUpcalls _ _ _ h3 none
    case inr.inr.inr.inr.inr.inr.inr.inr.inr.inr.inr.inr.inr.inr.inr.inr.inr.inr.inr.inr.inr.inr.inr.inr.inr.inr.inr.inr.inr =>
      rcases Rdynload_setSymbol_run env a with h | ⟨t, h⟩
      · rw [h]; rfl
      · rw [h, forwardM_run]
        split_ifs <;> simp [guarded, guardedFrom]
    all_goals
      simp only [call_R_ExternalPtrAddrFn, call_R_MakeExternalPtrFn, call_Rf_mkString, call_Rf_mkChar,
      call_Rf_mkCharCE, call_Rf_mkCharLen, call_Rvsnprintf, call_Rf_errorcall,
      call_Rf_warningcall, call_Rf_warning, call_Rprintf, call_Rf_error, call_REprintf,
      call_Rf_allocVector3, call_R_ProtectWithIndex, call_Rf_translateChar,
      call_Rf_translateChar0, call_Rf_translateCharUTF8, call_R_lsInternal, call_XLENGTH,
      call_R_ToplevelExec, call_Rf_isS4, call_R_tryEvalInternal, call_R_tryEval,
      call_R_tryEvalSilent, call_R_ClearExternalPtr, call_R_check_class_etc,
      call_R_ReleaseObject, call_R_registerRoutines, call_Rdynload_setSymbol, R_ExternalPtrAddrFn, R_ExternalPtrAddr, R_MakeExternalPtrFn,
      R_MakeExternalPtr, Rf_mkString, Rf_mkChar, Rf_mkCharCE, Rf_mkCharLen, Rf_mkCharLenCE,
      ScalarString, Rf_ScalarString, Rf_errorcall, Rf_warningcall, Rf_warning, Rprintf, Rf_error,
      REprintf, Rf_allocVector3, R_ProtectWithIndex, Rf_translateChar, Rf_translateChar0,
      Rf_translateCharUTF8, CHAR, R_CHAR, R_lsInternal, R_lsInternal3, XLENGTH, LENGTH,
      R_ToplevelExec, Rf_isS4, IS_S4_OBJECT, R_tryEvalInternal, R_tryEval, R_tryEvalSilent,
      R_ClearExternalPtr, R_SetExternalPtrAddr, R_check_class_etc, R_check_class_etc_helper,
      R_ReleaseObject, R_registerRoutines, Rdynload_setSymbol, retVoid_eq, enter_apply,
      bind_apply, pure_apply, ite_run, andThen_ret, andThen_stop, andThen_ite, callbacks_apply,
      checkExitCall_apply, unimplemented_apply, UNIMPLEMENTED_apply, ensure_string_apply,
      ensure_function_apply, ensure_truffle_chararray_n_apply, crash_apply, exit_apply,
      store_apply, callNative_apply, callable_extfn, callbacksNonNull_apply, uninit_apply,
      BUFSIZE,
      Rvsnprintf_apply, strlen_apply, tableOf_apply, countNamed_apply, readRoutine_apply,
      List.nil_append, List.append_assoc, List.cons_append, List.singleton_append, NULL, TRUE,
      FALSE, CE_NATIVE, C_NATIVE_TYPE, CALL_NATIVE_TYPE, FORTRAN_NATIVE_TYPE,
      EXTERNAL_NATIVE_TYPE, arg]
      first
        | rfl
        | (split_ifs <;> simp [guarded, guardedFrom])

/-- C3 (code defect).  `SETCADDR`, `SETCADDDR` and `SETCAD4R` store the result of
their upcall in a local variable and return `NULL`: with a loaded callback table
each run is the single upcall followed by the return of `NULL`, whatever the
callback returned.  On the sample environment the callback returns the handle
100, `SETCADDR` returns `NULL`, and the sibling `SETCADR` returns the handle. -/
theorem C3_SETCADDR_returns_NULL :
    (∀ (env : Env) (x y : Val),
      call env .SETCADDR [x, y] =
        if env.callbacksLoaded then
          ⟨.ret .null, [.upcall .SETCADDR .SETCADDR_x [x, y]
            (env.callback [] .SETCADDR_x [x, y])]⟩
        else ⟨.stop .crashed, []⟩) ∧
    (∀ (env : Env) (x y : Val),
      call env .SETCADDDR [x, y] =
        if env.callbacksLoaded then
          ⟨.ret .null, [.upcall .SETCADDDR .SETCADDDR_x [x, y]
            (env.callback [] .SETCADDDR_x [x, y])]⟩
        else ⟨.stop .crashed, []⟩) ∧
    (∀ (env : Env) (x y : Val),
      call env .SETCAD4R [x, y] =
        if env.callbacksLoaded then
          ⟨.ret .null, [.upcall .SETCAD4R .SETCAD4R_x [x, y]
            (env.callback [] .SETCAD4R_x [x, y])]⟩
        else ⟨.stop .crashed, []⟩) ∧
    call demoEnv .SETCADDR [.ptr 1, .ptr 2] =
      ⟨.ret .null, [.upcall .SETCADDR .SETCADDR_x [.ptr 1, .ptr 2] (.ptr 100)]⟩ ∧
    call demoEnv .SETCADR [.ptr 1, .ptr 2] =
      ⟨.ret (.ptr 100), [.upcall .SETCADR .SETCADR_x [.ptr 1, .ptr 2] (.ptr 100),
        .exitCheck .SETCADR]⟩ := by
  refine ⟨?_, ?_, ?_, rfl, rfl⟩
  · intro env x y
    have h : call env .SETCADDR [x, y] =
        forwardM .SETCADDR .SETCADDR_x [x, y] false (.lit .null) env .SETCADDR [] := rfl
    rw [h, forwardM_run]
    simp only [RetSrc.eval, List.nil_append, Bool.false_eq_true, if_false]
  · intro env x y
    have h : call env .SETCADDDR [x, y] =
        forwardM .SETCADDDR .SETCADDDR_x [x, y] false (.lit .null) env .SETCADDDR [] := rfl
    rw [h, forwardM_run]
    simp only [RetSrc.eval, List.nil_append, Bool.false_eq_true, if_false]
  · intro env x y
    have h : call env .SETCAD4R [x, y] =
        forwardM .SETCAD4R .SETCAD4R_x [x, y] false (.lit .null) env .SETCAD4R [] := rfl
    rw [h, forwardM_run]
    simp only [RetSrc.eval, List.nil_append, Bool.false_eq_true, if_false]

/-- C4, counterexample.  `Rf_duplicate(x)` does not pass exactly its own
parameter: it adds the constant 1 as a second argument of the upcall. -/
theorem C4_Rf_duplicate_adds_flag :
    Fn.arity .Rf_duplicate = 1 ∧
    call demoEnv .Rf_duplicate [.ptr 1] =
      ⟨.ret (.ptr 100), [.upcall .Rf_duplicate .Rf_duplicate_x [.ptr 1, .int 1] (.ptr 100),
        .exitCheck .Rf_duplicate]⟩ ∧
    ¬ forwardsParams demoEnv .Rf_duplicate [.ptr 1]
      (.upcall .Rf_duplicate .Rf_duplicate_x [.ptr 1, .int 1] (.ptr 100)) := by
  refine ⟨rfl, rfl, ?_⟩
  intro h
  exact absurd h.1 (by decide)

/-- C4, amended.  For every function of the file other than the twenty listed
in `reshapingFns`, every upcall made in a run carries exactly the parameters
of the function, in declaration order: as many arguments as the function has
parameters, the `i`-th being the `i`-th parameter, unchanged or passed through
one of the `ensure_*` hooks. -/
theorem C4_params_forwarded (env : Env) (ep : Fn) (a : List Val) (h : ep ∉ reshapingFns) :
    ∀ e ∈ (call env ep a).trace, forwardsParams env ep a e := by
  rcases hk : kind ep with ⟨slot, args, checked, ret⟩ | ⟨slot, args, checked⟩ | msg | ret | _
  · have hp := (kind_paramsOk ep).resolve_left h
    rw [hk] at hp
    have hf := fun r => forwardsParams_of_paramsOk env ep a slot args r hp
    rw [kind_run, hk]
    simp only [Kind.run]
    rw [forwardM_run]
    intro e he
    split_ifs at he <;>
      simp only [List.nil_append, List.mem_cons, List.mem_singleton, List.not_mem_nil,
        or_false] at he <;>
      rcases he with rfl | rfl <;> first | exact hf _ | trivial
  · have hp := (kind_paramsOk ep).resolve_left h
    rw [hk] at hp
    have hf := fun r => forwardsParams_of_paramsOk env ep a slot args r hp
    rw [kind_run, hk]
    simp only [Kind.run]
    rw [forwardVoidM_run]
    intro e he
    split_ifs at he <;>
      simp only [List.nil_append, List.mem_cons, List.mem_singleton, List.not_mem_nil,
        or_false] at he <;>
      rcases he with rfl | rfl <;> first | exact hf _ | trivial
  · rw [kind_run, hk]
    intro e he
    simp only [Kind.run, List.mem_singleton] at he
    subst he
    trivial
  · rw [kind_run, hk]
    intro e he
    simp only [Kind.run, List.not_mem_nil] at he
  · have hm := special_mem ep hk
    simp only [specialFns, List.mem_cons, List.mem_singleton, List.not_mem_nil, or_false] at hm
    clear hk
    rcases hm with rfl | rfl | rfl | rfl | rfl | rfl | rfl | rfl | rfl | rfl | rfl | rfl | rfl | rfl | rfl | rfl | rfl | rfl | rfl | rfl | rfl | rfl | rfl | rfl | rfl | rfl | rfl | rfl | rfl | rfl
    case inr.inr.inr.inr.inr.inr.inl =>
      rw [call_Rvsnprintf_trace]
      intro e he
      exact absurd he (List.not_mem_nil e)
    all_goals
      first
        | exact absurd (by decide) h
        | (simp only [call_R_ExternalPtrAddrFn, call_R_MakeExternalPtrFn, call_Rf_mkString, call_Rf_mkChar,
      call_Rf_mkCharCE, call_Rf_mkCharLen, call_Rvsnprintf, call_Rf_errorcall,
      call_Rf_warningcall, call_Rf_warning, call_Rprintf, call_Rf_error, call_REprintf,
      call_Rf_allocVector3, call_R_ProtectWithIndex, call_Rf_translateChar,
      call_Rf_translateChar0, call_Rf_translateCharUTF8, call_R_lsInternal, call_XLENGTH,
      call_R_ToplevelExec, call_Rf_isS4, call_R_tryEvalInternal, call_R_tryEval,
      call_R_tryEvalSilent, call_R_ClearExternalPtr, call_R_check_class_etc,
      call_R_ReleaseObject, call_R_registerRoutines, call_Rdynload_setSymbol, R_ExternalPtrAddrFn, R_ExternalPtrAddr, R_MakeExternalPtrFn,
      R_MakeExternalPtr, Rf_mkString, Rf_mkChar, Rf_mkCharCE, Rf_mkCharLen, Rf_mkCharLenCE,
      ScalarString, Rf_ScalarString, Rf_errorcall, Rf_warningcall, Rf_warning, Rprintf, Rf_error,
      REprintf, Rf_allocVector3, R_ProtectWithIndex, Rf_translateChar, Rf_translateChar0,
      Rf_translateCharUTF8, CHAR, R_CHAR, R_lsInternal, R_lsInternal3, XLENGTH, LENGTH,
      R_ToplevelExec, Rf_isS4, IS_S4_OBJECT, R_tryEvalInternal, R_tryEval, R_tryEvalSilent,
      R_ClearExternalPtr, R_SetExternalPtrAddr, R_check_class_etc, R_check_class_etc_helper,
      R_ReleaseObject, R_registerRoutines, Rdynload_setSymbol, retVoid_eq, enter_apply,
      bind_apply, pure_apply, ite_run, andThen_ret, andThen_stop, andThen_ite, callbacks_apply,
      checkExitCall_apply, unimplemented_apply, UNIMPLEMENTED_apply, ensure_string_apply,
      ensure_function_apply, ensure_truffle_chararray_n_apply, crash_apply, exit_apply,
      store_apply, callNative_apply, callable_extfn, callbacksNonNull_apply, uninit_apply,
      BUFSIZE,
      Rvsnprintf_apply, strlen_apply, tableOf_apply, countNamed_apply, readRoutine_apply,
      List.nil_append, List.append_assoc, List.cons_append, List.singleton_append, NULL, TRUE,
      FALSE, CE_NATIVE, C_NATIVE_TYPE, CALL_NATIVE_TYPE, FORTRAN_NATIVE_TYPE,
      EXTERNAL_NATIVE_TYPE, arg]
           intro e he
           first
             | exact absurd he (List.not_mem_nil e)
             | (split_ifs at he <;>
                simp only [List.mem_cons, List.mem_singleton, List.not_mem_nil, or_false] at he <;>
                rcases he with rfl | rfl | rfl <;>
                first
                  | trivial
                  | (refine ⟨rfl, fun i hi => ?_⟩
                     have h4 : i < 4 := Nat.lt_of_lt_of_le hi (by decide)
                     interval_cases i <;>
                       first | exact Or.inl rfl | exact absurd hi (by decide))))

/-- Witness of C4: `Rf_install` passes its only parameter through `ensure_string`. -/
theorem C4_params_forwarded_witness :
    forwardsParams demoEnv .Rf_install [.cstr [120]]
      (.upcall .Rf_install .Rf_install_x [.jstring [120]] (.ptr 100)) :=
  C4_params_forwarded demoEnv .Rf_install [.cstr [120]] (by decide) _ (by decide)

/-- C5, counterexample.  `TRUELENGTH` reaches no callback slot, yet it does not
abort: on every input it makes no call at all and returns 0. -/
theorem C5_TRUELENGTH_returns :
    (∀ (env : Env) (a : List Val), call env .TRUELENGTH a = ⟨.ret (.int 0), []⟩) ∧
    (∀ (env : Env) (a : List Val), upcalls (call env .TRUELENGTH a).trace = []) ∧
    (call demoEnv .TRUELENGTH [.ptr 1]).outcome ≠ .stop .aborted := by
  refine ⟨fun _ _ => rfl, fun _ _ => rfl, by decide⟩

/-- C5, amended.  Every function of the file that is not `static`, makes no
upcall in any run, and is not one of the thirteen that return quietly
(`quietFns`), aborts on every input: its run is the single call of
`unimplemented` and it never returns to its caller. -/
theorem C5_stub_aborts (ep : Fn) (hpub : ep.isStatic = false) (hquiet : ep ∉ quietFns)
    (hno : ∀ (env : Env) (a : List Val), upcalls (call env ep a).trace = []) :
    ∀ (env : Env) (a : List Val),
      ∃ msg, call env ep a = ⟨.stop .aborted, [.unimplemented ep msg]⟩ := by
  intro env a
  rcases hk : kind ep with ⟨slot, args, checked, ret⟩ | ⟨slot, args, checked⟩ | msg | ret | _
  · exfalso
    have h := hno demoEnv []
    rw [kind_run, hk] at h
    simp only [Kind.run] at h
    rw [forwardM_run] at h
    have hl : demoEnv.callbacksLoaded = true := rfl
    have he : ∀ t, demoEnv.exitRequested t = false := fun _ => rfl
    simp only [hl, he, if_true, Bool.false_eq_true, if_false] at h
    cases checked <;> simp [upcalls, Event.isUpcall] at h
  · exfalso
    have h := hno demoEnv []
    rw [kind_run, hk] at h
    simp only [Kind.run] at h
    rw [forwardVoidM_run] at h
    have hl : demoEnv.callbacksLoaded = true := rfl
    have he : ∀ t, demoEnv.exitRequested t = false := fun _ => rfl
    simp only [hl, he, if_true, Bool.false_eq_true, if_false] at h
    cases checked <;> simp [upcalls, Event.isUpcall] at h
  · exact ⟨msg, by rw [kind_run, hk]; rfl⟩
  · exact absurd (kind_noop_quiet ep (by rw [hk]; rfl)) hquiet
  · have hm := special_mem ep hk
    simp only [specialFns, List.mem_cons, List.mem_singleton, List.not_mem_nil, or_false] at hm
    clear hk
    exfalso
    rcases hm with rfl | rfl | rfl | rfl | rfl | rfl | rfl | rfl | rfl | rfl | rfl | rfl | rfl | rfl | rfl | rfl | rfl | rfl | rfl | rfl | rfl | rfl | rfl | rfl | rfl | rfl | rfl | rfl | rfl | rfl
    all_goals
      first
        | exact absurd hpub (by decide)
        | exact hquiet (by decide)
        | exact absurd (hno demoEnv []) (by decide)
        | exact absurd (hno demoEnv [.cstr []]) (by decide)
        | exact absurd (hno demoEnv [.indet, .indet, .null]) (by decide)
        | exact absurd (hno demoEnv [.indet, .routines [⟨none, 0, 0⟩]]) (by decide)

/-- Witness of C5: `R_IsPackageEnv`, a stub that passes its own name. -/
theorem C5_stub_aborts_witness :
    ∃ msg, call demoEnv .R_IsPackageEnv [.ptr 1] =
      ⟨.stop .aborted, [.unimplemented .R_IsPackageEnv msg]⟩ :=
  C5_stub_aborts .R_IsPackageEnv rfl (by decide) (fun _ _ => rfl) demoEnv [.ptr 1]

/-- C7, counterexample.  `Rf_mkString("hi")` makes two upcalls: one through
`Rf_mkChar` to slot `Rf_mkCharLenCE_x`, one through `ScalarString` to slot
`Rf_ScalarString_x`. -/
theorem C7_Rf_mkString_two_upcalls :
    upcalls (call demoEnv .Rf_mkString [.cstr [104, 105]]).trace =
      [.upcall .Rf_mkCharLenCE .Rf_mkCharLenCE_x [.cstr [104, 105], .int 2, .int 0] (.ptr 100),
       .upcall .Rf_ScalarString .Rf_ScalarString_x [.ptr 100] (.ptr 102)] ∧
    ¬ (upcalls (call demoEnv .Rf_mkString [.cstr [104, 105]]).trace).length ≤ 1 := by
  constructor
  · rfl
  · decide

/-- C7, amended.  Every run of every function of the file makes at most one
upcall, except that `Rf_mkString` and `R_ToplevelExec` make at most two and
`R_registerRoutines` at most four (one per routine table). -/
theorem C7_upcall_bound (env : Env) (ep : Fn) (a : List Val) :
    (upcalls (call env ep a).trace).length ≤ upcallBound ep := by
  have hb : 1 ≤ upcallBound ep := by cases ep <;> decide
  rcases hk : kind ep with ⟨slot, args, checked, ret⟩ | ⟨slot, args, checked⟩ | msg | ret | _
  · rw [kind_run, hk]
    simp only [Kind.run]
    rw [forwardM_run]
    split_ifs <;> simp [upcalls, Event.isUpcall] <;> omega
  · rw [kind_run, hk]
    simp only [Kind.run]
    rw [forwardVoidM_run]
    split_ifs <;> simp [upcalls, Event.isUpcall] <;> omega
  · rw [kind_run, hk]; simp [Kind.run, upcalls, Event.isUpcall]
  · rw [kind_run, hk]; simp [Kind.run, upcalls, Event.isUpcall]
  · have hm := special_mem ep hk
    simp only [specialFns, List.mem_cons, List.mem_singleton, List.not_mem_nil, or_false] at hm
    clear hk hb
    rcases hm with rfl | rfl | rfl | rfl | rfl | rfl | rfl | rfl | rfl | rfl | rfl | rfl | rfl | rfl | rfl | rfl | rfl | rfl | rfl | rfl | rfl | rfl | rfl | rfl | rfl | rfl | rfl | rfl | rfl | rfl
    case inr.inr.inr.inr.inr.inr.inl =>
      rw [call_Rvsnprintf_trace]; decide
    case inr.inr.inr.inr.inr.inr.inr.inr.inr.inr.inr.inr.inr.inr.inr.inr.inr.inr.inr.inr.inr.inr.inr.inr.inr.inr.inr.inr.inl =>
      obtain ⟨ext, h1, h2, _, _⟩ := R_registerRoutines_onlyReg env a
      rw [h1]
      exact le_trans (List.length_filter_le _ _) (by simpa using h2)
    case inr.inr.inr.inr.inr.inr.inr.inr.inr.inr.inr.inr.inr.inr.inr.inr.inr.inr.inr.inr.inr.inr.inr.inr.inr.inr.inr.inr.inr =>
      rcases Rdynload_setSymbol_run env a with h | ⟨t, h⟩
      · rw [h]; decide
      · rw [h, forwardM_run]
        split_ifs <;> simp [upcalls, Event.isUpcall, upcallBound]
    all_goals
      simp only [call_R_ExternalPtrAddrFn, call_R_MakeExternalPtrFn, call_Rf_mkString, call_Rf_mkChar,
      call_Rf_mkCharCE, call_Rf_mkCharLen, call_Rvsnprintf, call_Rf_errorcall,
      call_Rf_warningcall, call_Rf_warning, call_Rprintf, call_Rf_error, call_REprintf,
      call_Rf_allocVector3, call_R_ProtectWithIndex, call_Rf_translateChar,
      call_Rf_translateChar0, call_Rf_translateCharUTF8, call_R_lsInternal, call_XLENGTH,
      call_R_ToplevelExec, call_Rf_isS4, call_R_tryEvalInternal, call_R_tryEval,
      call_R_tryEvalSilent, call_R_ClearExternalPtr, call_R_check_class_etc,
      call_R_ReleaseObject, call_R_registerRoutines, call_Rdynload_setSymbol, R_ExternalPtrAddrFn, R_ExternalPtrAddr, R_MakeExternalPtrFn,
      R_MakeExternalPtr, Rf_mkString, Rf_mkChar, Rf_mkCharCE, Rf_mkCharLen, Rf_mkCharLenCE,
      ScalarString, Rf_ScalarString, Rf_errorcall, Rf_warningcall, Rf_warning, Rprintf, Rf_error,
      REprintf, Rf_allocVector3, R_ProtectWithIndex, Rf_translateChar, Rf_translateChar0,
      Rf_translateCharUTF8, CHAR, R_CHAR, R_lsInternal, R_lsInternal3, XLENGTH, LENGTH,
      R_ToplevelExec, Rf_isS4, IS_S4_OBJECT, R_tryEvalInternal, R_tryEval, R_tryEvalSilent,
      R_ClearExternalPtr, R_SetExternalPtrAddr, R_check_class_etc, R_check_class_etc_helper,
      R_ReleaseObject, R_registerRoutines, Rdynload_setSymbol, retVoid_eq, enter_apply,
      bind_apply, pure_apply, ite_run, andThen_ret, andThen_stop, andThen_ite, callbacks_apply,
      checkExitCall_apply, unimplemented_apply, UNIMPLEMENTED_apply, ensure_string_apply,
      ensure_function_apply, ensure_truffle_chararray_n_apply, crash_apply, exit_apply,
      store_apply, callNative_apply, callable_extfn, callbacksNonNull_apply, uninit_apply,
      BUFSIZE,
      Rvsnprintf_apply, strlen_apply, tableOf_apply, countNamed_apply, readRoutine_apply,
      List.nil_append, List.append_assoc, List.cons_append, List.singleton_append, NULL, TRUE,
      FALSE, CE_NATIVE, C_NATIVE_TYPE, CALL_NATIVE_TYPE, FORTRAN_NATIVE_TYPE,
      EXTERNAL_NATIVE_TYPE, arg]
      first
        | decide
        | (split_ifs <;> simp [upcalls, Event.isUpcall, upcallBound])

/-- C10.  Each slot of the callback table is indexed from the body of one
function only, except `Rf_duplicate_x`, which `Rf_duplicate` and
`Rf_shallow_duplicate` share, passing the flag 1 and 0.  The functions
`SET_BODY`, `SET_CLOENV`, `SETCADDR`, `SETCADDDR` and `SETCAD4R`, which borrow
the callback type of another function for the cast, index the slots
`SET_BODY_x`, `SET_CLOENV_x`, `SETCADDR_x`, `SETCADDDR_x` and `SETCAD4R_x` and no
other. -/
theorem C10_own_slot :
    (∀ (f g : Fn) (s : Slot), indexes f s → indexes g s →
      f = g ∨ (s = .Rf_duplicate_x ∧ (f = .Rf_duplicate ∨ f = .Rf_shallow_duplicate) ∧
        (g = .Rf_duplicate ∨ g = .Rf_shallow_duplicate))) ∧
    indexes .Rf_duplicate .Rf_duplicate_x ∧ indexes .Rf_shallow_duplicate .Rf_duplicate_x ∧
    (∀ (env : Env) (x : Val), call env .Rf_duplicate [x] =
      forwardM .Rf_duplicate .Rf_duplicate_x [x, .int 1] true .result env .Rf_duplicate []) ∧
    (∀ (env : Env) (x : Val), call env .Rf_shallow_duplicate [x] =
      forwardM .Rf_shallow_duplicate .Rf_duplicate_x [x, .int 0] true .result env
        .Rf_shallow_duplicate []) ∧
    (∀ s, indexes .SET_BODY s ↔ s = .SET_BODY_x) ∧
    (∀ s, indexes .SET_CLOENV s ↔ s = .SET_CLOENV_x) ∧
    (∀ s, indexes .SETCADDR s ↔ s = .SETCADDR_x) ∧
    (∀ s, indexes .SETCADDDR s ↔ s = .SETCADDDR_x) ∧
    (∀ s, indexes .SETCAD4R s ↔ s = .SETCAD4R_x) := by
  have hown : ∀ (f : Fn) (s : Slot), indexes f s → f = s.owner ∨ f = .Rf_shallow_duplicate := by
    intro f s h
    rcases indexes_owner f s h with h1 | ⟨_, h2⟩
    · exact Or.inl h1
    · exact Or.inr h2
  refine ⟨?_, ?_, ?_, fun _ _ => rfl, fun _ _ => rfl, ?_, ?_, ?_, ?_, ?_⟩
  · intro f g s hf hg
    rcases indexes_owner f s hf with h1 | ⟨h1, h2⟩ <;>
      rcases indexes_owner g s hg with h3 | ⟨h3, h4⟩
    · exact Or.inl (h1.trans h3.symm)
    · subst h3
      exact Or.inr ⟨rfl, Or.inl h1, Or.inr h4⟩
    · subst h1
      exact Or.inr ⟨rfl, Or.inr h2, Or.inl h3⟩
    · exact Or.inl (h2.trans h4.symm)
  · exact ⟨demoEnv, .Rf_duplicate, [], [.indet, .int 1], .ptr 100, by decide⟩
  · exact ⟨demoEnv, .Rf_shallow_duplicate, [], [.indet, .int 0], .ptr 100, by decide⟩
  · intro s
    constructor
    · intro h
      rcases hown _ s h with h1 | h1
      · revert h1; cases s <;> decide
      · exact absurd h1 (by decide)
    · rintro rfl
      exact ⟨demoEnv, .SET_BODY, [], [.indet, .indet], .ptr 100, by decide⟩
  · intro s
    constructor
    · intro h
      rcases hown _ s h with h1 | h1
      · revert h1; cases s <;> decide
      · exact absurd h1 (by decide)
    · rintro rfl
      exact ⟨demoEnv, .SET_CLOENV, [], [.indet, .indet], .ptr 100, by decide⟩
  · intro s
    constructor
    · intro h
      rcases hown _ s h with h1 | h1
      · revert h1; cases s <;> decide
      · exact absurd h1 (by decide)
    · rintro rfl
      exact ⟨demoEnv, .SETCADDR, [], [.indet, .indet], .ptr 100, by decide⟩
  · intro s
    constructor
    · intro h
      rcases hown _ s h with h1 | h1
      · revert h1; cases s <;> decide
      · exact absurd h1 (by decide)
    · rintro rfl
      exact ⟨demoEnv, .SETCADDDR, [], [.indet, .indet], .ptr 100, by decide⟩
  · intro s
    constructor
    · intro h
      rcases hown _ s h with h1 | h1
      · revert h1; cases s <;> decide
      · exact absurd h1 (by decide)
    · rintro rfl
      exact ⟨demoEnv, .SETCAD4R, [], [.indet, .indet], .ptr 100, by decide⟩

end FastR
